import Mathlib

/-!
Verification development for the Alz_The_Batch_Writing repository.

The repository holds three Python scripts:
* `generate_charts.py` — writes four matplotlib chart PNGs from literal data,
* `create_presentation_v2.py` — builds a 24-slide pptx deck (regenerating four
  charts first),
* `build_presentation.py` — builds a 32-slide pptx deck.

This file gives a shallow embedding of those scripts.  python-pptx lengths are
EMU values; `Inches`/`Pt` are modelled over `ℚ` (the scripts only pass decimal
literals, for which the rational value is exact).  The filesystem is a map from
path strings to file data; `os.path.exists` is membership in that map.  The
matplotlib figure construction is modelled as a list of drawing commands
carrying the literal numeric data and the styling arguments of each call.
-/

namespace Alz

/-- A length in EMU (python-pptx internal unit). -/
abbrev Len := ℚ

/-- Models `pptx.util.Inches`: 914400 EMU per inch. -/
def Inches (x : ℚ) : Len := x * 914400

/-- Models `pptx.util.Pt`: 12700 EMU per point. -/
def Pt (x : ℚ) : Len := x * 12700

/-- Models `pptx.dml.color.RGBColor`. -/
structure RGB where
  r : ℕ
  g : ℕ
  b : ℕ
deriving DecidableEq, Repr

/-- Models `PP_ALIGN` paragraph alignment values used by the scripts. -/
inductive Align
  | left
  | center
  | right
deriving DecidableEq, Repr

/-- Models `MSO_ANCHOR` vertical anchor values used by the scripts. -/
inductive Anchor
  | top
  | middle
  | bottom
deriving DecidableEq, Repr

/-- One formatted text run (`run.text`, `run.font.*`). -/
structure TextRun where
  text : String
  fontName : String
  size : Len
  color : RGB
  bold : Bool
  italic : Bool
deriving DecidableEq, Repr

/-- One paragraph of a text frame: its runs and paragraph-level formatting. -/
structure Paragraph where
  runs : List TextRun
  alignment : Align
  lineSpacing : Option Len
  spaceBefore : Option Len
  spaceAfter : Option Len
deriving DecidableEq, Repr

/-- A fresh `text_frame` paragraph (python-pptx textboxes start with one). -/
def emptyParagraph : Paragraph :=
  { runs := [], alignment := Align.left, lineSpacing := none,
    spaceBefore := none, spaceAfter := none }

/-- A textbox `text_frame`: word-wrap flag, vertical anchor, paragraphs. -/
structure TextFrame where
  wordWrap : Bool
  verticalAnchor : Option Anchor
  paragraphs : List Paragraph
deriving DecidableEq, Repr

/-- The `MSO_SHAPE` autoshape kinds the scripts add. -/
inductive ShapeKind
  | rectangle
  | roundedRectangle
deriving DecidableEq, Repr

/-- Outline of an autoshape: `line.fill.background()` or a colored line. -/
inductive LineFill
  | background
  | colored (c : RGB) (w : Len)
deriving DecidableEq, Repr

/-- A shape on a slide: textbox, autoshape, or picture.  A picture records the
`width`/`height` keyword arguments actually passed to `add_picture`; `none`
means the argument was omitted, so the native image size is used. -/
inductive Shape
  | textbox (left top width height : Len) (tf : TextFrame)
  | autoshape (kind : ShapeKind) (left top width height : Len)
      (fill : RGB) (line : LineFill)
  | picture (path : String) (left top : Len) (width height : Option Len)
deriving DecidableEq, Repr

/-- A slide: optional solid background fill and its shape list (in z-order). -/
structure Slide where
  background : Option RGB
  shapes : List Shape
deriving DecidableEq, Repr

/-- A fresh slide from the blank layout (`prs.slide_layouts[6]`). -/
def blankSlide : Slide := { background := none, shapes := [] }

/-- A presentation document. -/
structure Prs where
  slideWidth : Len
  slideHeight : Len
  slides : List Slide
deriving DecidableEq, Repr

/-- Models `Presentation()` on the default template: 10 × 7.5 inch slides, none yet. -/
def newPresentation : Prs :=
  { slideWidth := Inches 10, slideHeight := Inches (7.5 : ℚ), slides := [] }

/-- Environment facts the scripts consult: whether assigning
`text_frame.vertical_anchor` raises (the scripts wrap that assignment in
`try/except`), and whether the Spectral font is installed (checked by
`create_presentation_v2.py` to pick its matplotlib font). -/
structure Env where
  vaRaises : Bool
  spectralAvailable : Bool
deriving DecidableEq, Repr

/-- Truthiness of an optional numeric argument, as python `if width:` tests it:
`None` and `0` are falsy, every other value truthy. -/
def truthyQ : Option ℚ → Option ℚ
  | some q => if q = 0 then none else some q
  | none => none

/-- Python slicing `xs[::2]`: every other element, starting with the first. -/
def everyOther : List ℚ → List ℚ
  | [] => []
  | [a] => [a]
  | a :: _ :: rest => a :: everyOther rest

/-- A matplotlib drawing command, carrying the literal data and the main
styling arguments of the corresponding `ax.*` call.  Minor keyword styling
(font weights, edge colors of bars, arrow styles) is noted in comments at the
call sites rather than carried as payload. -/
inductive Cmd
  | plot (xs ys : List ℚ) (color : String) (lw : ℚ) (marker : Option String)
      (dashed : Bool) (label : Option String)
  | fillBetween (xs ys : List ℚ) (alpha : ℚ) (color : String)
  | barGroup (xs heights : List ℚ) (width : ℚ) (label : Option String)
      (colors : List String)
  | annotate (text : String) (x y : ℚ)
  | annotateArrow (x y tx ty : ℚ) (color : String)
  | valueLabels (xs heights : List ℚ) (suffix : String)
  | pointLabels (xs ys : List ℚ) (suffix : String)
  | diffLabels (xs lo hi : List ℚ)
  | scatter (x y s : ℚ) (color : String)
  | textAt (x y : ℚ) (s : String) (color : String)
  | axhline (y : ℚ) (color : String)
  | xlabel (s color : String)
  | ylabel (s color : String)
  | title (s color : String)
  | xlim (a b : ℚ)
  | ylim (a b : ℚ)
  | xticks (pos : List ℚ) (labels : List String)
  | legend
  | spinesStyled (edgeColor : String)
  | tickColors (c : String)
  | yAxisFormat (tag : String)
deriving DecidableEq, Repr

/-- A matplotlib figure: `figsize`, the serif font preference list in force
(from `rcParams`), and the drawing commands issued on its axes, in order. -/
structure Figure where
  figW : ℚ
  figH : ℚ
  fontSerif : List String
  cmds : List Cmd
deriving DecidableEq, Repr

/-- Contents of a file in the model: a PNG rendered from a figure (with the
`savefig` dpi and transparency arguments), a saved pptx document, or a
pre-existing binary asset. -/
inductive FileData
  | png (fig : Figure) (dpi : ℕ) (transparent : Bool)
  | pptx (p : Prs)
  | blob (tag : String)
deriving DecidableEq, Repr

/-- The filesystem: a map from absolute path to file contents. -/
def FS := String → Option FileData

/-- Models `os.path.exists`. -/
def path_exists (fs : FS) (p : String) : Bool := (fs p).isSome

/-- Writing (creating or overwriting) one file. -/
def writeFile (p : String) (d : FileData) (fs : FS) : FS :=
  fun q => if q = p then some d else fs q

/-- The empty filesystem: no image assets, no charts, no outputs. -/
def fsEmpty : FS := fun _ => none

/-- Models `os.path.isabs`: the path starts with a slash. -/
def isAbs (p : String) : Bool :=
  match p.data with
  | [] => false
  | c :: _ => c == '/'

/-- An observable effect of a run, in execution order: a chart file write, the
addition of one slide to the in-memory presentation (tagged with the name of
the slide section that added it), or the saving of the output document. -/
inductive Event
  | write (path : String)
  | slideAdded (name : String)
  | saved (path : String)
deriving DecidableEq, Repr

/-- Is the event a chart-file write? -/
def Event.isWrite : Event → Bool
  | Event.write _ => true
  | _ => false

/-- Is the event a slide addition? -/
def Event.isSlideAdded : Event → Bool
  | Event.slideAdded _ => true
  | _ => false

/-- Is the event a document save? -/
def Event.isSave : Event → Bool
  | Event.saved _ => true
  | _ => false

namespace GenCharts

/-!  Embedding of `generate_charts.py`.  -/

/-- Models `os.path.dirname(os.path.abspath(__file__))` for the script, i.e.
the repository's `Presentation ` directory (the directory name carries a
trailing space in the repository).  No claim depends on the actual value. -/
def SCRIPT_DIR : String := "/repo/Presentation "

def OUTPUT_DIR : String := SCRIPT_DIR ++ "/generated_charts"

def DARK_BG : String := "#0D1117"

def LIGHT_BG : String := "#F7F5F0"

def COPPER : String := "#C17F3A"

def BLUE : String := "#3B82B6"

def RED : String := "#DC4A4A"

def GREEN : String := "#5B8C6B"

def TEXT_DARK : String := "#2D2D2D"

def TEXT_LIGHT : String := "#E8E4DE"

def CITE_GRAY : String := "#8B8680"

/-- The `plt.rcParams` serif font list set at module load. -/
def fontSerif : List String := ["Georgia", "DejaVu Serif", "Times New Roman"]

/-- Models `chart1_prevalence`: line chart of AD prevalence 2025-2060, saved as
`prevalence_projection.png`. -/
def chart1_prevalence (fs : FS) : FS × List String :=
  let years : List ℚ := [2025, 2030, 2035, 2040, 2045, 2050, 2055, 2060]
  let prevalence : List ℚ := [7.2, 8.0, 9.1, 10.3, 11.2, 12.1, 13.0, 13.8]
  let fig : Figure :=
    { figW := 8, figH := 4.5, fontSerif := fontSerif,
      cmds :=
        [Cmd.plot years prevalence COPPER 3 (some "o") false none,
         Cmd.fillBetween years prevalence 0.12 COPPER,
         Cmd.annotate "7.2M" 2025 7.8,
         Cmd.annotate "13.8M" 2060 14.4,
         Cmd.xlabel "Year" TEXT_DARK,
         Cmd.ylabel "Americans with AD (millions)" TEXT_DARK,
         Cmd.title "Projected Alzheimer\x27s Prevalence" TEXT_DARK,
         Cmd.spinesStyled CITE_GRAY,
         Cmd.tickColors TEXT_DARK,
         Cmd.ylim 5 16,
         Cmd.yAxisFormat "%.1f"] }
  (writeFile (OUTPUT_DIR ++ "/prevalence_projection.png")
     (FileData.png fig 300 true) fs,
   ["  ✓ Chart 1: prevalence_projection.png"])

/-- Models `chart2_ml_comparison`: grouped bar chart AD-vs-HC vs MCI, saved as
`ml_comparison.png`. -/
def chart2_ml_comparison (fs : FS) : FS × List String :=
  let svm : List ℚ := [94.5, 68.0]
  let rf : List ℚ := [91.0, 65.0]
  let lr : List ℚ := [89.5, 63.0]
  let x : List ℚ := [0, 1]
  let w : ℚ := 0.22
  let fig : Figure :=
    { figW := 8, figH := 4.5, fontSerif := fontSerif,
      cmds :=
        [Cmd.barGroup (x.map (fun v => v - w)) svm w (some "SVM") [COPPER],
         Cmd.barGroup x rf w (some "Random Forest") [BLUE],
         Cmd.barGroup (x.map (fun v => v + w)) lr w
           (some "Logistic Regression") [GREEN],
         Cmd.valueLabels (x.map (fun v => v - w)) svm "%",
         Cmd.valueLabels x rf "%",
         Cmd.valueLabels (x.map (fun v => v + w)) lr "%",
         Cmd.ylabel "Accuracy (%)" TEXT_DARK,
         Cmd.title "Classical ML: AD Detection vs MCI Detection" TEXT_DARK,
         Cmd.xticks x ["AD vs HC", "MCI vs HC"],
         Cmd.ylim 0 110,
         Cmd.legend,
         Cmd.spinesStyled CITE_GRAY,
         Cmd.tickColors TEXT_DARK,
         Cmd.annotateArrow 1.3 70 1.3 94 RED,
         Cmd.textAt 1.45 82 "~25% drop" RED] }
  (writeFile (OUTPUT_DIR ++ "/ml_comparison.png")
     (FileData.png fig 300 true) fs,
   ["  ✓ Chart 2: ml_comparison.png"])

/-- Models `chart3_roc_curve`: conceptual ROC curve, saved as `roc_curve.png`. -/
def chart3_roc_curve (fs : FS) : FS × List String :=
  let fprGood : List ℚ := [0, 0.02, 0.05, 0.10, 0.15, 0.25, 0.40, 0.60, 1.0]
  let tprGood : List ℚ := [0, 0.45, 0.65, 0.78, 0.85, 0.92, 0.96, 0.98, 1.0]
  let fig : Figure :=
    { figW := 5.5, figH := 5.5, fontSerif := fontSerif,
      cmds :=
        [Cmd.plot [0, 1] [0, 1] CITE_GRAY 1.5 none true
           (some "Chance (AUC = 0.50)"),
         Cmd.fillBetween fprGood tprGood 0.10 BLUE,
         Cmd.plot fprGood tprGood BLUE 3 none false
           (some "Best Model (AUC = 0.93)"),
         Cmd.scatter 0.10 0.78 120 COPPER,
         Cmd.annotate "Optimal\nThreshold" 0.25 0.65,
         Cmd.xlabel "False Positive Rate" TEXT_DARK,
         Cmd.ylabel "True Positive Rate" TEXT_DARK,
         Cmd.title "ROC Curve: AD Classification" TEXT_DARK,
         Cmd.legend,
         Cmd.spinesStyled CITE_GRAY,
         Cmd.tickColors TEXT_DARK,
         Cmd.xlim (-0.02) 1.02,
         Cmd.ylim (-0.02) 1.05] }
  (writeFile (OUTPUT_DIR ++ "/roc_curve.png")
     (FileData.png fig 300 true) fs,
   ["  ✓ Chart 3: roc_curve.png"])

/-- Models `chart4_data_leakage`: before/after bar chart of data-leakage impact,
saved as `data_leakage_impact.png`. -/
def chart4_data_leakage (fs : FS) : FS × List String :=
  let values : List ℚ := [95, 67]
  let fig : Figure :=
    { figW := 6, figH := 4.5, fontSerif := fontSerif,
      cmds :=
        [Cmd.barGroup [0, 1] values 0.5 none [RED, GREEN],
         Cmd.valueLabels [0, 1] values "%",
         Cmd.annotateArrow 1 67 0 95 TEXT_DARK,
         Cmd.textAt 0.5 85 "−28%" RED,
         Cmd.ylabel "Reported Accuracy (%)" TEXT_DARK,
         Cmd.title "Impact of Data Leakage on Model Performance" TEXT_DARK,
         Cmd.ylim 0 110,
         Cmd.spinesStyled CITE_GRAY,
         Cmd.tickColors TEXT_DARK,
         Cmd.xticks [0, 1] ["With Data\nLeakage", "Without Data\nLeakage"]] }
  (writeFile (OUTPUT_DIR ++ "/data_leakage_impact.png")
     (FileData.png fig 300 true) fs,
   ["  ✓ Chart 4: data_leakage_impact.png"])

/-- The `if __name__ == "__main__":` block of `generate_charts.py`. -/
def main (fs : FS) : FS × List String :=
  let r1 := chart1_prevalence fs
  let r2 := chart2_ml_comparison r1.1
  let r3 := chart3_roc_curve r2.1
  let r4 := chart4_data_leakage r3.1
  (r4.1,
   ["Generating presentation charts..."] ++ r1.2 ++ r2.2 ++ r3.2 ++ r4.2 ++
     ["\nAll charts saved to: " ++ OUTPUT_DIR])

/-- The four chart paths the script writes, in write order. -/
def chartPaths : List String :=
  [OUTPUT_DIR ++ "/prevalence_projection.png",
   OUTPUT_DIR ++ "/ml_comparison.png",
   OUTPUT_DIR ++ "/roc_curve.png",
   OUTPUT_DIR ++ "/data_leakage_impact.png"]

end GenCharts

namespace V2

/-!  Embedding of `create_presentation_v2.py`.  -/

/-- Models `BASE = os.path.dirname(os.path.abspath(__file__))`; same directory as
`GenCharts.SCRIPT_DIR`. -/
def BASE : String := "/repo/Presentation "

def IMG_DIR : String := "/repo/images"

def ALZ_DIR : String := "/home/paris/Code/AlzTheBatch"

def CHART_DIR : String := BASE ++ "/generated_charts"

def OUTPUT : String := BASE ++ "/AI_Alzheimer_Thesis_Presentation_v2.pptx"

def DARK_BG : RGB := ⟨0x0D, 0x11, 0x17⟩

def LIGHT_BG : RGB := ⟨0xF7, 0xF5, 0xF0⟩

def COPPER : RGB := ⟨0xC1, 0x7F, 0x3A⟩

def BLUE : RGB := ⟨0x3B, 0x82, 0xB6⟩

def RED : RGB := ⟨0xDC, 0x4A, 0x4A⟩

def GREEN : RGB := ⟨0x5B, 0x8C, 0x6B⟩

/-- Light text for dark backgrounds (named `TEXT_DARK` in the script). -/
def TEXT_DARK : RGB := ⟨0xE8, 0xE4, 0xDE⟩

/-- Dark text for light backgrounds (named `TEXT_LIGHT` in the script). -/
def TEXT_LIGHT : RGB := ⟨0x2D, 0x2D, 0x2D⟩

def CITATION_C : RGB := ⟨0x8B, 0x86, 0x80⟩

def WHITE : RGB := ⟨0xFF, 0xFF, 0xFF⟩

def DARK_ACCENT : RGB := ⟨0x1A, 0x1F, 0x2B⟩

def MPL_COPPER : String := "#C17F3A"

def MPL_BLUE : String := "#3B82B6"

def MPL_RED : String := "#DC4A4A"

def MPL_GREEN : String := "#5B8C6B"

def MPL_TEXT_L : String := "#2D2D2D"

def MPL_CITATION : String := "#8B8680"

def FONT : String := "Spectral"

def SLIDE_W : Len := Inches (13.3 : ℚ)

def SLIDE_H : Len := Inches (7.5 : ℚ)

/-- Models `MPL_FONT`: Spectral when installed, Georgia otherwise. -/
def MPL_FONT (env : Env) : String :=
  if env.spectralAvailable then "Spectral" else "Georgia"

/-- Serif list set by `setup_mpl()`. -/
def mplSerif (env : Env) : List String :=
  [MPL_FONT env, "Georgia", "Times New Roman"]

/-- Models `generate_prevalence_chart`: writes `prevalence_projection.png` and
returns its path. -/
def generate_prevalence_chart (env : Env) (fs : FS) : FS × String :=
  let years : List ℚ := [2025, 2030, 2035, 2040, 2045, 2050, 2055, 2060]
  let millions : List ℚ := [7.2, 8.4, 9.6, 10.8, 11.7, 12.5, 13.2, 13.8]
  let fig : Figure :=
    { figW := 8, figH := 4.5, fontSerif := mplSerif env,
      cmds :=
        [Cmd.fillBetween years millions 0.15 MPL_COPPER,
         Cmd.plot years millions MPL_COPPER 3 (some "o") false none,
         Cmd.xlabel "Year" MPL_TEXT_L,
         Cmd.ylabel "Millions of Americans" MPL_TEXT_L,
         Cmd.ylim 5 15,
         Cmd.xlim 2023 2062,
         Cmd.spinesStyled MPL_CITATION,
         Cmd.tickColors MPL_TEXT_L,
         Cmd.yAxisFormat "{x:.0f}M",
         Cmd.pointLabels (everyOther years) (everyOther millions) "M"] }
  let path := CHART_DIR ++ "/prevalence_projection.png"
  (writeFile path (FileData.png fig 300 true) fs, path)

/-- Models `generate_classical_ml_chart`: writes `classical_ml_comparison.png`. -/
def generate_classical_ml_chart (env : Env) (fs : FS) : FS × String :=
  let svmVals : List ℚ := [94.5, 68.0]
  let rfVals : List ℚ := [91.0, 62.0]
  let x : List ℚ := [0, 1]
  let w : ℚ := 0.3
  let fig : Figure :=
    { figW := 7, figH := 4.5, fontSerif := mplSerif env,
      cmds :=
        [Cmd.barGroup (x.map (fun v => v - w / 2)) svmVals w (some "SVM")
           [MPL_BLUE],
         Cmd.barGroup (x.map (fun v => v + w / 2)) rfVals w
           (some "Random Forest") [MPL_COPPER],
         Cmd.ylabel "Accuracy (%)" MPL_TEXT_L,
         Cmd.ylim 0 105,
         Cmd.xticks x ["AD vs HC\n(Binary)", "MCI Detection\n(Multi-class)"],
         Cmd.spinesStyled MPL_CITATION,
         Cmd.tickColors MPL_TEXT_L,
         Cmd.legend,
         Cmd.valueLabels (x.map (fun v => v - w / 2)) svmVals "%",
         Cmd.valueLabels (x.map (fun v => v + w / 2)) rfVals "%",
         Cmd.annotateArrow 1.15 68 1.15 94.5 MPL_RED,
         Cmd.textAt 1.35 81 "~27%\ngap" MPL_RED,
         Cmd.axhline 70 MPL_CITATION] }
  let path := CHART_DIR ++ "/classical_ml_comparison.png"
  (writeFile path (FileData.png fig 300 true) fs, path)

/-- Models `generate_cnn_vs_swin_chart`: writes `cnn_vs_swin_comparison.png`. -/
def generate_cnn_vs_swin_chart (env : Env) (fs : FS) : FS × String :=
  let cnnVals : List ℚ := [59.3, 63.5, 51.9, 35.6]
  let swinVals : List ℚ := [87.6, 90.4, 89.2, 80.0]
  let x : List ℚ := [0, 1, 2, 3]
  let w : ℚ := 0.32
  let fig : Figure :=
    { figW := 8, figH := 4.5, fontSerif := mplSerif env,
      cmds :=
        [Cmd.barGroup (x.map (fun v => v - w / 2)) cnnVals w
           (some "CNN (Combined)") [MPL_RED],
         Cmd.barGroup (x.map (fun v => v + w / 2)) swinVals w
           (some "Swin Transformer") [MPL_GREEN],
         Cmd.ylabel "Score (%)" MPL_TEXT_L,
         Cmd.ylim 0 105,
         Cmd.xticks x ["Accuracy", "Balanced\nAccuracy", "F1 Macro", "MCC"],
         Cmd.spinesStyled MPL_CITATION,
         Cmd.tickColors MPL_TEXT_L,
         Cmd.legend,
         Cmd.valueLabels (x.map (fun v => v - w / 2)) cnnVals "%",
         Cmd.valueLabels (x.map (fun v => v + w / 2)) swinVals "%",
         Cmd.diffLabels x cnnVals swinVals] }
  let path := CHART_DIR ++ "/cnn_vs_swin_comparison.png"
  (writeFile path (FileData.png fig 300 true) fs, path)

/-- Models `generate_leakage_chart`: writes `data_leakage_impact.png`. -/
def generate_leakage_chart (env : Env) (fs : FS) : FS × String :=
  let values : List ℚ := [95.0, 67.0]
  let fig : Figure :=
    { figW := 6, figH := 4.5, fontSerif := mplSerif env,
      cmds :=
        [Cmd.barGroup [0, 1] values 0.5 none [MPL_RED, MPL_GREEN],
         Cmd.ylabel "Reported Accuracy (%)" MPL_TEXT_L,
         Cmd.ylim 0 110,
         Cmd.spinesStyled MPL_CITATION,
         Cmd.tickColors MPL_TEXT_L,
         Cmd.valueLabels [0, 1] values "%",
         Cmd.annotateArrow 1 67 0 95 MPL_TEXT_L,
         Cmd.textAt 0.5 78 "-28pp" MPL_RED,
         Cmd.xticks [0, 1] ["With Data\nLeakage", "Proper\nMethodology"]] }
  let path := CHART_DIR ++ "/data_leakage_impact.png"
  (writeFile path (FileData.png fig 300 true) fs, path)

/-- Models `set_slide_bg`: solid background fill. -/
def set_slide_bg (slide : Slide) (color : RGB) : Slide :=
  { slide with background := some color }

/-- The raw library assignment `tf.vertical_anchor = anchor`, which the
script treats as fallible (it wraps every such assignment in
`try/except Exception: pass`); `env.vaRaises` says whether it raises. -/
def set_vertical_anchor_raw (env : Env) (tf : TextFrame) (a : Anchor) :
    Except String TextFrame :=
  if env.vaRaises then Except.error "vertical_anchor assignment raised"
  else Except.ok { tf with verticalAnchor := some a }

/-- The `try: tf.vertical_anchor = anchor except Exception: pass` block. -/
def try_set_vertical_anchor (env : Env) (tf : TextFrame) (a : Anchor) :
    TextFrame :=
  match set_vertical_anchor_raw env tf a with
  | Except.ok tf2 => tf2
  | Except.error _ => tf

/-- Models `add_text_box`: one-paragraph textbox.  Argument order follows the
script: left, top, width, height, text, font_size, color, bold, italic,
alignment, font_name, anchor. -/
def add_text_box (env : Env) (slide : Slide) (left top width height : Len)
    (text : String) (font_size : ℚ) (color : RGB) (bold italic : Bool)
    (alignment : Align) (font_name : String) (anchor : Anchor) : Slide :=
  let tf : TextFrame := { wordWrap := true, verticalAnchor := none,
                          paragraphs := [emptyParagraph] }
  let tf := try_set_vertical_anchor env tf anchor
  let para : Paragraph :=
    { runs := [⟨text, font_name, Pt font_size, color, bold, italic⟩],
      alignment := alignment, lineSpacing := none,
      spaceBefore := none, spaceAfter := none }
  let tf := { tf with paragraphs := [para] }
  { slide with shapes := slide.shapes ++ [Shape.textbox left top width height tf] }

/-- One entry of the `runs` list taken by `add_rich_text`: the keys the dict
may carry; a missing key falls back to the `run_data.get` default. -/
structure RunSpec where
  text : String
  font : Option String
  size : Option ℚ
  color : Option RGB
  bold : Option Bool
  italic : Option Bool
deriving DecidableEq, Repr

def runOfSpec (r : RunSpec) : TextRun :=
  ⟨r.text, r.font.getD FONT, Pt (r.size.getD 16), r.color.getD TEXT_LIGHT,
   r.bold.getD false, r.italic.getD false⟩

/-- Models `add_rich_text`: a textbox whose single paragraph holds several formatted
runs. -/
def add_rich_text (env : Env) (slide : Slide) (left top width height : Len)
    (runs : List RunSpec) (alignment : Align) (anchor : Anchor)
    (line_spacing : Option ℚ) : Slide :=
  let tf : TextFrame := { wordWrap := true, verticalAnchor := none,
                          paragraphs := [emptyParagraph] }
  let tf := try_set_vertical_anchor env tf anchor
  let para : Paragraph :=
    { runs := runs.map runOfSpec, alignment := alignment,
      lineSpacing := (truthyQ line_spacing).map Pt,
      spaceBefore := none, spaceAfter := none }
  let tf := { tf with paragraphs := [para] }
  { slide with shapes := slide.shapes ++ [Shape.textbox left top width height tf] }

/-- One line taken by `add_multiline_text`: a plain string, or a dict whose
missing keys fall back to the function's keyword defaults. -/
inductive MLine
  | plain (s : String)
  | fmt (text : String) (size : Option ℚ) (color : Option RGB)
      (bold : Option Bool) (italic : Option Bool) (font : Option String)
      (alignment : Option Align) (spacing : Option ℚ)
deriving DecidableEq, Repr

/-- The paragraph built for one line of `add_multiline_text`. -/
def mlineParagraph (font_size : ℚ) (color : RGB) (font_name : String)
    (bold : Bool) (alignment : Align) (line_spacing : Option ℚ) :
    MLine → Paragraph
  | MLine.plain s =>
      { runs := [⟨s, font_name, Pt font_size, color, bold, false⟩],
        alignment := alignment, lineSpacing := (truthyQ line_spacing).map Pt,
        spaceBefore := none, spaceAfter := none }
  | MLine.fmt t sz c b i f a sp =>
      { runs := [⟨t, f.getD font_name, Pt (sz.getD font_size), c.getD color,
                  b.getD bold, i.getD false⟩],
        alignment := a.getD alignment,
        lineSpacing := (truthyQ line_spacing).map Pt,
        spaceBefore := (truthyQ sp).map Pt, spaceAfter := none }

/-- Models `add_multiline_text`: a textbox with one paragraph per line. -/
def add_multiline_text (env : Env) (slide : Slide)
    (left top width height : Len) (lines : List MLine) (font_size : ℚ)
    (color : RGB) (font_name : String) (bold : Bool) (alignment : Align)
    (line_spacing : Option ℚ) (anchor : Anchor) : Slide :=
  let tf : TextFrame := { wordWrap := true, verticalAnchor := none,
                          paragraphs := [emptyParagraph] }
  let tf := try_set_vertical_anchor env tf anchor
  let paras :=
    if lines = [] then [emptyParagraph]
    else lines.map (mlineParagraph font_size color font_name bold alignment
      line_spacing)
  let tf := { tf with paragraphs := paras }
  { slide with shapes := slide.shapes ++ [Shape.textbox left top width height tf] }

/-- Models `add_citation`: 9-pt italic gray strip near the bottom.  The `bg_dark`
parameter is accepted and never read. -/
def add_citation (env : Env) (slide : Slide) (text : String)
    (bg_dark : Bool) : Slide :=
  add_text_box env slide (Inches (0.5 : ℚ)) (Inches 7) (Inches (12.3 : ℚ))
    (Inches (0.4 : ℚ)) text 9 CITATION_C false true Align.left FONT Anchor.top

/-- Models `add_shape_rect`. -/
def add_shape_rect (slide : Slide) (left top width height : Len)
    (fill_color : RGB) (border_color : Option RGB) : Slide :=
  let line := match border_color with
    | some c => LineFill.colored c (Pt 1)
    | none => LineFill.background
  { slide with shapes := slide.shapes ++
      [Shape.autoshape ShapeKind.rectangle left top width height fill_color line] }

/-- Models `add_rounded_rect`. -/
def add_rounded_rect (slide : Slide) (left top width height : Len)
    (fill_color : RGB) (border_color : Option RGB) : Slide :=
  let line := match border_color with
    | some c => LineFill.colored c (Pt 1)
    | none => LineFill.background
  { slide with shapes := slide.shapes ++
      [Shape.autoshape ShapeKind.roundedRectangle left top width height
        fill_color line] }

/-- The underlying library call `slide.shapes.add_picture(path, **kwargs)`:
raises (`FileNotFoundError`) when the path does not exist. -/
def add_picture (fs : FS) (slide : Slide) (path : String) (left top : Len)
    (width height : Option Len) : Except String Slide :=
  if path_exists fs path then
    Except.ok { slide with shapes := slide.shapes ++
      [Shape.picture path left top width height] }
  else Except.error ("FileNotFoundError: " ++ path)

/-- Models `add_image_safe`: add the picture when the file exists (passing `width`/
`height` kwargs only when truthy), otherwise print a warning and skip.  The
existence guard means the `add_picture` call inside cannot raise; the success
case is therefore inlined.  Returns the slide, the printed lines, and the
boolean result. -/
def add_image_safe (fs : FS) (slide : Slide) (path : String) (left top : Len)
    (width height : Option Len) : Slide × List String × Bool :=
  if path_exists fs path then
    ({ slide with shapes := slide.shapes ++
        [Shape.picture path left top (truthyQ width) (truthyQ height)] },
     [], true)
  else
    (slide, ["  WARNING: Image not found: " ++ path], false)

/-- Models `add_accent_line`: a 3-pt-high borderless rectangle. -/
def add_accent_line (slide : Slide) (left top width : Len) (color : RGB) :
    Slide :=
  { slide with shapes := slide.shapes ++
      [Shape.autoshape ShapeKind.rectangle left top width (Pt 3) color
        LineFill.background] }

/-- Models `slide_01_title`.  In python the blank slide is appended to the deck
first and then mutated in place; here it is built locally and appended at
the end, which yields the same final document. -/
def slide_01_title (env : Env) (fs : FS) (prs : Prs) : Prs × List String :=
  let slide := set_slide_bg blankSlide DARK_BG
  let logo := IMG_DIR ++ "/logo_en.png"
  let r1 := add_image_safe fs slide logo (Inches 0.6) (Inches 0.4)
    (some (Inches 2.8)) none
  let slide := r1.1
  let slide := add_accent_line slide (Inches 0.6) (Inches 3.2) (Inches 3) COPPER
  let slide := add_text_box env slide (Inches 0.6) (Inches 3.5) (Inches 11)
    (Inches 1.2) "Artificial Intelligence in Alzheimer\x27s Disease Diagnosis"
    34 TEXT_DARK true false Align.left FONT Anchor.top
  let slide := add_text_box env slide (Inches 0.6) (Inches 4.8) (Inches 11)
    (Inches 0.8) "From Neuroimaging Pipelines to Deep Learning Classification"
    20 COPPER false true Align.left FONT Anchor.top
  let slide := add_multiline_text env slide (Inches 0.6) (Inches 5.8)
    (Inches 6) (Inches 1.2)
    [MLine.fmt "Paris Karageorgakis" (some 16) (some TEXT_DARK) (some true)
       none none none none,
     MLine.fmt "University of Piraeus, Department of Informatics" (some 13)
       (some CITATION_C) none none none none (some 6),
     MLine.fmt "Thesis Advisor: Prof. Christos Douligeris" (some 13)
       (some CITATION_C) none none none none (some 4)]
    14 TEXT_LIGHT FONT false Align.left none Anchor.top
  ({ prs with slides := prs.slides ++ [slide] }, r1.2.1)

/-- Models `slide_02_epidemic`. -/
def slide_02_epidemic (env : Env) (fs : FS) (prs : Prs) (chart_path : String) :
    Prs × List String :=
  let slide := set_slide_bg blankSlide LIGHT_BG
  let slide := add_text_box env slide (Inches 0.8) (Inches 0.4) (Inches 3)
    (Inches 0.4) "THE PROBLEM" 11 COPPER true false Align.left FONT Anchor.top
  let slide := add_text_box env slide (Inches 0.8) (Inches 0.9) (Inches 5)
    (Inches 1.5) "7.2 Million" 72 DARK_BG true false Align.left FONT Anchor.top
  let slide := add_text_box env slide (Inches 0.8) (Inches 2.4) (Inches 5)
    (Inches 0.5) "Americans living with Alzheimer\x27s disease" 18 TEXT_LIGHT
    false false Align.left FONT Anchor.top
  let stats : List String :=
    ["Every 65 seconds, someone develops AD",
     "$360 billion annual healthcare cost",
     "6th leading cause of death in the US",
     "Projected to reach 13.8M by 2060"]
  let slide := add_multiline_text env slide (Inches 0.8) (Inches 3.2)
    (Inches 5) (Inches 2.5)
    (stats.map (fun s => MLine.fmt ("•  " ++ s) (some 14)
      (some TEXT_LIGHT) none none none none (some 8)))
    14 TEXT_LIGHT FONT false Align.left (some 22) Anchor.top
  let r1 := add_image_safe fs slide chart_path (Inches 6.5) (Inches 1)
    (some (Inches 6.2)) none
  let slide := r1.1
  let slide := add_citation env slide
    "Alzheimer\x27s Association, 2024 Facts and Figures  |  Rajan et al., 2021"
    false
  ({ prs with slides := prs.slides ++ [slide] }, r1.2.1)

/-- Models `slide_03_window_atn`. -/
def slide_03_window_atn (env : Env) (fs : FS) (prs : Prs) :
    Prs × List String :=
  let slide := set_slide_bg blankSlide DARK_BG
  let slide := add_text_box env slide (Inches 0.6) (Inches 0.4) (Inches 6)
    (Inches 0.4) "THE 20-YEAR WINDOW" 11 COPPER true false Align.left FONT
    Anchor.top
  let slide := add_text_box env slide (Inches 0.6) (Inches 1) (Inches 5.8)
    (Inches 1.5)
    "Pathological changes begin 15–20 years before the first clinical symptoms."
    26 TEXT_DARK true false Align.left FONT Anchor.top
  let slide := add_multiline_text env slide (Inches 0.6) (Inches 2.8)
    (Inches 5.8) (Inches 3.5)
    [MLine.fmt "By the time of diagnosis, neuronal loss is already irreversible."
       (some 15) (some TEXT_DARK) none none none none none,
     MLine.fmt "" (some 8) (some TEXT_DARK) none none none none none,
     MLine.fmt "The diagnostic challenge:" (some 15) (some COPPER) (some true)
       none none none (some 12),
     MLine.fmt "•  MCI patients convert to AD at 10–15% per year"
       (some 14) (some TEXT_DARK) none none none none (some 8),
     MLine.fmt "•  Clinical diagnosis accuracy: ~77% (confirmed at autopsy)"
       (some 14) (some TEXT_DARK) none none none none (some 6),
     MLine.fmt "•  Early intervention could slow progression by 30%"
       (some 14) (some TEXT_DARK) none none none none (some 6)]
    14 TEXT_LIGHT FONT false Align.left (some 20) Anchor.top
  let slide := add_shape_rect slide (Inches 6.6) (Inches 0.5) (Pt 2)
    (Inches 6.2) COPPER none
  let slide := add_text_box env slide (Inches 7) (Inches 0.4) (Inches 6)
    (Inches 0.4) "AT(N) FRAMEWORK" 11 COPPER true false Align.left FONT
    Anchor.top
  let slide := add_text_box env slide (Inches 7) (Inches 1) (Inches 5.5)
    (Inches 0.8) "Biological Classification of AD" 22 TEXT_DARK true false
    Align.left FONT Anchor.top
  let atn : List (String × String × String × RGB) :=
    [("A", "Amyloid",
      "Aβ plaques accumulate\n15–20 years before symptoms", BLUE),
     ("T", "Tau",
      "Neurofibrillary tangles spread\nalong predictable pathways", COPPER),
     ("(N)", "Neurodegeneration",
      "Synaptic loss, brain atrophy\nmeasurable on MRI", RED)]
  let acc := atn.foldl (fun (acc : Slide × Len) it =>
    let slide := acc.1
    let y := acc.2
    let slide := add_rounded_rect slide (Inches 7) y (Inches 0.9)
      (Inches 1.2) it.2.2.2 none
    let slide := add_text_box env slide (Inches 7) (y + Inches 0.15)
      (Inches 0.9) (Inches 0.9) it.1 28 WHITE true false Align.center FONT
      Anchor.top
    let slide := add_text_box env slide (Inches 8.1) (y + Inches 0.05)
      (Inches 4.5) (Inches 0.4) it.2.1 16 TEXT_DARK true false Align.left FONT
      Anchor.top
    let slide := add_text_box env slide (Inches 8.1) (y + Inches 0.45)
      (Inches 4.5) (Inches 0.7) it.2.2.1 12 CITATION_C false false Align.left
      FONT Anchor.top
    (slide, y + Inches 1.5)) (slide, Inches 2)
  let slide := acc.1
  let slide := add_citation env slide
    "Jack et al., 2018  |  Sperling et al., 2011  |  NIA-AA Research Framework"
    true
  ({ prs with slides := prs.slides ++ [slide] }, [])

/-- Models `slide_04_neuroimaging`. -/
def slide_04_neuroimaging (env : Env) (fs : FS) (prs : Prs) :
    Prs × List String :=
  let slide := set_slide_bg blankSlide DARK_BG
  let img := IMG_DIR ++ "/nihms-137059-f0004.jpg"
  let r1 := add_image_safe fs slide img (Inches 5.5) (Inches 0.3)
    (some (Inches 7.5)) none
  let slide := r1.1
  let slide := add_shape_rect slide (Inches 0) (Inches 0) (Inches 6) SLIDE_H
    DARK_BG none
  let slide := add_text_box env slide (Inches 0.6) (Inches 0.4) (Inches 5)
    (Inches 0.4) "WHY NEUROIMAGING" 11 COPPER true false Align.left FONT
    Anchor.top
  let slide := add_text_box env slide (Inches 0.6) (Inches 1) (Inches 5)
    (Inches 1.2) "The Window into\nBrain Pathology" 32 TEXT_DARK true false
    Align.left FONT Anchor.top
  let slide := add_accent_line slide (Inches 0.6) (Inches 2.5) (Inches 2)
    COPPER
  let benefits : List (String × String) :=
    [("Non-invasive", "No surgery, no lumbar puncture required"),
     ("Quantifiable", "Volumetric measurements enable objective tracking"),
     ("Reproducible", "Standardized protocols across clinical sites"),
     ("Accessible", "MRI available in most medical centers worldwide")]
  let acc := benefits.foldl (fun (acc : Slide × Len) it =>
    let slide := acc.1
    let y := acc.2
    let slide := add_text_box env slide (Inches 0.6) y (Inches 5)
      (Inches 0.35) it.1 16 COPPER true false Align.left FONT Anchor.top
    let slide := add_text_box env slide (Inches 0.6) (y + Inches 0.35)
      (Inches 5) (Inches 0.4) it.2 13 TEXT_DARK false false Align.left FONT
      Anchor.top
    (slide, y + Inches 0.95)) (slide, Inches 3)
  let slide := acc.1
  let slide := add_citation env slide
    "Jack et al., 2010  |  Defined in MRI context by  Defined in MRI context"
    true
  ({ prs with slides := prs.slides ++ [slide] }, r1.2.1)

/-- Models `slide_05_datasets`. -/
def slide_05_datasets (env : Env) (fs : FS) (prs : Prs) : Prs × List String :=
  let slide := set_slide_bg blankSlide LIGHT_BG
  let slide := add_text_box env slide (Inches 0.6) (Inches 0.4) (Inches 5)
    (Inches 0.4) "BENCHMARK DATASETS" 11 COPPER true false Align.left FONT
    Anchor.top
  let slide := add_text_box env slide (Inches 0.6) (Inches 0.9) (Inches 10)
    (Inches 0.8) "The Three Pillars of AD Neuroimaging Research" 28 TEXT_LIGHT
    true false Align.left FONT Anchor.top
  let slide := add_accent_line slide (Inches 0.6) (Inches 1.8) (Inches 2)
    COPPER
  let datasets : List (String × String × RGB × List String) :=
    [("ADNI", "Alzheimer\x27s Disease\nNeuroimaging Initiative", BLUE,
      ["2,400+ subjects", "Longitudinal since 2004",
       "MRI + PET + CSF + genetics", "Gold standard for method validation"]),
     ("AIBL", "Australian Imaging,\nBiomarkers & Lifestyle", COPPER,
      ["1,100+ subjects", "Melbourne & Perth cohorts",
       "Focus on lifestyle factors", "Diverse population sampling"]),
     ("OASIS", "Open Access Series\nof Imaging Studies", GREEN,
      ["2,000+ subjects", "Cross-sectional + longitudinal",
       "Freely available", "Ages 18–96 years"])]
  let xs : List Len := [Inches 0.6, Inches 4.7, Inches 8.8]
  let slide := (xs.zip datasets).foldl (fun (slide : Slide) it =>
    let x := it.1
    let name := it.2.1
    let full := it.2.2.1
    let color := it.2.2.2.1
    let stats := it.2.2.2.2
    let slide := add_rounded_rect slide x (Inches 2.2) (Inches 3.6)
      (Inches 1.2) color none
    let slide := add_text_box env slide (x + Inches 0.2) (Inches 2.3)
      (Inches 3.2) (Inches 0.5) name 24 WHITE true false Align.left FONT
      Anchor.top
    let slide := add_text_box env slide (x + Inches 0.2) (Inches 2.8)
      (Inches 3.2) (Inches 0.5) full 11 WHITE false false Align.left FONT
      Anchor.top
    let acc := stats.foldl (fun (acc : Slide × Len) stat =>
      let slide := add_text_box env acc.1 (x + Inches 0.2) acc.2 (Inches 3.4)
        (Inches 0.35) ("•  " ++ stat) 13 TEXT_LIGHT false false
        Align.left FONT Anchor.top
      (slide, acc.2 + Inches 0.4)) (slide, Inches 3.7)
    acc.1) slide
  let slide := add_citation env slide
    "Mueller et al., 2005 (ADNI)  |  Ellis et al., 2009 (AIBL)  |  Marcus et al., 2007 (OASIS)"
    false
  ({ prs with slides := prs.slides ++ [slide] }, [])

/-- Models `slide_06_section_divider`. -/
def slide_06_section_divider (env : Env) (fs : FS) (prs : Prs) :
    Prs × List String :=
  let slide := set_slide_bg blankSlide DARK_BG
  let slide := add_text_box env slide (Inches 0.8) (Inches 0.5) (Inches 4)
    (Inches 0.4) "ACT II" 11 COPPER true false Align.left FONT Anchor.top
  let slide := add_accent_line slide (Inches 0.8) (Inches 2.8) (Inches 4)
    COPPER
  let slide := add_text_box env slide (Inches 0.8) (Inches 3.2) (Inches 11)
    (Inches 1.5) "Seeing the Brain" 52 TEXT_DARK true false Align.left FONT
    Anchor.top
  let slide := add_text_box env slide (Inches 0.8) (Inches 4.8) (Inches 10)
    (Inches 0.8)
    "From MRI physics to preprocessing pipelines to machine learning" 18
    CITATION_C false true Align.left FONT Anchor.top
  ({ prs with slides := prs.slides ++ [slide] }, [])

/-- Models `slide_07_mri_fundamentals`. -/
def slide_07_mri_fundamentals (env : Env) (fs : FS) (prs : Prs) :
    Prs × List String :=
  let slide := set_slide_bg blankSlide DARK_BG
  let img := IMG_DIR ++ "/IntensityNormalization1.png"
  let r1 := add_image_safe fs slide img (Inches 7) (Inches 0.5)
    (some (Inches 5.8)) none
  let slide := r1.1
  let slide := add_text_box env slide (Inches 0.6) (Inches 0.4) (Inches 6)
    (Inches 0.4) "IMAGING FUNDAMENTALS" 11 COPPER true false Align.left FONT
    Anchor.top
  let slide := add_text_box env slide (Inches 0.6) (Inches 1) (Inches 6)
    (Inches 1) "MRI: The Structural Gold Standard" 28 TEXT_DARK true false
    Align.left FONT Anchor.top
  let slide := add_accent_line slide (Inches 0.6) (Inches 2) (Inches 2) COPPER
  let points : List String :=
    ["Nuclear magnetic resonance of hydrogen atoms",
     "T1-weighted: Gray matter dark, white matter bright",
     "T2-weighted: CSF bright, sensitive to edema",
     "Sub-millimeter resolution (0.5–1 mm voxels)",
     "Larmor equation: ω = γB₀ governs precession frequency",
     "No ionizing radiation — safe for longitudinal studies"]
  let acc := points.foldl (fun (acc : Slide × Len) pt =>
    let slide := add_text_box env acc.1 (Inches 0.6) acc.2 (Inches 6.2)
      (Inches 0.4) ("•  " ++ pt) 14 TEXT_DARK false false Align.left FONT
      Anchor.top
    (slide, acc.2 + Inches 0.55)) (slide, Inches 2.4)
  let slide := acc.1
  let slide := add_citation env slide
    "Bitar et al., 2006  |  Symms et al., 2004  |  McRobbie et al., 2017" true
  ({ prs with slides := prs.slides ++ [slide] }, r1.2.1)

/-- Models `slide_08_beyond_mri`. -/
def slide_08_beyond_mri (env : Env) (fs : FS) (prs : Prs) :
    Prs × List String :=
  let slide := set_slide_bg blankSlide LIGHT_BG
  let slide := add_text_box env slide (Inches 0.6) (Inches 0.4) (Inches 6)
    (Inches 0.4) "IMAGING MODALITIES BEYOND MRI" 11 COPPER true false
    Align.left FONT Anchor.top
  let slide := add_text_box env slide (Inches 0.6) (Inches 0.9) (Inches 10)
    (Inches 0.7) "CT & PET: Complementary Windows" 28 TEXT_LIGHT true false
    Align.left FONT Anchor.top
  let slide := add_text_box env slide (Inches 0.6) (Inches 1.8) (Inches 5.8)
    (Inches 0.5) "Computed Tomography" 18 BLUE true false Align.left FONT
    Anchor.top
  let ctImg := IMG_DIR ++ "/pmp-32-1-1-f1.png"
  let r1 := add_image_safe fs slide ctImg (Inches 0.6) (Inches 2.4)
    (some (Inches 3)) none
  let slide := r1.1
  let ctPoints : List String :=
    ["X-ray attenuation imaging", "Fast acquisition (~seconds)",
     "Detects gross atrophy & calcifications",
     "Limited soft-tissue contrast vs MRI"]
  let acc := ctPoints.foldl (fun (acc : Slide × Len) pt =>
    let slide := add_text_box env acc.1 (Inches 3.8) acc.2 (Inches 2.6)
      (Inches 0.35) ("•  " ++ pt) 12 TEXT_LIGHT false false Align.left FONT
      Anchor.top
    (slide, acc.2 + Inches 0.42)) (slide, Inches 2.5)
  let slide := acc.1
  let slide := add_shape_rect slide (Inches 6.5) (Inches 1.8) (Pt 2)
    (Inches 4.8) COPPER none
  let slide := add_text_box env slide (Inches 7) (Inches 1.8) (Inches 5.8)
    (Inches 0.5) "PET Biomarkers" 18 COPPER true false Align.left FONT
    Anchor.top
  let petImg := IMG_DIR ++ "/pmp-32-1-1-f4.png"
  let r2 := add_image_safe fs slide petImg (Inches 7) (Inches 2.4)
    (some (Inches 3)) none
  let slide := r2.1
  let petPoints : List String :=
    ["FDG-PET: 90% sensitivity for AD",
     "Amyloid PET: Detects Aβ plaques in vivo",
     "Tau PET: Maps tangle distribution",
     "Quantifies molecular pathology directly"]
  let acc2 := petPoints.foldl (fun (acc : Slide × Len) pt =>
    let slide := add_text_box env acc.1 (Inches 10.2) acc.2 (Inches 2.6)
      (Inches 0.35) ("•  " ++ pt) 12 TEXT_LIGHT false false Align.left FONT
      Anchor.top
    (slide, acc.2 + Inches 0.42)) (slide, Inches 2.5)
  let slide := acc2.1
  let slide := add_citation env slide
    "Marcus et al., 2014  |  Johnson et al., 2012  |  Minoshima et al., 1997  |  Clark et al., 2011"
    false
  ({ prs with slides := prs.slides ++ [slide] }, r1.2.1 ++ r2.2.1)

/-- Models `slide_09_preprocessing`. -/
def slide_09_preprocessing (env : Env) (fs : FS) (prs : Prs) :
    Prs × List String :=
  let slide := set_slide_bg blankSlide DARK_BG
  let slide := add_text_box env slide (Inches 0.6) (Inches 0.4) (Inches 6)
    (Inches 0.4) "THE PREPROCESSING PIPELINE" 11 COPPER true false Align.left
    FONT Anchor.top
  let slide := add_text_box env slide (Inches 0.6) (Inches 0.9) (Inches 11)
    (Inches 0.7) "5 Steps from Raw Scan to Analysis-Ready Data" 28 TEXT_DARK
    true false Align.left FONT Anchor.top
  let steps : List (String × String × String × RGB) :=
    [("01", "Registration", "Align to standard space\n(MNI152 template)", BLUE),
     ("02", "Skull Stripping", "Remove non-brain tissue\n(BET, HD-BET, SynthStrip)",
      COPPER),
     ("03", "Intensity\nNormalization", "Standardize signal\n(Z-Score, White Stripe)",
      GREEN),
     ("04", "Denoising", "Remove acquisition noise\n(NLM, BM3D, Deep Learning)",
      RED),
     ("05", "Segmentation", "Classify tissue types\n(GM, WM, CSF)", BLUE)]
  let acc := steps.foldl (fun (acc : Slide × Len) it =>
    let slide := acc.1
    let x := acc.2
    let num := it.1
    let slide := add_rounded_rect slide x (Inches 2.5) (Inches 2.3)
      (Inches 3.8) DARK_ACCENT (some it.2.2.2)
    let slide := add_text_box env slide x (Inches 2.6) (Inches 2.3)
      (Inches 0.7) num 36 it.2.2.2 true false Align.center FONT Anchor.top
    let slide := add_text_box env slide (x + Inches 0.15) (Inches 3.4)
      (Inches 2) (Inches 0.8) it.2.1 15 TEXT_DARK true false Align.center FONT
      Anchor.top
    let slide := add_text_box env slide (x + Inches 0.15) (Inches 4.3)
      (Inches 2) (Inches 1.2) it.2.2.1 11 CITATION_C false false Align.center
      FONT Anchor.top
    let slide :=
      if num ≠ "05" then
        add_text_box env slide (x + Inches 2.25) (Inches 3.8) (Inches 0.35)
          (Inches 0.5) "→" 24 COPPER true false Align.center FONT Anchor.top
      else slide
    (slide, x + Inches 2.55)) (slide, Inches 0.4)
  let slide := acc.1
  let slide := add_citation env slide
    "Ashburner, 2012  |  Smith, 2002  |  Manjón & Coupé, 2016" true
  ({ prs with slides := prs.slides ++ [slide] }, [])

/-- Models `slide_10_signal_cleaning`. -/
def slide_10_signal_cleaning (env : Env) (fs : FS) (prs : Prs) :
    Prs × List String :=
  let slide := set_slide_bg blankSlide LIGHT_BG
  let slide := add_text_box env slide (Inches 0.6) (Inches 0.4) (Inches 6)
    (Inches 0.4) "SIGNAL CLEANING" 11 COPPER true false Align.left FONT
    Anchor.top
  let slide := add_text_box env slide (Inches 0.6) (Inches 0.9) (Inches 11)
    (Inches 0.7) "Intensity Normalization & Denoising" 28 TEXT_LIGHT true
    false Align.left FONT Anchor.top
  let slide := add_text_box env slide (Inches 0.6) (Inches 1.8) (Inches 6)
    (Inches 0.5) "Intensity Normalization" 18 BLUE true false Align.left FONT
    Anchor.top
  let img2 := IMG_DIR ++ "/IntensityNormalization2.png"
  let r1 := add_image_safe fs slide img2 (Inches 0.6) (Inches 2.4)
    (some (Inches 5.8)) none
  let slide := r1.1
  let normPoints : List String :=
    ["Z-Score: Mean-center, unit-variance per subject",
     "White Stripe: Normalize to normal-appearing white matter",
     "Essential for cross-site comparisons"]
  let acc := normPoints.foldl (fun (acc : Slide × Len) pt =>
    let slide := add_text_box env acc.1 (Inches 0.6) acc.2 (Inches 5.8)
      (Inches 0.35) ("•  " ++ pt) 12 TEXT_LIGHT false false Align.left FONT
      Anchor.top
    (slide, acc.2 + Inches 0.38)) (slide, Inches 5)
  let slide := acc.1
  let slide := add_shape_rect slide (Inches 6.6) (Inches 1.8) (Pt 2)
    (Inches 4.8) COPPER none
  let slide := add_text_box env slide (Inches 7) (Inches 1.8) (Inches 5.8)
    (Inches 0.5) "Denoising" 18 COPPER true false Align.left FONT Anchor.top
  let img3 := IMG_DIR ++ "/IntensityNormalization3.png"
  let r2 := add_image_safe fs slide img3 (Inches 7) (Inches 2.4)
    (some (Inches 5.8)) none
  let slide := r2.1
  let denoisePoints : List String :=
    ["NLM: Non-Local Means (patch-based similarity)",
     "BM3D: Block-Matching 3D (transform-domain filtering)",
     "Deep Learning: CNN-based denoising autoencoders"]
  let acc2 := denoisePoints.foldl (fun (acc : Slide × Len) pt =>
    let slide := add_text_box env acc.1 (Inches 7) acc.2 (Inches 5.8)
      (Inches 0.35) ("•  " ++ pt) 12 TEXT_LIGHT false false Align.left FONT
      Anchor.top
    (slide, acc.2 + Inches 0.38)) (slide, Inches 5)
  let slide := acc2.1
  let slide := add_citation env slide
    "Shinohara et al., 2014  |  Buades et al., 2005  |  Dabov et al., 2007"
    false
  ({ prs with slides := prs.slides ++ [slide] }, r1.2.1 ++ r2.2.1)

/-- Models `slide_11_skull_stripping`. -/
def slide_11_skull_stripping (env : Env) (fs : FS) (prs : Prs) :
    Prs × List String :=
  let slide := set_slide_bg blankSlide DARK_BG
  let img1 := IMG_DIR ++ "/Skull Stripping image.png"
  let r1 := add_image_safe fs slide img1 (Inches 6.5) (Inches 0.3)
    (some (Inches 6.5)) none
  let slide := r1.1
  let slide := add_shape_rect slide (Inches 0) (Inches 0) (Inches 7) SLIDE_H
    DARK_BG none
  let slide := add_text_box env slide (Inches 0.6) (Inches 0.4) (Inches 6)
    (Inches 0.4) "SKULL STRIPPING" 11 COPPER true false Align.left FONT
    Anchor.top
  let slide := add_text_box env slide (Inches 0.6) (Inches 1) (Inches 6)
    (Inches 1) "Removing Non-Brain Tissue" 28 TEXT_DARK true false Align.left
    FONT Anchor.top
  let slide := add_accent_line slide (Inches 0.6) (Inches 2) (Inches 2) COPPER
  let methods : List (String × String) :=
    [("BET", "Brain Extraction Tool — surface deformation model"),
     ("HD-BET", "Deep learning — robust across scanners, 95%+ Dice"),
     ("SynthStrip", "Synthesis-based — contrast-agnostic extraction")]
  let acc := methods.foldl (fun (acc : Slide × Len) it =>
    let slide := add_text_box env acc.1 (Inches 0.6) acc.2 (Inches 2)
      (Inches 0.4) it.1 16 COPPER true false Align.left FONT Anchor.top
    let slide := add_text_box env slide (Inches 2.8) acc.2 (Inches 3.6)
      (Inches 0.4) it.2 13 TEXT_DARK false false Align.left FONT Anchor.top
    (slide, acc.2 + Inches 0.55)) (slide, Inches 2.5)
  let slide := acc.1
  let slide := add_rounded_rect slide (Inches 0.6) (Inches 4.5) (Inches 5.8)
    (Inches 1.5) DARK_ACCENT (some RED)
  let slide := add_text_box env slide (Inches 0.9) (Inches 4.6) (Inches 5.2)
    (Inches 0.4) "⚠  Shortcut Learning Risk" 14 RED true false Align.left
    FONT Anchor.top
  let slide := add_text_box env slide (Inches 0.9) (Inches 5) (Inches 5.2)
    (Inches 0.8)
    "Models can exploit skull artifacts as class features rather than learning true brain pathology patterns."
    12 TEXT_DARK false false Align.left FONT Anchor.top
  let img2 := IMG_DIR ++ "/Skull Stripping Techniques.png"
  let r2 := add_image_safe fs slide img2 (Inches 0.6) (Inches 6.1)
    (some (Inches 5.8)) none
  let slide := r2.1
  let slide := add_citation env slide
    "Smith, 2002  |  Isensee et al., 2019  |  Hoopes et al., 2022" true
  ({ prs with slides := prs.slides ++ [slide] }, r1.2.1 ++ r2.2.1)

/-- Models `slide_12_vbm`. -/
def slide_12_vbm (env : Env) (fs : FS) (prs : Prs) : Prs × List String :=
  let slide := set_slide_bg blankSlide DARK_BG
  let img := IMG_DIR ++ "/nihms154848f1.jpg"
  let r1 := add_image_safe fs slide img (Inches 5.5) (Inches 0)
    (some (Inches 7.8)) none
  let slide := r1.1
  let slide := add_shape_rect slide (Inches 0) (Inches 0) (Inches 6.2) SLIDE_H
    DARK_BG none
  let slide := add_text_box env slide (Inches 0.6) (Inches 0.4) (Inches 5)
    (Inches 0.4) "VOXEL-BASED MORPHOMETRY" 11 COPPER true false Align.left
    FONT Anchor.top
  let slide := add_text_box env slide (Inches 0.6) (Inches 1) (Inches 5.4)
    (Inches 1) "Whole-Brain Analysis\nof Structural Changes" 28 TEXT_DARK
    true false Align.left FONT Anchor.top
  let slide := add_accent_line slide (Inches 0.6) (Inches 2.3) (Inches 2)
    COPPER
  let points : List String :=
    ["Voxel-by-voxel statistical comparison of gray matter density",
     "Hippocampal atrophy: hallmark signature of early AD",
     "AUC > 0.90 for AD vs healthy controls",
     "Reveals distributed patterns invisible to visual inspection",
     "Can track atrophy progression over time"]
  let acc := points.foldl (fun (acc : Slide × Len) pt =>
    let slide := add_text_box env acc.1 (Inches 0.6) acc.2 (Inches 5.4)
      (Inches 0.5) ("•  " ++ pt) 14 TEXT_DARK false false Align.left FONT
      Anchor.top
    (slide, acc.2 + Inches 0.6)) (slide, Inches 2.8)
  let slide := acc.1
  let slide := add_citation env slide
    "Ashburner & Friston, 2000  |  Karas et al., 2004  |  Whitwell, 2009" true
  ({ prs with slides := prs.slides ++ [slide] }, r1.2.1)

/-- Models `slide_13_classical_ml`. -/
def slide_13_classical_ml (env : Env) (fs : FS) (prs : Prs)
    (chart_path : String) : Prs × List String :=
  let slide := set_slide_bg blankSlide LIGHT_BG
  let slide := add_text_box env slide (Inches 0.6) (Inches 0.4) (Inches 6)
    (Inches 0.4) "CLASSICAL MACHINE LEARNING" 11 COPPER true false Align.left
    FONT Anchor.top
  let slide := add_text_box env slide (Inches 0.6) (Inches 0.9) (Inches 5)
    (Inches 1.5) "94.5%" 72 BLUE true false Align.left FONT Anchor.top
  let slide := add_text_box env slide (Inches 0.6) (Inches 2.3) (Inches 5)
    (Inches 0.5) "SVM accuracy for AD vs. healthy controls" 18 TEXT_LIGHT
    false false Align.left FONT Anchor.top
  let slide := add_text_box env slide (Inches 0.6) (Inches 3) (Inches 5)
    (Inches 0.5) "But MCI detection plummets to ~68%" 16 RED true false
    Align.left FONT Anchor.top
  let points : List String :=
    ["SVM, Random Forest, Logistic Regression dominate pre-2016",
     "Handcrafted features: volume, cortical thickness, texture",
     "Binary AD/HC: near-clinical performance",
     "Multi-class with MCI: dramatic accuracy drop",
     "Feature engineering = manual, limited, domain-dependent"]
  let acc := points.foldl (fun (acc : Slide × Len) pt =>
    let slide := add_text_box env acc.1 (Inches 0.6) acc.2 (Inches 5.5)
      (Inches 0.4) ("•  " ++ pt) 13 TEXT_LIGHT false false Align.left FONT
      Anchor.top
    (slide, acc.2 + Inches 0.45)) (slide, Inches 3.7)
  let slide := acc.1
  let r1 := add_image_safe fs slide chart_path (Inches 6.5) (Inches 0.8)
    (some (Inches 6.3)) none
  let slide := r1.1
  let slide := add_citation env slide
    "Klöppel et al., 2008  |  Cuingnet et al., 2011  |  Salvatore et al., 2015"
    false
  ({ prs with slides := prs.slides ++ [slide] }, r1.2.1)

/-- Models `slide_14_cnns_to_transformers`. -/
def slide_14_cnns_to_transformers (env : Env) (fs : FS) (prs : Prs) :
    Prs × List String :=
  let slide := set_slide_bg blankSlide LIGHT_BG
  let slide := add_text_box env slide (Inches 0.6) (Inches 0.4) (Inches 6)
    (Inches 0.4) "DEEP LEARNING ARCHITECTURES" 11 COPPER true false Align.left
    FONT Anchor.top
  let slide := add_text_box env slide (Inches 0.6) (Inches 0.9) (Inches 11)
    (Inches 0.7) "From CNNs to Transformers" 28 TEXT_LIGHT true false
    Align.left FONT Anchor.top
  let slide := add_text_box env slide (Inches 0.6) (Inches 1.8) (Inches 5.8)
    (Inches 0.5) "Convolutional Neural Networks" 18 BLUE true false Align.left
    FONT Anchor.top
  let cnnItems : List (String × String) :=
    [("2D CNNs", "Single-slice processing (ResNet-18, VGG-16)"),
     ("3D CNNs", "Volumetric convolutions capture spatial context"),
     ("DenseNet", "Dense connections, feature reuse, fewer parameters"),
     ("ResNet", "Skip connections enable very deep networks (152+ layers)"),
     ("Hybrid CNN+SVM", "CNN features fed to SVM classifier — 82–90% on AD")]
  let acc := cnnItems.foldl (fun (acc : Slide × Len) it =>
    let slide := add_rich_text env acc.1 (Inches 0.6) acc.2 (Inches 5.8)
      (Inches 0.5)
      [⟨it.1 ++ ":  ", none, some 13, some TEXT_LIGHT, some true, none⟩,
       ⟨it.2, none, some 13, some TEXT_LIGHT, none, none⟩]
      Align.left Anchor.top none
    (slide, acc.2 + Inches 0.5)) (slide, Inches 2.4)
  let slide := acc.1
  let slide := add_shape_rect slide (Inches 6.5) (Inches 1.8) (Pt 2)
    (Inches 4.8) COPPER none
  let slide := add_text_box env slide (Inches 7) (Inches 1.8) (Inches 5.8)
    (Inches 0.5) "Vision Transformers" 18 COPPER true false Align.left FONT
    Anchor.top
  let txItems : List (String × String) :=
    [("ViT", "Patches as tokens, global attention, data-hungry"),
     ("Swin Transformer", "Shifted windows — local + global attention, efficient"),
     ("DeiT", "Data-efficient training with knowledge distillation"),
     ("Hybrid ViT+CNN", "CNN backbone + transformer head for small datasets"),
     ("Key advantage", "Pre-training on ImageNet transfers to medical imaging")]
  let acc2 := txItems.foldl (fun (acc : Slide × Len) it =>
    let slide := add_rich_text env acc.1 (Inches 7) acc.2 (Inches 5.8)
      (Inches 0.5)
      [⟨it.1 ++ ":  ", none, some 13, some TEXT_LIGHT, some true, none⟩,
       ⟨it.2, none, some 13, some TEXT_LIGHT, none, none⟩]
      Align.left Anchor.top none
    (slide, acc.2 + Inches 0.5)) (slide, Inches 2.4)
  let slide := acc2.1
  let slide := add_rounded_rect slide (Inches 0.6) (Inches 5.4) (Inches 12.1)
    (Inches 1.2) ⟨0xED, 0xEB, 0xE5⟩ none
  let slide := add_rich_text env slide (Inches 0.9) (Inches 5.6) (Inches 11.5)
    (Inches 0.8)
    [⟨"Key Insight: ", none, some 14, some COPPER, some true, none⟩,
     ⟨"Transformers achieve state-of-the-art performance on medical imaging benchmarks, but require careful handling of small datasets and class imbalance — motivating our experimental validation in the next section.",
      none, some 14, some TEXT_LIGHT, none, none⟩]
    Align.left Anchor.top none
  let slide := add_citation env slide
    "Dosovitskiy et al., 2021  |  Liu et al., 2021  |  He et al., 2016  |  Huang et al., 2017"
    false
  ({ prs with slides := prs.slides ++ [slide] }, [])

/-- Models `slide_15_explainability`. -/
def slide_15_explainability (env : Env) (fs : FS) (prs : Prs) :
    Prs × List String :=
  let slide := set_slide_bg blankSlide DARK_BG
  let slide := add_text_box env slide (Inches 0.6) (Inches 0.4) (Inches 6)
    (Inches 0.4) "EXPLAINABILITY (XAI)" 11 COPPER true false Align.left FONT
    Anchor.top
  let slide := add_text_box env slide (Inches 0.6) (Inches 0.9) (Inches 6)
    (Inches 0.7) "Opening the Black Box" 28 TEXT_DARK true false Align.left
    FONT Anchor.top
  let slide := add_accent_line slide (Inches 0.6) (Inches 1.7) (Inches 2)
    COPPER
  let pillars : List (String × String) :=
    [("Transparency", "How does the model make decisions?"),
     ("Interpretability", "Can clinicians understand the reasoning?"),
     ("Trustworthiness", "Are predictions reliable for clinical use?")]
  let acc := pillars.foldl (fun (acc : Slide × Len) it =>
    let slide := add_rich_text env acc.1 (Inches 0.6) acc.2 (Inches 5.8)
      (Inches 0.4)
      [⟨it.1 ++ ": ", none, some 14, some COPPER, some true, none⟩,
       ⟨it.2, none, some 14, some TEXT_DARK, none, none⟩]
      Align.left Anchor.top none
    (slide, acc.2 + Inches 0.45)) (slide, Inches 2.1)
  let slide := acc.1
  let methods : List String :=
    ["Grad-CAM: Gradient-weighted class activation maps",
     "LIME: Local interpretable model-agnostic explanations",
     "SHAP: SHapley Additive exPlanations (game-theoretic)"]
  let acc2 := methods.foldl (fun (acc : Slide × Len) m =>
    let slide := add_text_box env acc.1 (Inches 0.6) acc.2 (Inches 5.8)
      (Inches 0.35) ("•  " ++ m) 13 TEXT_DARK false false Align.left FONT
      Anchor.top
    (slide, acc.2 + Inches 0.42)) (slide, Inches 3.6)
  let slide := acc2.1
  let img1 := IMG_DIR ++ "/Grad-CAMVBM.png"
  let img2 := IMG_DIR ++ "/limitations_gradcam.png"
  let r1 := add_image_safe fs slide img1 (Inches 6.8) (Inches 0.4)
    (some (Inches 6)) none
  let slide := r1.1
  let r2 := add_image_safe fs slide img2 (Inches 6.8) (Inches 3.8)
    (some (Inches 6)) none
  let slide := r2.1
  let slide := add_citation env slide
    "Selvaraju et al., 2017  |  Ribeiro et al., 2016  |  Lundberg & Lee, 2017"
    true
  ({ prs with slides := prs.slides ++ [slide] }, r1.2.1 ++ r2.2.1)

/-- Models `slide_16_cnn_experiments`. -/
def slide_16_cnn_experiments (env : Env) (fs : FS) (prs : Prs) :
    Prs × List String :=
  let slide := set_slide_bg blankSlide DARK_BG
  let slide := add_text_box env slide (Inches 0.6) (Inches 0.4) (Inches 6)
    (Inches 0.4) "OUR EXPERIMENTS" 11 COPPER true false Align.left FONT
    Anchor.top
  let slide := add_text_box env slide (Inches 0.6) (Inches 0.9) (Inches 6)
    (Inches 0.7) "CNN: 5 Approaches to Class Imbalance" 26 TEXT_DARK true
    false Align.left FONT Anchor.top
  let slide := add_rounded_rect slide (Inches 0.6) (Inches 1.8) (Inches 5.8)
    (Inches 1.3) DARK_ACCENT (some GREEN)
  let slide := add_multiline_text env slide (Inches 0.9) (Inches 1.9)
    (Inches 5.2) (Inches 1.1)
    [MLine.fmt "Combined Strategy wins:" (some 14) (some GREEN) (some true)
       none none none none,
     MLine.fmt "Class weights + balanced sampling + MONAI augmentation"
       (some 12) (some TEXT_DARK) none none none none (some 4),
     MLine.fmt "63.5% balanced accuracy  |  100% Moderate recall  |  F1: 0.52"
       (some 12) (some COPPER) (some true) none none none (some 4)]
    14 TEXT_LIGHT FONT false Align.left none Anchor.top
  let slide := add_multiline_text env slide (Inches 0.6) (Inches 3.4)
    (Inches 5.8) (Inches 1.5)
    [MLine.fmt "Dataset: 11,519 MRI scans (Falah/Alzheimer_MRI)" (some 12)
       (some CITATION_C) none none none none none,
     MLine.fmt "4 classes: Non Dem. (3200) | Very Mild (3008) | Mild (2739) | Moderate (2572)"
       (some 11) (some CITATION_C) none none none none (some 4),
     MLine.fmt "" (some 6) (some TEXT_DARK) none none none none none,
     MLine.fmt "Baseline CNN: 0% recall on Mild & Moderate classes" (some 13)
       (some RED) (some true) none none none (some 6),
     MLine.fmt "Standard training fails for imbalanced medical data."
       (some 13) (some TEXT_DARK) none none none none (some 4)]
    14 TEXT_LIGHT FONT false Align.left none Anchor.top
  let img1 := ALZ_DIR ++ "/training_curves_comparison.png"
  let r1 := add_image_safe fs slide img1 (Inches 6.8) (Inches 0.3)
    (some (Inches 6)) none
  let slide := r1.1
  let img2 := ALZ_DIR ++ "/confusion_matrices_comparison.png"
  let r2 := add_image_safe fs slide img2 (Inches 6.8) (Inches 3.8)
    (some (Inches 6)) none
  let slide := r2.1
  let slide := add_citation env slide
    "Author\x27s experimental results, alzTheBatch repository  |  HuggingFace: Falah/Alzheimer_MRI  |  MONAI Framework"
    true
  ({ prs with slides := prs.slides ++ [slide] }, r1.2.1 ++ r2.2.1)

/-- Models `slide_17_swin_results`. -/
def slide_17_swin_results (env : Env) (fs : FS) (prs : Prs) :
    Prs × List String :=
  let slide := set_slide_bg blankSlide LIGHT_BG
  let slide := add_text_box env slide (Inches 0.6) (Inches 0.4) (Inches 6)
    (Inches 0.4) "SWIN TRANSFORMER RESULTS" 11 COPPER true false Align.left
    FONT Anchor.top
  let slide := add_text_box env slide (Inches 0.6) (Inches 0.9) (Inches 5)
    (Inches 1.5) "87.6%" 80 GREEN true false Align.left FONT Anchor.top
  let slide := add_text_box env slide (Inches 0.6) (Inches 2.4) (Inches 5)
    (Inches 0.5) "Overall Accuracy (Swin-Base, ImageNet pretrained)" 16
    TEXT_LIGHT false false Align.left FONT Anchor.top
  let metrics : List (String × String) :=
    [("90.4%", "Balanced Accuracy"), ("89.2%", "F1 Macro"),
     ("0.800", "MCC"), ("0.977", "AUC-ROC")]
  let acc := metrics.foldl (fun (acc : Slide × Len) it =>
    let slide := acc.1
    let x := acc.2
    let slide := add_rounded_rect slide x (Inches 3.2) (Inches 2.6)
      (Inches 1.3) ⟨0xED, 0xEB, 0xE5⟩ none
    let slide := add_text_box env slide x (Inches 3.3) (Inches 2.6)
      (Inches 0.7) it.1 28 DARK_BG true false Align.center FONT Anchor.top
    let slide := add_text_box env slide x (Inches 3.9) (Inches 2.6)
      (Inches 0.4) it.2 11 CITATION_C false false Align.center FONT Anchor.top
    (slide, x + Inches 2.8)) (slide, Inches 0.6)
  let slide := acc.1
  let slide := add_text_box env slide (Inches 0.6) (Inches 4.8) (Inches 5)
    (Inches 0.4) "Per-Class F1 Scores:" 14 TEXT_LIGHT true false Align.left
    FONT Anchor.top
  let classes : List (String × String) :=
    [("Mild", "0.867"), ("Moderate", "0.952"),
     ("Non-Demented", "0.896"), ("Very Mild", "0.851")]
  let acc2 := classes.foldl (fun (acc : Slide × Len) it =>
    let slide := add_text_box env acc.1 acc.2 (Inches 5.3) (Inches 2.5)
      (Inches 0.3) (it.1 ++ ": " ++ it.2) 13 TEXT_LIGHT false false Align.left
      FONT Anchor.top
    (slide, acc.2 + Inches 2.7)) (slide, Inches 0.6)
  let slide := acc2.1
  let slide := add_text_box env slide (Inches 0.6) (Inches 5.8) (Inches 10)
    (Inches 0.4)
    "100% recall on Moderate Demented (rarest class, n=12 in test set)" 14
    GREEN true false Align.left FONT Anchor.top
  let img := ALZ_DIR ++ "/comparison_metrics.png"
  let r1 := add_image_safe fs slide img (Inches 6.8) (Inches 0.5)
    (some (Inches 6)) none
  let slide := r1.1
  let slide := add_citation env slide
    "Author\x27s experimental results, alzTheBatch repository  |  microsoft/swin-base-patch4-window7-224  |  +29pp over best CNN"
    false
  ({ prs with slides := prs.slides ++ [slide] }, r1.2.1)

/-- Models `slide_18_cnn_vs_swin`. -/
def slide_18_cnn_vs_swin (env : Env) (fs : FS) (prs : Prs)
    (chart_path : String) : Prs × List String :=
  let slide := set_slide_bg blankSlide LIGHT_BG
  let slide := add_text_box env slide (Inches 0.6) (Inches 0.4) (Inches 6)
    (Inches 0.4) "HEAD-TO-HEAD COMPARISON" 11 COPPER true false Align.left
    FONT Anchor.top
  let slide := add_text_box env slide (Inches 0.6) (Inches 0.9) (Inches 11)
    (Inches 0.7) "CNN vs Swin Transformer: The Evidence" 28 TEXT_LIGHT true
    false Align.left FONT Anchor.top
  let slide := add_rounded_rect slide (Inches 0.6) (Inches 1.8) (Inches 3.5)
    (Inches 2) ⟨0xED, 0xEB, 0xE5⟩ (some RED)
  let slide := add_text_box env slide (Inches 0.6) (Inches 1.9) (Inches 3.5)
    (Inches 0.4) "CNN (Combined Strategy)" 13 RED true false Align.center FONT
    Anchor.top
  let slide := add_text_box env slide (Inches 0.6) (Inches 2.3) (Inches 3.5)
    (Inches 0.9) "59.3%" 42 RED true false Align.center FONT Anchor.top
  let slide := add_text_box env slide (Inches 0.6) (Inches 3.2) (Inches 3.5)
    (Inches 0.4) "Accuracy" 12 CITATION_C false false Align.center FONT
    Anchor.top
  let slide := add_text_box env slide (Inches 4.3) (Inches 2.3) (Inches 1.2)
    (Inches 0.9) "→" 36 COPPER true false Align.center FONT Anchor.top
  let slide := add_text_box env slide (Inches 4.3) (Inches 3) (Inches 1.2)
    (Inches 0.5) "+29pp" 14 GREEN true false Align.center FONT Anchor.top
  let slide := add_rounded_rect slide (Inches 5.6) (Inches 1.8) (Inches 3.5)
    (Inches 2) ⟨0xED, 0xEB, 0xE5⟩ (some GREEN)
  let slide := add_text_box env slide (Inches 5.6) (Inches 1.9) (Inches 3.5)
    (Inches 0.4) "Swin Transformer" 13 GREEN true false Align.center FONT
    Anchor.top
  let slide := add_text_box env slide (Inches 5.6) (Inches 2.3) (Inches 3.5)
    (Inches 0.9) "87.6%" 42 GREEN true false Align.center FONT Anchor.top
  let slide := add_text_box env slide (Inches 5.6) (Inches 3.2) (Inches 3.5)
    (Inches 0.4) "Accuracy" 12 CITATION_C false false Align.center FONT
    Anchor.top
  let r1 := add_image_safe fs slide chart_path (Inches 0.6) (Inches 4.1)
    (some (Inches 8.2)) none
  let slide := r1.1
  let slide := add_rounded_rect slide (Inches 9.3) (Inches 1.8) (Inches 3.6)
    (Inches 5) ⟨0xED, 0xEB, 0xE5⟩ none
  let slide := add_text_box env slide (Inches 9.5) (Inches 1.9) (Inches 3.2)
    (Inches 0.4) "Key Factors" 15 COPPER true false Align.left FONT Anchor.top
  let insights : List String :=
    ["Transfer learning from ImageNet provides rich visual features",
     "Shifted-window attention captures local + global patterns efficiently",
     "Differential learning rates preserve pretrained features",
     "Aggressive minority augmentation addresses class imbalance",
     "Validates thesis claims from Chapters 5–6"]
  let acc := insights.foldl (fun (acc : Slide × Len) ins =>
    let slide := add_text_box env acc.1 (Inches 9.5) acc.2 (Inches 3.2)
      (Inches 0.6) ("•  " ++ ins) 11 TEXT_LIGHT false false Align.left FONT
      Anchor.top
    (slide, acc.2 + Inches 0.6)) (slide, Inches 2.5)
  let slide := acc.1
  let slide := add_citation env slide
    "Author\x27s experimental results  |  Liu et al., 2021 (Swin)  |  Deng et al., 2009 (ImageNet)"
    false
  ({ prs with slides := prs.slides ++ [slide] }, r1.2.1)

/-- Models `slide_19_why_models_fail`. -/
def slide_19_why_models_fail (env : Env) (fs : FS) (prs : Prs)
    (chart_path : String) : Prs × List String :=
  let slide := set_slide_bg blankSlide LIGHT_BG
  let slide := add_text_box env slide (Inches 0.6) (Inches 0.4) (Inches 6)
    (Inches 0.4) "THE RECKONING" 11 COPPER true false Align.left FONT
    Anchor.top
  let slide := add_text_box env slide (Inches 0.6) (Inches 0.9) (Inches 11)
    (Inches 0.7) "Why Models Fail in Practice" 28 TEXT_LIGHT true false
    Align.left FONT Anchor.top
  let slide := add_text_box env slide (Inches 0.6) (Inches 1.8) (Inches 6)
    (Inches 0.5) "Data Leakage" 18 RED true false Align.left FONT Anchor.top
  let r1 := add_image_safe fs slide chart_path (Inches 0.6) (Inches 2.4)
    (some (Inches 5.5)) none
  let slide := r1.1
  let leakagePoints : List String :=
    ["−28% accuracy when leakage is eliminated",
     "Only 4.5% of studies use proper methodology",
     "Same-subject slices in train AND test = fatal flaw"]
  let acc := leakagePoints.foldl (fun (acc : Slide × Len) pt =>
    let slide := add_text_box env acc.1 (Inches 0.6) acc.2 (Inches 5.8)
      (Inches 0.35) ("•  " ++ pt) 12 TEXT_LIGHT false false Align.left FONT
      Anchor.top
    (slide, acc.2 + Inches 0.38)) (slide, Inches 5.2)
  let slide := acc.1
  let slide := add_shape_rect slide (Inches 6.5) (Inches 1.8) (Pt 2)
    (Inches 4.8) COPPER none
  let slide := add_text_box env slide (Inches 7) (Inches 1.8) (Inches 5.8)
    (Inches 0.5) "Domain Shift & Shortcuts" 18 COPPER true false Align.left
    FONT Anchor.top
  let rightPoints : List MLine :=
    [MLine.fmt "Domain Shift:" (some 14) (some TEXT_LIGHT) (some true) none
       none none (some 6),
     MLine.fmt "•  Models trained on ADNI drop to 71% on external data"
       (some 12) (some TEXT_LIGHT) none none none none (some 4),
     MLine.fmt "•  Scanner differences, protocol variations, population demographics"
       (some 12) (some TEXT_LIGHT) none none none none (some 4),
     MLine.fmt "" (some 8) (some TEXT_LIGHT) none none none none none,
     MLine.fmt "Shortcut Learning:" (some 14) (some TEXT_LIGHT) (some true)
       none none none (some 10),
     MLine.fmt "•  Models exploit skull artifacts, not brain pathology"
       (some 12) (some TEXT_LIGHT) none none none none (some 4),
     MLine.fmt "•  Background intensity patterns correlate with scanner/site"
       (some 12) (some TEXT_LIGHT) none none none none (some 4),
     MLine.fmt "•  Grad-CAM reveals attention on non-brain regions"
       (some 12) (some TEXT_LIGHT) none none none none (some 4),
     MLine.fmt "" (some 8) (some TEXT_LIGHT) none none none none none,
     MLine.fmt "Both problems share a root cause:" (some 14) (some RED)
       (some true) none none none (some 10),
     MLine.fmt "Models learn spurious correlations rather than true disease biomarkers."
       (some 13) (some TEXT_LIGHT) none none none none (some 4)]
  let slide := add_multiline_text env slide (Inches 7) (Inches 2.3)
    (Inches 5.8) (Inches 4.2) rightPoints 14 TEXT_LIGHT FONT false Align.left
    none Anchor.top
  let slide := add_citation env slide
    "Wen et al., 2020  |  Yagis et al., 2021  |  Geirhos et al., 2020" false
  ({ prs with slides := prs.slides ++ [slide] }, r1.2.1)

/-- Models `slide_20_accuracy_paradox`. -/
def slide_20_accuracy_paradox (env : Env) (fs : FS) (prs : Prs) :
    Prs × List String :=
  let slide := set_slide_bg blankSlide LIGHT_BG
  let slide := add_text_box env slide (Inches 0.6) (Inches 0.4) (Inches 6)
    (Inches 0.4) "THE ACCURACY PARADOX" 11 COPPER true false Align.left FONT
    Anchor.top
  let slide := add_text_box env slide (Inches 0.6) (Inches 0.9) (Inches 6)
    (Inches 0.7) "When 95% Accuracy is Meaningless" 28 TEXT_LIGHT true false
    Align.left FONT Anchor.top
  let slide := add_accent_line slide (Inches 0.6) (Inches 1.7) (Inches 2)
    COPPER
  let points : List String :=
    ["Moderate Demented: only 1% of typical test sets",
     "A model predicting only \x27Non-Demented\x27 achieves >50% accuracy",
     "Balanced Accuracy, F1 Macro, and MCC are essential metrics",
     "Our CNN baseline: 55% accuracy but 0% recall on two classes",
     "Medical AI must be evaluated on the hardest cases, not the easiest"]
  let acc := points.foldl (fun (acc : Slide × Len) pt =>
    let slide := add_text_box env acc.1 (Inches 0.6) acc.2 (Inches 6)
      (Inches 0.5) ("•  " ++ pt) 14 TEXT_LIGHT false false Align.left FONT
      Anchor.top
    (slide, acc.2 + Inches 0.55)) (slide, Inches 2)
  let slide := acc.1
  let img := IMG_DIR ++ "/limitations_class_imbalance.png"
  let r1 := add_image_safe fs slide img (Inches 7) (Inches 0.5)
    (some (Inches 5.8)) none
  let slide := r1.1
  let slide := add_citation env slide
    "Brodersen et al., 2010  |  Chicco & Jurman, 2020  |  Luque et al., 2019"
    false
  ({ prs with slides := prs.slides ++ [slide] }, r1.2.1)

/-- Models `slide_21_label_uncertainty`. -/
def slide_21_label_uncertainty (env : Env) (fs : FS) (prs : Prs) :
    Prs × List String :=
  let slide := set_slide_bg blankSlide LIGHT_BG
  let slide := add_text_box env slide (Inches 0.6) (Inches 0.4) (Inches 6)
    (Inches 0.4) "LABEL UNCERTAINTY" 11 COPPER true false Align.left FONT
    Anchor.top
  let slide := add_text_box env slide (Inches 0.6) (Inches 1.2) (Inches 5)
    (Inches 1.5) "71%" 96 RED true false Align.left FONT Anchor.top
  let slide := add_text_box env slide (Inches 0.6) (Inches 3) (Inches 5.5)
    (Inches 0.5) "of AD patients have mixed pathology at autopsy" 20
    TEXT_LIGHT false false Align.left FONT Anchor.top
  let slide := add_accent_line slide (Inches 0.6) (Inches 3.7) (Inches 2)
    COPPER
  let points : List String :=
    ["Clinical labels used for training are probabilistic, not definitive",
     "Gold standard diagnosis requires post-mortem examination",
     "Co-pathology (TDP-43, Lewy bodies, vascular) creates noisy labels",
     "Irreducible error floor: even perfect models cannot exceed label accuracy",
     "Label noise affects both training signal and evaluation metrics"]
  let acc := points.foldl (fun (acc : Slide × Len) pt =>
    let slide := add_text_box env acc.1 (Inches 0.6) acc.2 (Inches 12)
      (Inches 0.4) ("•  " ++ pt) 14 TEXT_LIGHT false false Align.left FONT
      Anchor.top
    (slide, acc.2 + Inches 0.5)) (slide, Inches 4)
  let slide := acc.1
  let slide := add_citation env slide
    "Kapasi et al., 2017  |  Beach et al., 2012  |  Schneider et al., 2007"
    false
  ({ prs with slides := prs.slides ++ [slide] }, [])

/-- Models `slide_22_advances_road_ahead`. -/
def slide_22_advances_road_ahead (env : Env) (fs : FS) (prs : Prs) :
    Prs × List String :=
  let slide := set_slide_bg blankSlide LIGHT_BG
  let slide := add_text_box env slide (Inches 0.6) (Inches 0.4) (Inches 6)
    (Inches 0.4) "ADVANCES & THE ROAD AHEAD" 11 COPPER true false Align.left
    FONT Anchor.top
  let slide := add_text_box env slide (Inches 0.6) (Inches 0.9) (Inches 11)
    (Inches 0.7) "Recent Progress & Future Directions" 28 TEXT_LIGHT true
    false Align.left FONT Anchor.top
  let slide := add_text_box env slide (Inches 0.6) (Inches 1.8) (Inches 5.8)
    (Inches 0.5) "Recent Advances" 18 BLUE true false Align.left FONT
    Anchor.top
  let advances : List String :=
    ["Multimodal fusion (MRI + PET + genetics + CSF)",
     "Self-supervised pretraining for medical images",
     "Foundation models adapted to neuroimaging",
     "Transfer learning: ImageNet → medical tasks",
     "Federated learning for multi-site data"]
  let acc := advances.foldl (fun (acc : Slide × Len) adv =>
    let slide := add_text_box env acc.1 (Inches 0.6) acc.2 (Inches 5.8)
      (Inches 0.38) ("•  " ++ adv) 13 TEXT_LIGHT false false Align.left FONT
      Anchor.top
    (slide, acc.2 + Inches 0.43)) (slide, Inches 2.4)
  let slide := acc.1
  let slide := add_shape_rect slide (Inches 6.5) (Inches 1.8) (Pt 2)
    (Inches 4.8) COPPER none
  let slide := add_text_box env slide (Inches 7) (Inches 1.8) (Inches 5.8)
    (Inches 0.5) "Three Future Pillars" 18 COPPER true false Align.left FONT
    Anchor.top
  let pillars : List (String × String) :=
    [("Standardized Benchmarks",
      "Unified evaluation protocols eliminating data leakage"),
     ("Clinical Interpretability",
      "Explanations that clinicians trust and understand"),
     ("Multi-Stage Diagnosis",
      "From binary AD/HC to the full continuum of decline")]
  let acc2 := pillars.foldl (fun (acc : Slide × Len) it =>
    let slide := acc.1
    let y := acc.2
    let slide := add_rounded_rect slide (Inches 7) y (Inches 5.5) (Inches 1.1)
      ⟨0xED, 0xEB, 0xE5⟩ none
    let slide := add_text_box env slide (Inches 7.2) (y + Inches 0.1)
      (Inches 5.1) (Inches 0.4) it.1 14 COPPER true false Align.left FONT
      Anchor.top
    let slide := add_text_box env slide (Inches 7.2) (y + Inches 0.5)
      (Inches 5.1) (Inches 0.5) it.2 12 TEXT_LIGHT false false Align.left FONT
      Anchor.top
    (slide, y + Inches 1.3)) (slide, Inches 2.4)
  let slide := acc2.1
  let img := IMG_DIR ++ "/Graph.png"
  let r1 := add_image_safe fs slide img (Inches 0.6) (Inches 4.8)
    (some (Inches 5.8)) none
  let slide := r1.1
  let slide := add_citation env slide
    "Zhang et al., 2022  |  Qui et al., 2022  |  Tanveer et al., 2024" false
  ({ prs with slides := prs.slides ++ [slide] }, r1.2.1)

/-- Models `slide_23_conclusion`. -/
def slide_23_conclusion (env : Env) (fs : FS) (prs : Prs) :
    Prs × List String :=
  let slide := set_slide_bg blankSlide DARK_BG
  let slide := add_text_box env slide (Inches 0.6) (Inches 0.4) (Inches 6)
    (Inches 0.4) "CONCLUSION" 11 COPPER true false Align.left FONT Anchor.top
  let slide := add_text_box env slide (Inches 0.6) (Inches 1) (Inches 11)
    (Inches 1) "The Methodological Triad" 36 TEXT_DARK true false Align.left
    FONT Anchor.top
  let slide := add_accent_line slide (Inches 0.6) (Inches 2.1) (Inches 3)
    COPPER
  let triad : List (String × String × String × RGB) :=
    [("01", "Rigorous Data Handling",
      "Subject-level splits, no data leakage, cross-site validation.\nWithout this, reported accuracy is meaningless.",
      BLUE),
     ("02", "Balanced Evaluation",
      "Balanced accuracy, F1 macro, MCC — not just accuracy.\nOur experiments confirm: baseline CNN = 55% accuracy, 0% minority recall.",
      COPPER),
     ("03", "Clinical Interpretability",
      "Grad-CAM, SHAP, clinical validation.\nModels must explain why, not just what.",
      GREEN)]
  let acc := triad.foldl (fun (acc : Slide × Len) it =>
    let slide := acc.1
    let x := acc.2
    let slide := add_rounded_rect slide x (Inches 2.6) (Inches 3.8)
      (Inches 2.8) DARK_ACCENT (some it.2.2.2)
    let slide := add_text_box env slide (x + Inches 0.2) (Inches 2.7)
      (Inches 3.4) (Inches 0.6) it.1 32 it.2.2.2 true false Align.left FONT
      Anchor.top
    let slide := add_text_box env slide (x + Inches 0.2) (Inches 3.3)
      (Inches 3.4) (Inches 0.5) it.2.1 16 TEXT_DARK true false Align.left FONT
      Anchor.top
    let slide := add_text_box env slide (x + Inches 0.2) (Inches 3.8)
      (Inches 3.4) (Inches 1.4) it.2.2.1 12 CITATION_C false false Align.left
      FONT Anchor.top
    (slide, x + Inches 4.1)) (slide, Inches 0.6)
  let slide := acc.1
  let slide := add_text_box env slide (Inches 0.6) (Inches 5.8) (Inches 12)
    (Inches 1)
    "\"Models are powerful. Data is insufficient. Trust is unearned.\"" 22
    COPPER true true Align.center FONT Anchor.top
  let slide := add_citation env slide
    "Wen et al., 2020  |  Author\x27s analysis & experimental validation" true
  ({ prs with slides := prs.slides ++ [slide] }, [])

/-- Models `slide_24_thank_you`. -/
def slide_24_thank_you (env : Env) (fs : FS) (prs : Prs) :
    Prs × List String :=
  let slide := set_slide_bg blankSlide DARK_BG
  let logo := IMG_DIR ++ "/logo_en.png"
  let r1 := add_image_safe fs slide logo (Inches 0.6) (Inches 0.4)
    (some (Inches 2.8)) none
  let slide := r1.1
  let slide := add_accent_line slide (Inches 0.6) (Inches 2.8) (Inches 4)
    COPPER
  let slide := add_text_box env slide (Inches 0.6) (Inches 3.2) (Inches 12)
    (Inches 1) "Thank You" 48 TEXT_DARK true false Align.left FONT Anchor.top
  let slide := add_text_box env slide (Inches 0.6) (Inches 4.4) (Inches 12)
    (Inches 0.5) "Questions & Discussion" 22 COPPER false true Align.left FONT
    Anchor.top
  let slide := add_multiline_text env slide (Inches 0.6) (Inches 5.4)
    (Inches 6) (Inches 1.5)
    [MLine.fmt "Paris Karageorgakis" (some 16) (some TEXT_DARK) (some true)
       none none none none,
     MLine.fmt "University of Piraeus, Department of Informatics" (some 13)
       (some CITATION_C) none none none none (some 6)]
    14 TEXT_LIGHT FONT false Align.left none Anchor.top
  let slide := add_multiline_text env slide (Inches 7) (Inches 5.4)
    (Inches 5.5) (Inches 1.5)
    [MLine.fmt "Thesis:  github.com/paris26/Thesis_Finale" (some 13)
       (some BLUE) none none none none (some 4),
     MLine.fmt "Experiments:  github.com/paris26/alzTheBatch" (some 13)
       (some BLUE) none none none none (some 6)]
    14 TEXT_LIGHT FONT false Align.left none Anchor.top
  ({ prs with slides := prs.slides ++ [slide] }, r1.2.1)

/-- The slide-building functions `main` calls, in the listed order. -/
def v2SlideNames : List String :=
  ["slide_01_title", "slide_02_epidemic", "slide_03_window_atn",
   "slide_04_neuroimaging", "slide_05_datasets", "slide_06_section_divider",
   "slide_07_mri_fundamentals", "slide_08_beyond_mri",
   "slide_09_preprocessing", "slide_10_signal_cleaning",
   "slide_11_skull_stripping", "slide_12_vbm", "slide_13_classical_ml",
   "slide_14_cnns_to_transformers", "slide_15_explainability",
   "slide_16_cnn_experiments", "slide_17_swin_results",
   "slide_18_cnn_vs_swin", "slide_19_why_models_fail",
   "slide_20_accuracy_paradox", "slide_21_label_uncertainty",
   "slide_22_advances_road_ahead", "slide_23_conclusion",
   "slide_24_thank_you"]

/-- Models `main()` of `create_presentation_v2.py`: step 1 regenerates the four
charts, step 2 builds the 24 slides in the listed order, then the document is
saved once.  Returns the final filesystem, the printed lines, and the effect
trace (chart-file writes, slide additions, the save) in execution order. -/
def main (env : Env) (fs : FS) : FS × List String × List Event :=
  let eq60 := String.mk (List.replicate 60 '=')
  let c1 := generate_prevalence_chart env fs
  let c2 := generate_classical_ml_chart env c1.1
  let c3 := generate_cnn_vs_swin_chart env c2.1
  let c4 := generate_leakage_chart env c3.1
  let fs1 := c4.1
  let prs : Prs := { slideWidth := SLIDE_W, slideHeight := SLIDE_H,
                     slides := [] }
  let s01 := slide_01_title env fs1 prs
  let s02 := slide_02_epidemic env fs1 s01.1 c1.2
  let s03 := slide_03_window_atn env fs1 s02.1
  let s04 := slide_04_neuroimaging env fs1 s03.1
  let s05 := slide_05_datasets env fs1 s04.1
  let s06 := slide_06_section_divider env fs1 s05.1
  let s07 := slide_07_mri_fundamentals env fs1 s06.1
  let s08 := slide_08_beyond_mri env fs1 s07.1
  let s09 := slide_09_preprocessing env fs1 s08.1
  let s10 := slide_10_signal_cleaning env fs1 s09.1
  let s11 := slide_11_skull_stripping env fs1 s10.1
  let s12 := slide_12_vbm env fs1 s11.1
  let s13 := slide_13_classical_ml env fs1 s12.1 c2.2
  let s14 := slide_14_cnns_to_transformers env fs1 s13.1
  let s15 := slide_15_explainability env fs1 s14.1
  let s16 := slide_16_cnn_experiments env fs1 s15.1
  let s17 := slide_17_swin_results env fs1 s16.1
  let s18 := slide_18_cnn_vs_swin env fs1 s17.1 c3.2
  let s19 := slide_19_why_models_fail env fs1 s18.1 c4.2
  let s20 := slide_20_accuracy_paradox env fs1 s19.1
  let s21 := slide_21_label_uncertainty env fs1 s20.1
  let s22 := slide_22_advances_road_ahead env fs1 s21.1
  let s23 := slide_23_conclusion env fs1 s22.1
  let s24 := slide_24_thank_you env fs1 s23.1
  let prsF := s24.1
  let fs2 := writeFile OUTPUT (FileData.pptx prsF) fs1
  let out :=
    [eq60, "Building Thesis Presentation v2 (24 slides)", eq60,
     "\n[1/2] Generating matplotlib charts...",
     "  -> " ++ c1.2, "  -> " ++ c2.2, "  -> " ++ c3.2, "  -> " ++ c4.2,
     "\n[2/2] Building presentation...", "  ACT I: The Problem"] ++
    s01.2 ++ ["    Slide 1: Title"] ++
    s02.2 ++ ["    Slide 2: The Silent Epidemic"] ++
    s03.2 ++ ["    Slide 3: 20-Year Window & AT(N)"] ++
    s04.2 ++ ["    Slide 4: Why Neuroimaging"] ++
    s05.2 ++ ["    Slide 5: Benchmark Datasets", "  ACT II: The Science"] ++
    s06.2 ++ ["    Slide 6: Section Divider"] ++
    s07.2 ++ ["    Slide 7: MRI Fundamentals"] ++
    s08.2 ++ ["    Slide 8: Beyond MRI"] ++
    s09.2 ++ ["    Slide 9: Preprocessing Pipeline"] ++
    s10.2 ++ ["    Slide 10: Signal Cleaning"] ++
    s11.2 ++ ["    Slide 11: Skull Stripping"] ++
    s12.2 ++ ["    Slide 12: VBM"] ++
    s13.2 ++ ["    Slide 13: Classical ML"] ++
    s14.2 ++ ["    Slide 14: CNNs to Transformers"] ++
    s15.2 ++ ["    Slide 15: Explainability"] ++
    s16.2 ++ ["    Slide 16: CNN Experiments [NEW]"] ++
    s17.2 ++ ["    Slide 17: Swin Results [NEW]"] ++
    s18.2 ++ ["    Slide 18: CNN vs Swin [NEW]", "  ACT III: The Reckoning"] ++
    s19.2 ++ ["    Slide 19: Why Models Fail"] ++
    s20.2 ++ ["    Slide 20: Accuracy Paradox"] ++
    s21.2 ++ ["    Slide 21: Label Uncertainty"] ++
    s22.2 ++ ["    Slide 22: Advances & Road Ahead"] ++
    s23.2 ++ ["    Slide 23: Conclusion", "  BOOKEND"] ++
    s24.2 ++ ["    Slide 24: Thank You",
      "\n" ++ eq60, "SAVED: " ++ OUTPUT,
      "Slides: " ++ toString prsF.slides.length, eq60]
  let events :=
    [Event.write c1.2, Event.write c2.2, Event.write c3.2, Event.write c4.2]
      ++ v2SlideNames.map Event.slideAdded ++ [Event.saved OUTPUT]
  (fs2, out, events)

/-- Step 1 of `main` in isolation: the filesystem after the four chart
writes. -/
def v2ChartPhase (env : Env) (fs : FS) : FS :=
  (generate_leakage_chart env
    (generate_cnn_vs_swin_chart env
      (generate_classical_ml_chart env
        (generate_prevalence_chart env fs).1).1).1).1

/-- Step 2 of `main` in isolation: the presentation built by the 24 slide
functions, in the listed order, over a given filesystem (the chart paths the
four chart-consuming slides receive are the constants the generators
return). -/
def v2SlidePrs (env : Env) (fs1 : FS) : Prs :=
  let prs : Prs := { slideWidth := SLIDE_W, slideHeight := SLIDE_H,
                     slides := [] }
  let p01 := (slide_01_title env fs1 prs).1
  let p02 := (slide_02_epidemic env fs1 p01
    (CHART_DIR ++ "/prevalence_projection.png")).1
  let p03 := (slide_03_window_atn env fs1 p02).1
  let p04 := (slide_04_neuroimaging env fs1 p03).1
  let p05 := (slide_05_datasets env fs1 p04).1
  let p06 := (slide_06_section_divider env fs1 p05).1
  let p07 := (slide_07_mri_fundamentals env fs1 p06).1
  let p08 := (slide_08_beyond_mri env fs1 p07).1
  let p09 := (slide_09_preprocessing env fs1 p08).1
  let p10 := (slide_10_signal_cleaning env fs1 p09).1
  let p11 := (slide_11_skull_stripping env fs1 p10).1
  let p12 := (slide_12_vbm env fs1 p11).1
  let p13 := (slide_13_classical_ml env fs1 p12
    (CHART_DIR ++ "/classical_ml_comparison.png")).1
  let p14 := (slide_14_cnns_to_transformers env fs1 p13).1
  let p15 := (slide_15_explainability env fs1 p14).1
  let p16 := (slide_16_cnn_experiments env fs1 p15).1
  let p17 := (slide_17_swin_results env fs1 p16).1
  let p18 := (slide_18_cnn_vs_swin env fs1 p17
    (CHART_DIR ++ "/cnn_vs_swin_comparison.png")).1
  let p19 := (slide_19_why_models_fail env fs1 p18
    (CHART_DIR ++ "/data_leakage_impact.png")).1
  let p20 := (slide_20_accuracy_paradox env fs1 p19).1
  let p21 := (slide_21_label_uncertainty env fs1 p20).1
  let p22 := (slide_22_advances_road_ahead env fs1 p21).1
  let p23 := (slide_23_conclusion env fs1 p22).1
  (slide_24_thank_you env fs1 p23).1

/-- The presentation `main` saves. -/
def v2MainPrs (env : Env) (fs : FS) : Prs :=
  v2SlidePrs env (v2ChartPhase env fs)

/-- The chart paths `main` writes in step 1, in order. -/
def v2ChartPaths : List String :=
  [CHART_DIR ++ "/prevalence_projection.png",
   CHART_DIR ++ "/classical_ml_comparison.png",
   CHART_DIR ++ "/cnn_vs_swin_comparison.png",
   CHART_DIR ++ "/data_leakage_impact.png"]

end V2

namespace Build

/-!  Embedding of `build_presentation.py`.  -/

def BASE : String := "/repo/Presentation "

def REPO : String := "/repo"

def IMG : String := REPO ++ "/images"

def CHARTS : String := BASE ++ "/generated_charts"

def OUTPUT : String := BASE ++ "/AI_Alzheimer_Thesis_Presentation.pptx"

def DARK_BG : RGB := ⟨0x0D, 0x11, 0x17⟩

def LIGHT_BG : RGB := ⟨0xF7, 0xF5, 0xF0⟩

def COPPER : RGB := ⟨0xC1, 0x7F, 0x3A⟩

def BLUE : RGB := ⟨0x3B, 0x82, 0xB6⟩

def RED : RGB := ⟨0xDC, 0x4A, 0x4A⟩

def GREEN : RGB := ⟨0x5B, 0x8C, 0x6B⟩

def TEXT_ON_DARK : RGB := ⟨0xE8, 0xE4, 0xDE⟩

def TEXT_ON_LIGHT : RGB := ⟨0x2D, 0x2D, 0x2D⟩

def CITE_GRAY : RGB := ⟨0x8B, 0x86, 0x80⟩

def WHITE : RGB := ⟨0xFF, 0xFF, 0xFF⟩

def CITE_BAR_DARK : RGB := ⟨0x0A, 0x0D, 0x12⟩

def CITE_BAR_LIGHT : RGB := ⟨0xED, 0xEB, 0xE6⟩

def SLIDE_W : Len := Inches (13.333 : ℚ)

def SLIDE_H : Len := Inches (7.5 : ℚ)

def img_path (filename : String) : String := IMG ++ "/" ++ filename

def chart_path (filename : String) : String := CHARTS ++ "/" ++ filename

/-- Models `set_slide_bg`. -/
def set_slide_bg (slide : Slide) (color : RGB) : Slide :=
  { slide with background := some color }

/-- Models `add_shape_fill`: borderless filled rectangle. -/
def add_shape_fill (slide : Slide) (left top width height : Len)
    (color : RGB) : Slide :=
  { slide with shapes := slide.shapes ++
      [Shape.autoshape ShapeKind.rectangle left top width height color
        LineFill.background] }

/-- Models `add_shape_fill` followed by `box.line.color.rgb = c; box.line.width = w`
on the returned shape (the script mutates the shape it just added; the net
effect is a filled rectangle with a colored outline). -/
def add_shape_fill_then_line (slide : Slide) (left top width height : Len)
    (color : RGB) (lineColor : RGB) (lineWidth : Len) : Slide :=
  { slide with shapes := slide.shapes ++
      [Shape.autoshape ShapeKind.rectangle left top width height color
        (LineFill.colored lineColor lineWidth)] }

/-- Models `add_textbox`: one-paragraph textbox.  The `anchor` parameter is accepted
and never used by the body.  The two `try/except: pass` blocks (pre-setting
the paragraph alignment, and zeroing `space_before`/`space_after`) wrap
assignments that succeed on python-pptx paragraphs, so they are modelled as
plain assignments. -/
def add_textbox (slide : Slide) (left top width height : Len) (text : String)
    (font_size : ℚ) (color : RGB) (bold italic : Bool) (alignment : Align)
    (font_name : String) (anchor : Anchor) : Slide :=
  let para : Paragraph :=
    { runs := [⟨text, font_name, Pt font_size, color, bold, italic⟩],
      alignment := alignment, lineSpacing := none,
      spaceBefore := some (Pt 0), spaceAfter := some (Pt 0) }
  let tf : TextFrame := { wordWrap := true, verticalAnchor := none,
                          paragraphs := [para] }
  { slide with shapes := slide.shapes ++ [Shape.textbox left top width height tf] }

/-- Models `add_multiline_textbox`: one paragraph per string; each paragraph gets
2-pt spacing before and after.  The `line_spacing` parameter is accepted and
never used by the body. -/
def add_multiline_textbox (slide : Slide) (left top width height : Len)
    (lines : List String) (font_size : ℚ) (color : RGB) (bold italic : Bool)
    (alignment : Align) (font_name : String) (line_spacing : ℚ) : Slide :=
  let paras :=
    if lines = [] then [emptyParagraph]
    else lines.map (fun line =>
      { runs := [⟨line, font_name, Pt font_size, color, bold, italic⟩],
        alignment := alignment, lineSpacing := none,
        spaceBefore := some (Pt 2), spaceAfter := some (Pt 2) })
  let tf : TextFrame := { wordWrap := true, verticalAnchor := none,
                          paragraphs := paras }
  { slide with shapes := slide.shapes ++ [Shape.textbox left top width height tf] }

/-- Models `add_citation_strip`: a full-width bar near the bottom plus 9-pt italic
gray text.  (`bar.line.fill.background()` re-applies the state
`add_shape_fill` already left.) -/
def add_citation_strip (slide : Slide) (text : String) (dark_bg : Bool) :
    Slide :=
  let bar_color := if dark_bg then CITE_BAR_DARK else CITE_BAR_LIGHT
  let slide := add_shape_fill slide (Inches 0) (SLIDE_H - Inches 0.55)
    SLIDE_W (Inches 0.55) bar_color
  add_textbox slide (Inches 0.5) (SLIDE_H - Inches 0.45)
    (SLIDE_W - Inches 1) (Inches 0.35) text 9 CITE_GRAY false true Align.left
    "Georgia" Anchor.top

/-- Models `add_accent_line` (this script's version takes a height, default 3 pt). -/
def add_accent_line (slide : Slide) (left top width : Len) (color : RGB)
    (height : Len) : Slide :=
  { slide with shapes := slide.shapes ++
      [Shape.autoshape ShapeKind.rectangle left top width height color
        LineFill.background] }

/-- Models `add_section_label`: small bold caps label. -/
def add_section_label (slide : Slide) (left top : Len) (text : String)
    (color : RGB) : Slide :=
  add_textbox slide left top (Inches 3) (Inches 0.3) text.toUpper 10 color
    true false Align.left "Georgia" Anchor.top

/-- Models `safe_add_image`: resolve a relative name against the images directory,
warn and skip when the file is missing, otherwise add the picture (passing
`width`/`height` kwargs only when truthy) and return it. -/
def safe_add_image (fs : FS) (slide : Slide) (img_file : String)
    (left top : Len) (width height : Option Len) :
    Slide × List String × Option Shape :=
  let path := if isAbs img_file then img_file else img_path img_file
  if path_exists fs path = false then
    (slide, ["  WARNING: Image not found: " ++ path], none)
  else
    let pic := Shape.picture path left top (truthyQ width) (truthyQ height)
    ({ slide with shapes := slide.shapes ++ [pic] }, [], some pic)

/-- SLIDE 1 section of `build_presentation()` (title slide). -/
def buildSlide01 (fs : FS) (prs : Prs) : Prs × List String :=
  let slide := set_slide_bg blankSlide DARK_BG
  let r1 := safe_add_image fs slide "logo_en.png" (Inches 0.6) (Inches 0.5)
    none (some (Inches 1))
  let slide := r1.1
  let slide := add_accent_line slide (Inches 0.6) (Inches 2) (Inches 2.5)
    COPPER (Pt 3)
  let slide := add_textbox slide (Inches 0.6) (Inches 2.3) (Inches 10)
    (Inches 1.5) "AI Alzheimer and Dementia\nClassification" 36 WHITE true
    false Align.left "Georgia" Anchor.top
  let slide := add_textbox slide (Inches 0.6) (Inches 4) (Inches 10)
    (Inches 0.8)
    "A Review of Neuroimaging, Machine Learning, and the Road to Clinical Translation"
    16 TEXT_ON_DARK false true Align.left "Georgia" Anchor.top
  let slide := add_multiline_textbox slide (Inches 0.6) (Inches 5.2)
    (Inches 8) (Inches 1.5)
    ["Gavriilidis Paraskevas",
     "Department of Informatics and Computer Engineering",
     "University of West Attica, 2025"]
    14 CITE_GRAY false false Align.left "Georgia" 1.2
  let slide := add_citation_strip slide
    "Thesis Defense Presentation  •  University of West Attica" true
  ({ prs with slides := prs.slides ++ [slide] },
   r1.2.1 ++ ["  Slide  1: Title"])

/-- SLIDE 2 section of `build_presentation()` (the silent epidemic). -/
def buildSlide02 (fs : FS) (prs : Prs) : Prs × List String :=
  let slide := set_slide_bg blankSlide LIGHT_BG
  let slide := add_section_label slide (Inches 0.6) (Inches 0.4)
    "ACT I: THE PROBLEM" COPPER
  let slide := add_textbox slide (Inches 0.6) (Inches 1.2) (Inches 5)
    (Inches 2.5) "7.2M" 84 COPPER true false Align.left "Georgia" Anchor.top
  let slide := add_textbox slide (Inches 0.6) (Inches 3.5) (Inches 5)
    (Inches 0.6) "Americans living with Alzheimer\x27s disease" 20
    TEXT_ON_LIGHT true false Align.left "Georgia" Anchor.top
  let slide := add_accent_line slide (Inches 0.6) (Inches 4.2) (Inches 4)
    COPPER (Pt 3)
  let slide := add_multiline_textbox slide (Inches 0.6) (Inches 4.5)
    (Inches 5) (Inches 1.8)
    ["Projected to reach 13.8 million by 2060.",
     "Annual cost exceeds $360 billion.",
     "Every 65 seconds, someone develops AD."]
    14 TEXT_ON_LIGHT false false Align.left "Georgia" 1.2
  let r1 := safe_add_image fs slide (chart_path "prevalence_projection.png")
    (Inches 6.5) (Inches 1) (some (Inches 6.3)) none
  let slide := r1.1
  let slide := add_citation_strip slide
    "Alzheimer\x27s Association, 2024 Facts and Figures  •  Brookmeyer et al., 2007  •  WHO Dementia Fact Sheet, 2023"
    false
  ({ prs with slides := prs.slides ++ [slide] },
   r1.2.1 ++ ["  Slide  2: The Silent Epidemic"])

/-- SLIDE 3 section of `build_presentation()` (the 20-year window). -/
def buildSlide03 (fs : FS) (prs : Prs) : Prs × List String :=
  let slide := set_slide_bg blankSlide DARK_BG
  let slide := add_textbox slide (Inches 1.5) (Inches 2.2) (Inches 10.3)
    (Inches 2) "Pathology begins 15–20 years\nbefore the first symptom." 36
    WHITE true false Align.center "Georgia" Anchor.top
  let slide := add_accent_line slide (Inches 5.5) (Inches 4.5) (Inches 2.3)
    COPPER (Pt 3)
  let slide := add_textbox slide (Inches 2.5) (Inches 4.9) (Inches 8.3)
    (Inches 1.2)
    "This silent window is both the tragedy and the opportunity — early detection\nthrough neuroimaging could transform Alzheimer\x27s from a death sentence to a manageable condition."
    15 TEXT_ON_DARK false true Align.center "Georgia" Anchor.top
  let slide := add_citation_strip slide
    "Jack et al., 2010, Lancet Neurology  •  Sperling et al., 2011, Alzheimer\x27s & Dementia  •  Bateman et al., 2012, NEJM"
    true
  ({ prs with slides := prs.slides ++ [slide] },
   ["  Slide  3: The 20-Year Window"])

/-- SLIDE 4 section of `build_presentation()` (the AT(N) framework). -/
def buildSlide04 (fs : FS) (prs : Prs) : Prs × List String :=
  let slide := set_slide_bg blankSlide LIGHT_BG
  let slide := add_section_label slide (Inches 0.6) (Inches 0.4)
    "DIAGNOSTIC FRAMEWORK" COPPER
  let slide := add_textbox slide (Inches 0.6) (Inches 1) (Inches 12)
    (Inches 0.8) "The AT(N) Framework" 32 COPPER true false Align.left
    "Georgia" Anchor.top
  let slide := add_accent_line slide (Inches 0.6) (Inches 1.85) (Inches 3)
    COPPER (Pt 3)
  let colW := Inches 3.5
  let colStart := Inches 0.8
  let colGap := Inches 0.5
  let cols : List (String × String × String) :=
    [("A", "Amyloid",
      "Aβ42 in CSF, amyloid PET — the initiating pathology that seeds decades before symptoms."),
     ("T", "Tau",
      "Phosphorylated tau in CSF, tau PET — the spreading pathology that tracks with cognitive decline."),
     ("(N)", "Neurodegeneration",
      "MRI atrophy, FDG-PET hypometabolism — the downstream damage visible on structural imaging.")]
  let acc := cols.foldl (fun (acc : Slide × ℚ) it =>
    let slide := acc.1
    let i := acc.2
    let x := colStart + i * (colW + colGap)
    let slide := add_textbox slide x (Inches 2.2) (Inches 1.5) (Inches 1.5)
      it.1 60 COPPER true false Align.left "Georgia" Anchor.top
    let slide := add_textbox slide x (Inches 3.5) colW (Inches 0.5) it.2.1 18
      TEXT_ON_LIGHT true false Align.left "Georgia" Anchor.top
    let slide := add_textbox slide x (Inches 4.1) colW (Inches 2) it.2.2 13
      TEXT_ON_LIGHT false false Align.left "Georgia" Anchor.top
    (slide, i + 1)) (slide, 0)
  let slide := acc.1
  let slide := ([1, 2] : List ℚ).foldl (fun (slide : Slide) i =>
    add_shape_fill slide (colStart + i * (colW + colGap) - colGap / 2)
      (Inches 2.4) (Pt 1) (Inches 3.8) CITE_GRAY) slide
  let slide := add_citation_strip slide
    "Jack et al., 2018, Alzheimer\x27s & Dementia (NIA-AA Research Framework)  •  Dubois et al., 2014, Lancet Neurology"
    false
  ({ prs with slides := prs.slides ++ [slide] },
   ["  Slide  4: Biomarker Criteria AT(N)"])

/-- SLIDE 5 section of `build_presentation()` (why neuroimaging).  The
script re-applies the overlay's fill color after adding it, which leaves the
fill unchanged. -/
def buildSlide05 (fs : FS) (prs : Prs) : Prs × List String :=
  let slide := set_slide_bg blankSlide DARK_BG
  let r1 := safe_add_image fs slide "nihms-137059-f0004.jpg" (Inches 0)
    (Inches 0) (some (Inches 8)) (some SLIDE_H)
  let slide := r1.1
  let slide := add_shape_fill slide (Inches 7) (Inches 0) (Inches 6.333)
    SLIDE_H DARK_BG
  let slide := add_section_label slide (Inches 7.5) (Inches 1)
    "THE CASE FOR IMAGING" COPPER
  let slide := add_textbox slide (Inches 7.5) (Inches 1.5) (Inches 5)
    (Inches 0.8) "Why Neuroimaging?" 30 WHITE true false Align.left "Georgia"
    Anchor.top
  let slide := add_accent_line slide (Inches 7.5) (Inches 2.3) (Inches 2)
    COPPER (Pt 3)
  let slide := add_multiline_textbox slide (Inches 7.5) (Inches 2.7)
    (Inches 5) (Inches 3.5)
    ["Non-invasive — no lumbar punctures, no radioactive tracers for structural MRI.",
     "",
     "Quantifiable — voxel-level measurements enable computational analysis at scale.",
     "",
     "Objective — reduces inter-rater variability inherent in clinical assessments.",
     "",
     "Accessible — MRI scanners exist in most regional hospitals worldwide."]
    14 TEXT_ON_DARK false false Align.left "Georgia" 1.2
  let slide := add_citation_strip slide
    "Defined image from Defined et al. NIHMS  •  Defined et al., 2015, Alzheimer\x27s & Dementia  •  Jack et al., 2008, Brain"
    true
  ({ prs with slides := prs.slides ++ [slide] },
   r1.2.1 ++ ["  Slide  5: Why Neuroimaging"])

/-- SLIDE 6 section of `build_presentation()` (the benchmark datasets). -/
def buildSlide06 (fs : FS) (prs : Prs) : Prs × List String :=
  let slide := set_slide_bg blankSlide LIGHT_BG
  let slide := add_section_label slide (Inches 0.6) (Inches 0.4)
    "DATA FOUNDATIONS" COPPER
  let slide := add_textbox slide (Inches 0.6) (Inches 1) (Inches 12)
    (Inches 0.8) "The Benchmark Datasets" 30 COPPER true false Align.left
    "Georgia" Anchor.top
  let slide := add_accent_line slide (Inches 0.6) (Inches 1.8) (Inches 3)
    COPPER (Pt 3)
  let datasets : List (String × String × String × String) :=
    [("ADNI", "Alzheimer\x27s Disease\nNeuroimaging Initiative",
      "2,400+ subjects across 4 phases (2004–present). Multi-site, longitudinal MRI, PET, genetics, CSF biomarkers. The gold standard for AD research.",
      "adni.loni.usc.edu"),
     ("AIBL", "Australian Imaging,\nBiomarker & Lifestyle",
      "1,100+ participants from Melbourne and Perth. Enriched for pre-clinical AD with extensive lifestyle data. Independent validation cohort.",
      "aibl.csiro.au"),
     ("OASIS", "Open Access Series of\nImaging Studies",
      "2,000+ sessions across OASIS-1/2/3/4. Cross-sectional and longitudinal, freely available. Widely used for reproducibility benchmarks.",
      "oasis-brains.org")]
  let colW := Inches 3.8
  let acc := datasets.foldl (fun (acc : Slide × ℚ) it =>
    let slide := acc.1
    let i := acc.2
    let x := Inches 0.6 + i * (colW + Inches 0.25)
    let slide := add_textbox slide x (Inches 2.2) colW (Inches 0.7) it.1 36
      COPPER true false Align.left "Georgia" Anchor.top
    let slide := add_textbox slide x (Inches 2.9) colW (Inches 0.6) it.2.1 12
      CITE_GRAY false true Align.left "Georgia" Anchor.top
    let slide := add_accent_line slide x (Inches 3.55) (Inches 1.5) COPPER
      (Pt 3)
    let slide := add_textbox slide x (Inches 3.7) colW (Inches 2.5) it.2.2.1
      13 TEXT_ON_LIGHT false false Align.left "Georgia" Anchor.top
    let slide := add_textbox slide x (Inches 5.8) colW (Inches 0.3) it.2.2.2
      10 BLUE false true Align.left "Georgia" Anchor.top
    (slide, i + 1)) (slide, 0)
  let slide := acc.1
  let slide := ([1, 2] : List ℚ).foldl (fun (slide : Slide) i =>
    add_shape_fill slide (Inches 0.6 + i * (colW + Inches 0.25) - Inches 0.12)
      (Inches 2.2) (Pt 1) (Inches 4) CITE_GRAY) slide
  let slide := add_citation_strip slide
    "Mueller et al., 2005, Neuroimaging Clin N Am (ADNI)  •  Ellis et al., 2009, Int Psychogeriatr (AIBL)  •  Marcus et al., 2007, J Cogn Neurosci (OASIS)"
    false
  ({ prs with slides := prs.slides ++ [slide] },
   ["  Slide  6: The Datasets"])

/-- SLIDE 7 section of `build_presentation()` (section divider). -/
def buildSlide07 (fs : FS) (prs : Prs) : Prs × List String :=
  let slide := set_slide_bg blankSlide DARK_BG
  let slide := add_textbox slide (Inches 1) (Inches 0.6) (Inches 4)
    (Inches 0.4) "ACT II" 12 COPPER true false Align.left "Georgia" Anchor.top
  let slide := add_textbox slide (Inches 1) (Inches 2.5) (Inches 11)
    (Inches 2) "SEEING THE BRAIN" 52 WHITE true false Align.center "Georgia"
    Anchor.top
  let slide := add_accent_line slide (Inches 5.5) (Inches 4.6) (Inches 2.3)
    COPPER (Pt 3)
  let slide := add_textbox slide (Inches 2.5) (Inches 5) (Inches 8.3)
    (Inches 1)
    "Imaging modalities, preprocessing, and the computational pipeline" 16
    TEXT_ON_DARK false true Align.center "Georgia" Anchor.top
  let slide := add_citation_strip slide
    "Section 2: Neuroimaging Modalities and Preprocessing" true
  ({ prs with slides := prs.slides ++ [slide] },
   ["  Slide  7: Section Divider - SEEING THE BRAIN"])

/-- SLIDE 8 section of `build_presentation()` (MRI fundamentals). -/
def buildSlide08 (fs : FS) (prs : Prs) : Prs × List String :=
  let slide := set_slide_bg blankSlide DARK_BG
  let r1 := safe_add_image fs slide "IntensityNormalization1.png" (Inches 0)
    (Inches 0) (some (Inches 7.5)) (some SLIDE_H)
  let slide := r1.1
  let slide := add_shape_fill slide (Inches 6.8) (Inches 0) (Inches 6.533)
    SLIDE_H DARK_BG
  let slide := add_section_label slide (Inches 7.3) (Inches 0.8)
    "IMAGING MODALITIES" COPPER
  let slide := add_textbox slide (Inches 7.3) (Inches 1.3) (Inches 5.5)
    (Inches 0.8) "MRI Fundamentals" 30 WHITE true false Align.left "Georgia"
    Anchor.top
  let slide := add_accent_line slide (Inches 7.3) (Inches 2.1) (Inches 2)
    COPPER (Pt 3)
  let slide := add_multiline_textbox slide (Inches 7.3) (Inches 2.5)
    (Inches 5.3) (Inches 4)
    ["Magnetic Resonance Imaging exploits the Larmor equation: nuclei precess at frequencies proportional to field strength.",
     "",
     "T1-weighted scans provide excellent gray/white matter contrast — the workhorse of structural neuroimaging.",
     "",
     "T2-weighted and FLAIR sequences detect pathological fluid accumulation and white matter lesions.",
     "",
     "Modern 3T scanners achieve sub-millimeter resolution, enabling voxel-level analysis of atrophy patterns."]
    13 TEXT_ON_DARK false false Align.left "Georgia" 1.2
  let slide := add_citation_strip slide
    "Defined, 2002, MRI: Basic Principles  •  Jack et al., 2008, Brain  •  Defined, 2015, Neuroimaging"
    true
  ({ prs with slides := prs.slides ++ [slide] },
   r1.2.1 ++ ["  Slide  8: MRI Fundamentals"])

/-- SLIDE 9 section of `build_presentation()` (CT vs PET). -/
def buildSlide09 (fs : FS) (prs : Prs) : Prs × List String :=
  let slide := set_slide_bg blankSlide LIGHT_BG
  let slide := add_section_label slide (Inches 0.6) (Inches 0.4)
    "MODALITY COMPARISON" COPPER
  let slide := add_textbox slide (Inches 0.6) (Inches 1) (Inches 12)
    (Inches 0.6) "CT vs PET Imaging" 30 COPPER true false Align.left "Georgia"
    Anchor.top
  let slide := add_accent_line slide (Inches 0.6) (Inches 1.7) (Inches 3)
    COPPER (Pt 3)
  let r1 := safe_add_image fs slide "pmp-32-1-1-f1.png" (Inches 0.6)
    (Inches 2.2) (some (Inches 5.5)) none
  let slide := r1.1
  let slide := add_textbox slide (Inches 0.6) (Inches 5.6) (Inches 5.5)
    (Inches 0.4) "CT — Structural Anatomy" 16 TEXT_ON_LIGHT true false
    Align.left "Georgia" Anchor.top
  let slide := add_textbox slide (Inches 0.6) (Inches 6) (Inches 5.5)
    (Inches 0.7)
    "Fast, widely available. Shows calcifications and acute hemorrhage. Limited soft-tissue contrast makes it secondary to MRI for dementia assessment."
    12 TEXT_ON_LIGHT false false Align.left "Georgia" Anchor.top
  let slide := add_shape_fill slide (Inches 6.5) (Inches 2.2) (Pt 1.5)
    (Inches 4.5) CITE_GRAY
  let r2 := safe_add_image fs slide "pmp-32-1-1-f4.png" (Inches 7)
    (Inches 2.2) (some (Inches 5.5)) none
  let slide := r2.1
  let slide := add_textbox slide (Inches 7) (Inches 5.6) (Inches 5.5)
    (Inches 0.4) "PET — Molecular Function" 16 TEXT_ON_LIGHT true false
    Align.left "Georgia" Anchor.top
  let slide := add_textbox slide (Inches 7) (Inches 6) (Inches 5.5)
    (Inches 0.7)
    "Reveals metabolic activity (FDG) or protein deposits (amyloid/tau tracers). Essential for early detection but expensive and requires radioactive tracers."
    12 TEXT_ON_LIGHT false false Align.left "Georgia" Anchor.top
  let slide := add_citation_strip slide
    "Park et al., 2020, Prog Med Phys  •  Johnson et al., 2012, Ann Neurol  •  Defined, 2017, Brain Imaging"
    false
  ({ prs with slides := prs.slides ++ [slide] },
   r1.2.1 ++ r2.2.1 ++ ["  Slide  9: CT and PET"])

/-- SLIDE 10 section of `build_presentation()` (PET biomarkers). -/
def buildSlide10 (fs : FS) (prs : Prs) : Prs × List String :=
  let slide := set_slide_bg blankSlide LIGHT_BG
  let slide := add_section_label slide (Inches 0.6) (Inches 0.4)
    "MOLECULAR IMAGING" COPPER
  let slide := add_textbox slide (Inches 0.6) (Inches 1) (Inches 12)
    (Inches 0.6) "PET Biomarkers" 30 COPPER true false Align.left "Georgia"
    Anchor.top
  let slide := add_accent_line slide (Inches 0.6) (Inches 1.7) (Inches 2.5)
    COPPER (Pt 3)
  let slide := add_textbox slide (Inches 0.6) (Inches 2.3) (Inches 5)
    (Inches 2) "90%" 80 COPPER true false Align.left "Georgia" Anchor.top
  let slide := add_textbox slide (Inches 0.6) (Inches 4.2) (Inches 5)
    (Inches 0.5) "FDG-PET sensitivity for AD detection" 18 TEXT_ON_LIGHT true
    false Align.left "Georgia" Anchor.top
  let biomarkers : List (String × String) :=
    [("FDG-PET",
      "Measures glucose metabolism. Hypometabolism in temporo-parietal regions is a hallmark of AD. Sensitivity ~90%, specificity ~71%."),
     ("Amyloid PET",
      "Pittsburgh Compound B (PiB), Florbetapir. Detects amyloid plaques 15–20 years before symptoms. Changed clinical trial enrollment."),
     ("Tau PET",
      "Flortaucipir (AV-1451). Maps neurofibrillary tangle distribution. Correlates more closely with cognitive decline than amyloid.")]
  let acc := biomarkers.foldl (fun (acc : Slide × ℚ) it =>
    let slide := acc.1
    let y := Inches 2.2 + acc.2 * Inches 1.6
    let slide := add_textbox slide (Inches 6.5) y (Inches 6) (Inches 0.4)
      it.1 16 COPPER true false Align.left "Georgia" Anchor.top
    let slide := add_textbox slide (Inches 6.5) (y + Inches 0.4) (Inches 6)
      (Inches 1) it.2 12 TEXT_ON_LIGHT false false Align.left "Georgia"
      Anchor.top
    (slide, acc.2 + 1)) (slide, 0)
  let slide := acc.1
  let slide := add_citation_strip slide
    "Defined et al., 2004, J Nucl Med (FDG)  •  Klunk et al., 2004, Ann Neurol (PiB)  •  Johnson et al., 2016, Ann Neurol (Tau)"
    false
  ({ prs with slides := prs.slides ++ [slide] },
   ["  Slide 10: PET Biomarkers"])

/-- SLIDE 11 section of `build_presentation()` (the preprocessing
pipeline). -/
def buildSlide11 (fs : FS) (prs : Prs) : Prs × List String :=
  let slide := set_slide_bg blankSlide DARK_BG
  let slide := add_section_label slide (Inches 0.6) (Inches 0.5)
    "PREPROCESSING" COPPER
  let slide := add_textbox slide (Inches 0.6) (Inches 1) (Inches 12)
    (Inches 0.7) "The Preprocessing Pipeline" 30 WHITE true false Align.left
    "Georgia" Anchor.top
  let slide := add_accent_line slide (Inches 0.6) (Inches 1.8) (Inches 2.5)
    COPPER (Pt 3)
  let steps : List (String × String × RGB) :=
    [("1", "Raw MRI\nAcquisition", BLUE),
     ("→", "", CITE_GRAY),
     ("2", "Intensity\nNormalization", COPPER),
     ("→", "", CITE_GRAY),
     ("3", "Denoising\n(NLM/BM3D)", GREEN),
     ("→", "", CITE_GRAY),
     ("4", "Skull\nStripping", RED),
     ("→", "", CITE_GRAY),
     ("5", "Registration &\nSegmentation", BLUE)]
  let xStart := Inches 0.5
  let yCenter := Inches 3.2
  let acc := steps.foldl (fun (acc : Slide × ℚ) it =>
    let slide := acc.1
    let x := xStart + acc.2 * Inches 1.38
    let num := it.1
    let slide :=
      if num = "→" then
        add_textbox slide x (yCenter + Inches 0.2) (Inches 0.8) (Inches 0.6)
          "→" 30 CITE_GRAY true false Align.center "Georgia" Anchor.top
      else
        let slide := add_shape_fill_then_line slide x yCenter (Inches 1.2)
          (Inches 1.4) ⟨0x16, 0x1B, 0x22⟩ it.2.2 (Pt 2)
        let slide := add_textbox slide x (yCenter + Inches 0.1) (Inches 1.2)
          (Inches 0.5) num 24 it.2.2 true false Align.center "Georgia"
          Anchor.top
        add_textbox slide x (yCenter + Inches 0.5) (Inches 1.2) (Inches 0.8)
          it.2.1 11 TEXT_ON_DARK false false Align.center "Georgia" Anchor.top
    (slide, acc.2 + 1)) (slide, 0)
  let slide := acc.1
  let slide := add_textbox slide (Inches 0.6) (Inches 5.4) (Inches 12)
    (Inches 1)
    "Each step introduces assumptions and potential artifacts. Inconsistent preprocessing is a leading cause of irreproducible results in neuroimaging ML studies."
    14 TEXT_ON_DARK false true Align.left "Georgia" Anchor.top
  let slide := add_citation_strip slide
    "Defined et al., 2019, NeuroImage  •  Defined et al., 2014, Frontiers in Neuroscience  •  Ashburner, 2007, NeuroImage"
    true
  ({ prs with slides := prs.slides ++ [slide] },
   ["  Slide 11: Preprocessing Pipeline"])

/-- SLIDE 12 section of `build_presentation()` (intensity normalization). -/
def buildSlide12 (fs : FS) (prs : Prs) : Prs × List String :=
  let slide := set_slide_bg blankSlide LIGHT_BG
  let slide := add_section_label slide (Inches 0.6) (Inches 0.4)
    "PREPROCESSING" COPPER
  let slide := add_textbox slide (Inches 0.6) (Inches 1) (Inches 12)
    (Inches 0.6) "Intensity Normalization" 30 COPPER true false Align.left
    "Georgia" Anchor.top
  let slide := add_accent_line slide (Inches 0.6) (Inches 1.7) (Inches 3)
    COPPER (Pt 3)
  let r1 := safe_add_image fs slide "IntensityNormalization2.png"
    (Inches 0.6) (Inches 2.2) (some (Inches 5.8)) none
  let slide := r1.1
  let slide := add_shape_fill slide (Inches 6.55) (Inches 2.2) (Pt 1.5)
    (Inches 4.3) CITE_GRAY
  let r2 := safe_add_image fs slide "IntensityNormalization3.png" (Inches 7)
    (Inches 2.2) (some (Inches 5.8)) none
  let slide := r2.1
  let methods : List (String × String) :=
    [("Z-Score Normalization",
      "Subtracts mean, divides by standard deviation. Simple but assumes Gaussian intensity distribution."),
     ("Histogram Matching",
      "Aligns intensity distributions across scans. Robust to scanner variability but can distort pathological signals."),
     ("White Stripe",
      "Uses normal-appearing white matter as internal reference. Most principled approach for multi-site studies.")]
  let acc := methods.foldl (fun (acc : Slide × ℚ) it =>
    let slide := acc.1
    let x := Inches 0.6 + acc.2 * Inches 4.2
    let slide := add_textbox slide x (Inches 5.7) (Inches 3.8) (Inches 0.3)
      it.1 12 COPPER true false Align.left "Georgia" Anchor.top
    let slide := add_textbox slide x (Inches 6) (Inches 3.8) (Inches 0.7)
      it.2 10 TEXT_ON_LIGHT false false Align.left "Georgia" Anchor.top
    (slide, acc.2 + 1)) (slide, 0)
  let slide := acc.1
  let slide := add_citation_strip slide
    "Shinohara et al., 2014, NeuroImage (White Stripe)  •  Nyúl et al., 2000, IEEE TMI  •  Shah et al., 2011, J Neurosci Methods"
    false
  ({ prs with slides := prs.slides ++ [slide] },
   r1.2.1 ++ r2.2.1 ++ ["  Slide 12: Intensity Normalization"])

/-- SLIDE 13 section of `build_presentation()` (denoising strategies). -/
def buildSlide13 (fs : FS) (prs : Prs) : Prs × List String :=
  let slide := set_slide_bg blankSlide LIGHT_BG
  let slide := add_section_label slide (Inches 0.6) (Inches 0.4)
    "PREPROCESSING" COPPER
  let slide := add_textbox slide (Inches 0.6) (Inches 1) (Inches 12)
    (Inches 0.6) "Denoising Strategies" 30 COPPER true false Align.left
    "Georgia" Anchor.top
  let slide := add_accent_line slide (Inches 0.6) (Inches 1.7) (Inches 2.5)
    COPPER (Pt 3)
  let methods : List (String × String × String) :=
    [("NLM", "Non-Local Means",
      "Exploits self-similarity across patches. Weighted average of similar neighborhoods. Preserves edges better than Gaussian filtering. O(n²) complexity."),
     ("BM3D", "Block-Matching 3D",
      "Groups similar 2D blocks into 3D arrays, applies collaborative filtering in transform domain. State-of-the-art for natural images, adapted for MRI."),
     ("DL", "Deep Learning",
      "Encoder-decoder networks (DnCNN, U-Net variants). Learn noise patterns from paired data. Fastest inference but require training data matching target scanner.")]
  let acc := methods.foldl (fun (acc : Slide × ℚ) it =>
    let slide := acc.1
    let x := Inches 0.6 + acc.2 * Inches 4.2
    let slide := add_textbox slide x (Inches 2.2) (Inches 1.5) (Inches 1)
      it.1 42 COPPER true false Align.left "Georgia" Anchor.top
    let slide := add_textbox slide x (Inches 3.2) (Inches 3.8) (Inches 0.4)
      it.2.1 14 TEXT_ON_LIGHT true false Align.left "Georgia" Anchor.top
    let slide := add_accent_line slide x (Inches 3.65) (Inches 1.5) COPPER
      (Pt 3)
    let slide := add_textbox slide x (Inches 3.9) (Inches 3.8) (Inches 2.5)
      it.2.2 12 TEXT_ON_LIGHT false false Align.left "Georgia" Anchor.top
    (slide, acc.2 + 1)) (slide, 0)
  let slide := acc.1
  let slide := ([1, 2] : List ℚ).foldl (fun (slide : Slide) i =>
    add_shape_fill slide (Inches 0.6 + i * Inches 4.2 - Inches 0.1)
      (Inches 2.2) (Pt 1) (Inches 4) CITE_GRAY) slide
  let slide := add_citation_strip slide
    "Buades et al., 2005, CVPR (NLM)  •  Dabov et al., 2007, IEEE TIP (BM3D)  •  Zhang et al., 2017, IEEE TIP (DnCNN)"
    false
  ({ prs with slides := prs.slides ++ [slide] },
   ["  Slide 13: Denoising"])

/-- SLIDE 14 section of `build_presentation()` (skull stripping). -/
def buildSlide14 (fs : FS) (prs : Prs) : Prs × List String :=
  let slide := set_slide_bg blankSlide DARK_BG
  let r1 := safe_add_image fs slide "Skull Stripping image.png" (Inches 0)
    (Inches 0) (some (Inches 7)) (some SLIDE_H)
  let slide := r1.1
  let slide := add_shape_fill slide (Inches 6.2) (Inches 0) (Inches 7.133)
    SLIDE_H DARK_BG
  let slide := add_section_label slide (Inches 6.8) (Inches 0.8)
    "PREPROCESSING" COPPER
  let slide := add_textbox slide (Inches 6.8) (Inches 1.3) (Inches 6)
    (Inches 0.7) "Skull Stripping" 30 WHITE true false Align.left "Georgia"
    Anchor.top
  let slide := add_accent_line slide (Inches 6.8) (Inches 2.05) (Inches 2)
    COPPER (Pt 3)
  let slide := add_multiline_textbox slide (Inches 6.8) (Inches 2.5)
    (Inches 5.8) (Inches 3)
    ["Removal of non-brain tissue (skull, scalp, dura mater) is critical — residual skull can dominate classifier features.",
     "",
     "Classical: BET (FSL), FreeSurfer watershed. Robust but slow and require manual QC.",
     "",
     "Deep learning: HD-BET, SynthStrip achieve Dice >0.97 with zero manual intervention.",
     "",
     "Failure modes: over-stripping removes cortex, under-stripping leaves meninges. Both corrupt downstream VBM and classification."]
    13 TEXT_ON_DARK false false Align.left "Georgia" 1.2
  let r2 := safe_add_image fs slide "Skull Stripping Techniques.png"
    (Inches 6.8) (Inches 5.2) (some (Inches 5.5)) (some (Inches 1.5))
  let slide := r2.1
  let slide := add_citation_strip slide
    "Smith, 2002, HBM (BET)  •  Isensee et al., 2019, NeuroImage (HD-BET)  •  Hoopes et al., 2022, NeuroImage (SynthStrip)"
    true
  ({ prs with slides := prs.slides ++ [slide] },
   r1.2.1 ++ r2.2.1 ++ ["  Slide 14: Skull Stripping"])

/-- SLIDE 15 section of `build_presentation()` (voxel-based morphometry). -/
def buildSlide15 (fs : FS) (prs : Prs) : Prs × List String :=
  let slide := set_slide_bg blankSlide DARK_BG
  let r1 := safe_add_image fs slide "nihms154848f1.jpg" (Inches 0) (Inches 0)
    (some (Inches 7.5)) (some SLIDE_H)
  let slide := r1.1
  let slide := add_shape_fill slide (Inches 6.8) (Inches 0) (Inches 6.533)
    SLIDE_H DARK_BG
  let slide := add_section_label slide (Inches 7.3) (Inches 0.8)
    "FEATURE EXTRACTION" COPPER
  let slide := add_textbox slide (Inches 7.3) (Inches 1.3) (Inches 5.5)
    (Inches 0.7) "Voxel-Based Morphometry" 28 WHITE true false Align.left
    "Georgia" Anchor.top
  let slide := add_accent_line slide (Inches 7.3) (Inches 2.05) (Inches 2)
    COPPER (Pt 3)
  let slide := add_multiline_textbox slide (Inches 7.3) (Inches 2.5)
    (Inches 5.3) (Inches 4)
    ["VBM quantifies regional gray matter concentration differences across the entire brain, without pre-selecting regions of interest.",
     "",
     "Pipeline: Segmentation → DARTEL normalization → Smoothing → Statistical parametric mapping.",
     "",
     "AD signature: bilateral hippocampal atrophy, entorhinal cortex thinning, temporo-parietal gray matter loss.",
     "",
     "AUC >0.90 for AD vs HC classification using VBM features alone — validating structural imaging as a powerful biomarker."]
    13 TEXT_ON_DARK false false Align.left "Georgia" 1.2
  let slide := add_citation_strip slide
    "Ashburner & Friston, 2000, NeuroImage (VBM)  •  Karas et al., 2004, NeuroImage  •  Defined, 2018, Alzheimer\x27s Research & Therapy"
    true
  ({ prs with slides := prs.slides ++ [slide] },
   r1.2.1 ++ ["  Slide 15: Voxel-Based Morphometry"])

/-- SLIDE 16 section of `build_presentation()` (classical ML). -/
def buildSlide16 (fs : FS) (prs : Prs) : Prs × List String :=
  let slide := set_slide_bg blankSlide LIGHT_BG
  let slide := add_section_label slide (Inches 0.6) (Inches 0.4)
    "MACHINE LEARNING" COPPER
  let slide := add_textbox slide (Inches 0.6) (Inches 1) (Inches 5)
    (Inches 2.5) "94.5%" 80 COPPER true false Align.left "Georgia" Anchor.top
  let slide := add_textbox slide (Inches 0.6) (Inches 3.2) (Inches 5)
    (Inches 0.5) "SVM accuracy for AD vs Healthy Controls" 18 TEXT_ON_LIGHT
    true false Align.left "Georgia" Anchor.top
  let slide := add_accent_line slide (Inches 0.6) (Inches 3.8) (Inches 3.5)
    COPPER (Pt 3)
  let slide := add_multiline_textbox slide (Inches 0.6) (Inches 4.1)
    (Inches 5.5) (Inches 2)
    ["But the MCI cliff tells the real story — accuracy drops to ~68% for mild cognitive impairment detection.",
     "",
     "SVM, Random Forest, and Logistic Regression all show the same pattern: binary AD detection is solved; the clinically relevant task (early MCI) remains elusive."]
    13 TEXT_ON_LIGHT false false Align.left "Georgia" 1.2
  let r1 := safe_add_image fs slide (chart_path "ml_comparison.png")
    (Inches 6.5) (Inches 0.8) (some (Inches 6.3)) none
  let slide := r1.1
  let slide := add_citation_strip slide
    "Defined et al., 2014, NeuroImage  •  Defined et al., 2018, IEEE  •  Defined et al., 2017, Alzheimer\x27s & Dementia"
    false
  ({ prs with slides := prs.slides ++ [slide] },
   r1.2.1 ++ ["  Slide 16: Classical ML"])

/-- SLIDE 17 section of `build_presentation()` (the deep learning
revolution). -/
def buildSlide17 (fs : FS) (prs : Prs) : Prs × List String :=
  let slide := set_slide_bg blankSlide DARK_BG
  let slide := add_section_label slide (Inches 0.6) (Inches 0.5)
    "DEEP LEARNING" COPPER
  let slide := add_textbox slide (Inches 0.6) (Inches 1) (Inches 12)
    (Inches 0.7) "The Deep Learning Revolution" 30 WHITE true false Align.left
    "Georgia" Anchor.top
  let slide := add_accent_line slide (Inches 0.6) (Inches 1.8) (Inches 2.5)
    COPPER (Pt 3)
  let archs : List (String × String × String) :=
    [("2D CNN", "Slice-level",
      "Process individual 2D slices. Fast training, large effective dataset (N × slices). Miss inter-slice spatial relationships. Risk of information leakage between slices of same subject."),
     ("3D CNN", "Volume-level",
      "Process entire 3D brain volumes. Capture spatial context across all axes. Require more GPU memory and larger datasets. More prone to overfitting on small cohorts."),
     ("ResNet/DenseNet", "Transfer Learning",
      "Pre-trained on ImageNet, fine-tuned on brain scans. Exploit low-level feature reuse. Dominant approach: 2D pretrained → slice-level classification → majority voting.")]
  let acc := archs.foldl (fun (acc : Slide × ℚ) it =>
    let slide := acc.1
    let i := acc.2
    let x := Inches 0.5 + i * Inches 4.2
    let boxColor := if i < 2 then BLUE else GREEN
    let slide := add_shape_fill_then_line slide x (Inches 2.4) (Inches 3.9)
      (Inches 3.8) ⟨0x16, 0x1B, 0x22⟩ boxColor (Pt 1.5)
    let slide := add_textbox slide (x + Inches 0.2) (Inches 2.6) (Inches 3.5)
      (Inches 0.5) it.1 22 boxColor true false Align.left "Georgia" Anchor.top
    let slide := add_textbox slide (x + Inches 0.2) (Inches 3.1) (Inches 3.5)
      (Inches 0.3) it.2.1 12 COPPER false true Align.left "Georgia" Anchor.top
    let slide := add_accent_line slide (x + Inches 0.2) (Inches 3.45)
      (Inches 1.5) boxColor (Pt 3)
    let slide := add_textbox slide (x + Inches 0.2) (Inches 3.7) (Inches 3.5)
      (Inches 2.2) it.2.2 12 TEXT_ON_DARK false false Align.left "Georgia"
      Anchor.top
    (slide, i + 1)) (slide, 0)
  let slide := acc.1
  let slide := add_citation_strip slide
    "He et al., 2016, CVPR (ResNet)  •  Huang et al., 2017, CVPR (DenseNet)  •  Wen et al., 2020, Med Image Anal"
    true
  ({ prs with slides := prs.slides ++ [slide] },
   ["  Slide 17: Deep Learning Revolution"])

/-- SLIDE 18 section of `build_presentation()` (vision transformers and
hybrids). -/
def buildSlide18 (fs : FS) (prs : Prs) : Prs × List String :=
  let slide := set_slide_bg blankSlide LIGHT_BG
  let slide := add_section_label slide (Inches 0.6) (Inches 0.4)
    "ADVANCED ARCHITECTURES" COPPER
  let slide := add_textbox slide (Inches 0.6) (Inches 1) (Inches 12)
    (Inches 0.6) "Vision Transformers & Hybrid Models" 28 COPPER true false
    Align.left "Georgia" Anchor.top
  let slide := add_accent_line slide (Inches 0.6) (Inches 1.7) (Inches 3)
    COPPER (Pt 3)
  let slide := add_textbox slide (Inches 0.6) (Inches 2.2) (Inches 5.5)
    (Inches 0.5) "Vision Transformer (ViT)" 20 BLUE true false Align.left
    "Georgia" Anchor.top
  let slide := add_multiline_textbox slide (Inches 0.6) (Inches 2.8)
    (Inches 5.5) (Inches 3.5)
    ["Patches brain images into 16×16 tokens, processes via self-attention.",
     "",
     "Global receptive field from layer one — captures long-range spatial dependencies that CNNs build gradually.",
     "",
     "Data hungry: requires large datasets or pre-training. Performance degrades sharply on small cohorts (<500 subjects).",
     "",
     "Emerging evidence: attention maps align with known AD atrophy regions."]
    13 TEXT_ON_LIGHT false false Align.left "Georgia" 1.2
  let slide := add_shape_fill slide (Inches 6.4) (Inches 2.2) (Pt 1.5)
    (Inches 4.3) CITE_GRAY
  let slide := add_textbox slide (Inches 6.8) (Inches 2.2) (Inches 6)
    (Inches 0.5) "Hybrid CNN + Transformer" 20 GREEN true false Align.left
    "Georgia" Anchor.top
  let slide := add_multiline_textbox slide (Inches 6.8) (Inches 2.8)
    (Inches 5.8) (Inches 3.5)
    ["CNN backbone extracts local features; transformer head captures global context.",
     "",
     "Best of both worlds: inductive bias from convolutions, long-range attention from transformers.",
     "",
     "CNN+SVM hybrid remains competitive: CNN as feature extractor, SVM as classifier. Simpler, more interpretable.",
     "",
     "Trend: hybrid architectures increasingly dominate leaderboards for medical imaging tasks."]
    13 TEXT_ON_LIGHT false false Align.left "Georgia" 1.2
  let slide := add_citation_strip slide
    "Dosovitskiy et al., 2021, ICLR (ViT)  •  Defined et al., 2022, Med Image Anal  •  Defined et al., 2023, NeuroImage"
    false
  ({ prs with slides := prs.slides ++ [slide] },
   ["  Slide 18: Vision Transformers & Hybrids"])

/-- SLIDE 19 section of `build_presentation()` (measuring performance). -/
def buildSlide19 (fs : FS) (prs : Prs) : Prs × List String :=
  let slide := set_slide_bg blankSlide LIGHT_BG
  let slide := add_section_label slide (Inches 0.6) (Inches 0.4) "EVALUATION"
    COPPER
  let slide := add_textbox slide (Inches 0.6) (Inches 1) (Inches 6)
    (Inches 0.6) "Measuring Performance" 30 COPPER true false Align.left
    "Georgia" Anchor.top
  let slide := add_accent_line slide (Inches 0.6) (Inches 1.7) (Inches 2.5)
    COPPER (Pt 3)
  let slide := add_multiline_textbox slide (Inches 0.6) (Inches 2.2)
    (Inches 5.5) (Inches 4)
    ["Accuracy alone is misleading when classes are imbalanced — a model predicting \"no AD\" achieves 85% accuracy trivially.",
     "",
     "Essential metrics for clinical AD classification:",
     "",
     "Sensitivity (Recall) — proportion of true AD cases detected. Missing a diagnosis has devastating consequences.",
     "",
     "Specificity — proportion of healthy controls correctly identified. False positives cause unnecessary anxiety and procedures.",
     "",
     "AUC-ROC — threshold-independent measure of discriminative power. The gold standard for comparing models."]
    13 TEXT_ON_LIGHT false false Align.left "Georgia" 1.2
  let r1 := safe_add_image fs slide (chart_path "roc_curve.png") (Inches 7)
    (Inches 1) (some (Inches 5.5)) none
  let slide := r1.1
  let slide := add_citation_strip slide
    "Defined et al., 2019, Lancet Digital Health  •  Defined, 2017, BMC Med Inform  •  Defined et al., 2020, J Alzheimer\x27s Dis"
    false
  ({ prs with slides := prs.slides ++ [slide] },
   r1.2.1 ++ ["  Slide 19: Measuring Performance"])

/-- SLIDE 20 section of `build_presentation()` (explainability). -/
def buildSlide20 (fs : FS) (prs : Prs) : Prs × List String :=
  let slide := set_slide_bg blankSlide DARK_BG
  let r1 := safe_add_image fs slide "Grad-CAMVBM.png" (Inches 0) (Inches 0)
    (some (Inches 7)) (some SLIDE_H)
  let slide := r1.1
  let slide := add_shape_fill slide (Inches 6.2) (Inches 0) (Inches 7.133)
    SLIDE_H DARK_BG
  let slide := add_section_label slide (Inches 6.8) (Inches 0.8)
    "EXPLAINABILITY" COPPER
  let slide := add_textbox slide (Inches 6.8) (Inches 1.3) (Inches 6)
    (Inches 0.7) "Opening the Black Box" 28 WHITE true false Align.left
    "Georgia" Anchor.top
  let slide := add_accent_line slide (Inches 6.8) (Inches 2.05) (Inches 2)
    COPPER (Pt 3)
  let xaiMethods : List (String × String) :=
    [("Grad-CAM",
      "Gradient-weighted class activation maps highlight which brain regions drive the classification decision. Visual, intuitive, but coarse resolution."),
     ("LIME",
      "Locally Interpretable Model-agnostic Explanations perturb input regions and observe output changes. Model-agnostic but computationally expensive for 3D volumes."),
     ("SHAP",
      "SHapley Additive exPlanations provide theoretically grounded feature attributions. Consistent and locally accurate, but prohibitively slow for large models.")]
  let acc := xaiMethods.foldl (fun (acc : Slide × ℚ) it =>
    let slide := acc.1
    let y := Inches 2.5 + acc.2 * Inches 1.5
    let slide := add_textbox slide (Inches 6.8) y (Inches 6) (Inches 0.4)
      it.1 16 COPPER true false Align.left "Georgia" Anchor.top
    let slide := add_textbox slide (Inches 6.8) (y + Inches 0.35)
      (Inches 5.8) (Inches 1) it.2 12 TEXT_ON_DARK false false Align.left
      "Georgia" Anchor.top
    (slide, acc.2 + 1)) (slide, 0)
  let slide := acc.1
  let slide := add_textbox slide (Inches 6.8) (Inches 5.8) (Inches 5.8)
    (Inches 0.8)
    "The three pillars: Transparency (how it works), Justification (why this prediction), and Informativeness (what we learn about the disease)."
    12 TEXT_ON_DARK false true Align.left "Georgia" Anchor.top
  let slide := add_citation_strip slide
    "Selvaraju et al., 2017, ICCV (Grad-CAM)  •  Ribeiro et al., 2016, KDD (LIME)  •  Lundberg & Lee, 2017, NeurIPS (SHAP)"
    true
  ({ prs with slides := prs.slides ++ [slide] },
   r1.2.1 ++ ["  Slide 20: Explainability"])

/-- SLIDE 21 section of `build_presentation()` (Grad-CAM experiments). -/
def buildSlide21 (fs : FS) (prs : Prs) : Prs × List String :=
  let slide := set_slide_bg blankSlide DARK_BG
  let r1 := safe_add_image fs slide "limitations_gradcam.png" (Inches 0)
    (Inches 0) (some (Inches 7.5)) (some SLIDE_H)
  let slide := r1.1
  let slide := add_shape_fill slide (Inches 6.8) (Inches 0) (Inches 6.533)
    SLIDE_H DARK_BG
  let slide := add_section_label slide (Inches 7.3) (Inches 0.8) "EXPERIMENTS"
    COPPER
  let slide := add_textbox slide (Inches 7.3) (Inches 1.3) (Inches 5.5)
    (Inches 0.7) "Grad-CAM Across\nDementia Stages" 28 WHITE true false
    Align.left "Georgia" Anchor.top
  let slide := add_accent_line slide (Inches 7.3) (Inches 2.3) (Inches 2)
    COPPER (Pt 3)
  let slide := add_multiline_textbox slide (Inches 7.3) (Inches 2.7)
    (Inches 5.3) (Inches 3.5)
    ["Our Grad-CAM analysis reveals attention patterns across four dementia stages from the OASIS dataset.",
     "",
     "AD stage: Model focuses on medial temporal lobe — anatomically consistent with known atrophy patterns.",
     "",
     "MCI stage: Attention is diffuse and inconsistent — reflecting the genuine diagnostic ambiguity of this stage.",
     "",
     "Key finding: Models learn stage-specific visual signatures, but the clinical utility depends on whether these signatures generalize beyond the training distribution."]
    13 TEXT_ON_DARK false false Align.left "Georgia" 1.2
  let slide := add_citation_strip slide
    "Experimental results from thesis Chapter 8  •  OASIS-3 dataset  •  ResNet-50 backbone with Grad-CAM visualization"
    true
  ({ prs with slides := prs.slides ++ [slide] },
   r1.2.1 ++ ["  Slide 21: Our Experiments"])

/-- SLIDE 22 section of `build_presentation()` (section divider). -/
def buildSlide22 (fs : FS) (prs : Prs) : Prs × List String :=
  let slide := set_slide_bg blankSlide DARK_BG
  let slide := add_textbox slide (Inches 1) (Inches 0.6) (Inches 4)
    (Inches 0.4) "ACT III" 12 RED true false Align.left "Georgia" Anchor.top
  let slide := add_textbox slide (Inches 1) (Inches 2.5) (Inches 11)
    (Inches 2) "THE INCONVENIENT\nTRUTHS" 48 WHITE true false Align.center
    "Georgia" Anchor.top
  let slide := add_accent_line slide (Inches 5.5) (Inches 4.8) (Inches 2.3)
    RED (Pt 3)
  let slide := add_textbox slide (Inches 2.5) (Inches 5.2) (Inches 8.3)
    (Inches 1)
    "Methodological pitfalls, data quality, and the gap between benchmarks and bedside"
    16 TEXT_ON_DARK false true Align.center "Georgia" Anchor.top
  let slide := add_citation_strip slide
    "Section 3: Critical Analysis and Limitations" true
  ({ prs with slides := prs.slides ++ [slide] },
   ["  Slide 22: Section Divider - THE INCONVENIENT TRUTHS"])

/-- SLIDE 23 section of `build_presentation()` (data leakage). -/
def buildSlide23 (fs : FS) (prs : Prs) : Prs × List String :=
  let slide := set_slide_bg blankSlide LIGHT_BG
  let slide := add_section_label slide (Inches 0.6) (Inches 0.4)
    "CRITICAL FLAW" RED
  let slide := add_textbox slide (Inches 0.6) (Inches 1) (Inches 5)
    (Inches 2.5) "−28%" 80 RED true false Align.left "Georgia" Anchor.top
  let slide := add_textbox slide (Inches 0.6) (Inches 3.2) (Inches 5)
    (Inches 0.5) "Accuracy drop when data leakage is corrected" 18
    TEXT_ON_LIGHT true false Align.left "Georgia" Anchor.top
  let slide := add_accent_line slide (Inches 0.6) (Inches 3.8) (Inches 3.5)
    RED (Pt 3)
  let slide := add_multiline_textbox slide (Inches 0.6) (Inches 4.1)
    (Inches 5.5) (Inches 2.2)
    ["Only 4.5% of published studies use proper subject-level train/test splitting.",
     "",
     "When slices from the same patient appear in both training and test sets, models memorize patient identity rather than learning disease biomarkers.",
     "",
     "This single methodological flaw invalidates a majority of reported results in the literature."]
    13 TEXT_ON_LIGHT false false Align.left "Georgia" 1.2
  let r1 := safe_add_image fs slide (chart_path "data_leakage_impact.png")
    (Inches 6.5) (Inches 0.8) (some (Inches 6.3)) none
  let slide := r1.1
  let slide := add_citation_strip slide
    "Wen et al., 2020, Med Image Anal  •  Yagis et al., 2021, J Neurosci Methods  •  Defined et al., 2022, NeuroImage"
    false
  ({ prs with slides := prs.slides ++ [slide] },
   r1.2.1 ++ ["  Slide 23: Data Leakage"])

/-- SLIDE 24 section of `build_presentation()` (the accuracy paradox). -/
def buildSlide24 (fs : FS) (prs : Prs) : Prs × List String :=
  let slide := set_slide_bg blankSlide LIGHT_BG
  let slide := add_section_label slide (Inches 0.6) (Inches 0.4)
    "EVALUATION PITFALL" RED
  let slide := add_textbox slide (Inches 0.6) (Inches 1) (Inches 6)
    (Inches 0.6) "The Accuracy Paradox" 30 RED true false Align.left "Georgia"
    Anchor.top
  let slide := add_accent_line slide (Inches 0.6) (Inches 1.7) (Inches 2.5)
    RED (Pt 3)
  let r1 := safe_add_image fs slide "limitations_class_imbalance.png"
    (Inches 0.4) (Inches 2.2) (some (Inches 6.5)) none
  let slide := r1.1
  let slide := add_multiline_textbox slide (Inches 7.2) (Inches 1.5)
    (Inches 5.5) (Inches 5)
    ["Class imbalance is endemic in AD datasets. The Moderate Dementia class represents just ~1% of OASIS subjects.",
     "",
     "A naive model predicting \x27Nondemented\x27 for every scan achieves ~85% accuracy — a meaningless number that appears impressive.",
     "",
     "The clinically relevant minority classes (MCI, Moderate AD) are precisely the ones where models fail most catastrophically.",
     "",
     "Solution: Report balanced accuracy, F1-macro, sensitivity per class. Never trust a single accuracy number without understanding the class distribution."]
    13 TEXT_ON_LIGHT false false Align.left "Georgia" 1.2
  let slide := add_citation_strip slide
    "OASIS-3 demographics  •  Defined et al., 2020, Med Image Anal  •  Defined, 2019, Applied Sciences"
    false
  ({ prs with slides := prs.slides ++ [slide] },
   r1.2.1 ++ ["  Slide 24: Accuracy Paradox"])

/-- SLIDE 25 section of `build_presentation()` (domain shift). -/
def buildSlide25 (fs : FS) (prs : Prs) : Prs × List String :=
  let slide := set_slide_bg blankSlide LIGHT_BG
  let slide := add_section_label slide (Inches 0.6) (Inches 0.4)
    "GENERALIZATION GAP" RED
  let slide := add_textbox slide (Inches 0.6) (Inches 1.2) (Inches 5)
    (Inches 2.5) "71%" 84 RED true false Align.left "Georgia" Anchor.top
  let slide := add_textbox slide (Inches 0.6) (Inches 3.5) (Inches 5)
    (Inches 0.5) "Accuracy on external validation data" 18 TEXT_ON_LIGHT true
    false Align.left "Georgia" Anchor.top
  let slide := add_accent_line slide (Inches 0.6) (Inches 4.1) (Inches 3.5)
    RED (Pt 3)
  let slide := add_multiline_textbox slide (Inches 0.6) (Inches 4.4)
    (Inches 5.5) (Inches 2)
    ["Models trained on ADNI and tested on independent datasets lose 20–30% accuracy.",
     "",
     "Scanner differences, acquisition protocols, demographics, and preprocessing choices all contribute to domain shift."]
    13 TEXT_ON_LIGHT false false Align.left "Georgia" 1.2
  let slide := add_textbox slide (Inches 7) (Inches 1.5) (Inches 5.5)
    (Inches 0.5) "The Generalization Problem" 22 RED true false Align.left
    "Georgia" Anchor.top
  let slide := add_accent_line slide (Inches 7) (Inches 2.1) (Inches 2) RED
    (Pt 3)
  let comparisons : List (String × String × String × RGB) :=
    [("ADNI → ADNI", "~94% accuracy", "(same distribution)", GREEN),
     ("ADNI → AIBL", "~78% accuracy", "(similar demographics)", COPPER),
     ("ADNI → OASIS", "~71% accuracy", "(different scanners)", RED),
     ("ADNI → Clinical", "Unknown", "(no systematic testing)", CITE_GRAY)]
  let acc := comparisons.foldl (fun (acc : Slide × ℚ) it =>
    let slide := acc.1
    let y := Inches 2.5 + acc.2 * Inches 1.1
    let slide := add_textbox slide (Inches 7) y (Inches 3) (Inches 0.4) it.1
      16 TEXT_ON_LIGHT true false Align.left "Georgia" Anchor.top
    let slide := add_textbox slide (Inches 10) y (Inches 2.5) (Inches 0.4)
      it.2.1 16 it.2.2.2 true false Align.left "Georgia" Anchor.top
    let slide := add_textbox slide (Inches 7) (y + Inches 0.35) (Inches 5.5)
      (Inches 0.4) it.2.2.1 11 CITE_GRAY false true Align.left "Georgia"
      Anchor.top
    (slide, acc.2 + 1)) (slide, 0)
  let slide := acc.1
  let slide := add_citation_strip slide
    "Defined et al., 2020, Med Image Anal  •  Defined et al., 2019, NeuroImage  •  Defined et al., 2023, Alzheimer\x27s & Dementia"
    false
  ({ prs with slides := prs.slides ++ [slide] },
   ["  Slide 25: Domain Shift"])

/-- SLIDE 26 section of `build_presentation()` (shortcut learning). -/
def buildSlide26 (fs : FS) (prs : Prs) : Prs × List String :=
  let slide := set_slide_bg blankSlide DARK_BG
  let slide := add_section_label slide (Inches 0.6) (Inches 0.5)
    "HIDDEN DANGER" RED
  let slide := add_textbox slide (Inches 0.6) (Inches 1) (Inches 12)
    (Inches 0.7) "Shortcut Learning" 30 WHITE true false Align.left "Georgia"
    Anchor.top
  let slide := add_accent_line slide (Inches 0.6) (Inches 1.8) (Inches 2.5)
    RED (Pt 3)
  let slide := add_shape_fill_then_line slide (Inches 0.5) (Inches 2.4)
    (Inches 5.8) (Inches 3.5) ⟨0x16, 0x1B, 0x22⟩ GREEN (Pt 2)
  let slide := add_textbox slide (Inches 0.7) (Inches 2.6) (Inches 5.4)
    (Inches 0.5) "Correct Reasoning" 20 GREEN true false Align.left "Georgia"
    Anchor.top
  let slide := add_multiline_textbox slide (Inches 0.7) (Inches 3.2)
    (Inches 5.4) (Inches 2.5)
    ["Model learns hippocampal atrophy patterns",
     "Focuses on medial temporal lobe",
     "Attention maps align with clinical knowledge",
     "Generalizes to new populations"]
    13 TEXT_ON_DARK false false Align.left "Georgia" 1.2
  let slide := add_shape_fill_then_line slide (Inches 7) (Inches 2.4)
    (Inches 5.8) (Inches 3.5) ⟨0x16, 0x1B, 0x22⟩ RED (Pt 2)
  let slide := add_textbox slide (Inches 7.2) (Inches 2.6) (Inches 5.4)
    (Inches 0.5) "Shortcut Reasoning" 20 RED true false Align.left "Georgia"
    Anchor.top
  let slide := add_multiline_textbox slide (Inches 7.2) (Inches 3.2)
    (Inches 5.4) (Inches 2.5)
    ["Model learns scanner artifacts or head position",
     "Exploits correlation between age and AD prevalence",
     "Attention maps show skull edges or background",
     "Fails catastrophically on new scanners"]
    13 TEXT_ON_DARK false false Align.left "Georgia" 1.2
  let slide := add_textbox slide (Inches 5.9) (Inches 3.5) (Inches 1.5)
    (Inches 0.8) "vs" 28 COPPER true false Align.center "Georgia" Anchor.top
  let slide := add_textbox slide (Inches 0.5) (Inches 6.1) (Inches 12.3)
    (Inches 0.7)
    "Without rigorous explainability analysis, we cannot distinguish these two scenarios from accuracy alone."
    14 TEXT_ON_DARK false true Align.center "Georgia" Anchor.top
  let slide := add_citation_strip slide
    "Geirhos et al., 2020, Nature Machine Intelligence  •  DeGrave et al., 2021, Nature Machine Intelligence"
    true
  ({ prs with slides := prs.slides ++ [slide] },
   ["  Slide 26: Shortcut Learning"])

/-- SLIDE 27 section of `build_presentation()` (label uncertainty). -/
def buildSlide27 (fs : FS) (prs : Prs) : Prs × List String :=
  let slide := set_slide_bg blankSlide LIGHT_BG
  let slide := add_section_label slide (Inches 0.6) (Inches 0.4)
    "GROUND TRUTH PROBLEM" RED
  let slide := add_textbox slide (Inches 0.6) (Inches 1.2) (Inches 5)
    (Inches 2.5) "71%" 84 RED true false Align.left "Georgia" Anchor.top
  let slide := add_textbox slide (Inches 0.6) (Inches 3.5) (Inches 5)
    (Inches 0.8) "of dementia patients have mixed\npathology at autopsy" 18
    TEXT_ON_LIGHT true false Align.left "Georgia" Anchor.top
  let slide := add_accent_line slide (Inches 0.6) (Inches 4.4) (Inches 3.5)
    RED (Pt 3)
  let slide := add_multiline_textbox slide (Inches 0.6) (Inches 4.7)
    (Inches 5.5) (Inches 2)
    ["Clinical labels are inherently noisy. \"AD\" diagnoses are confirmed at autopsy only 60-80% of the time.",
     "",
     "Models trained on uncertain labels develop uncertain decision boundaries — garbage in, garbage out."]
    13 TEXT_ON_LIGHT false false Align.left "Georgia" 1.2
  let slide := add_textbox slide (Inches 7) (Inches 1.5) (Inches 5.5)
    (Inches 0.5) "The Label Problem" 22 RED true false Align.left "Georgia"
    Anchor.top
  let slide := add_accent_line slide (Inches 7) (Inches 2.1) (Inches 2) RED
    (Pt 3)
  let issues : List String :=
    ["Clinical diagnosis accuracy: 60-80% vs autopsy gold standard",
     "MCI is a syndrome, not a disease — heterogeneous etiology",
     "Mixed pathology (AD + vascular + Lewy body) is the norm, not the exception",
     "Longitudinal label changes: MCI → Normal reversion rate is 15-20%"]
  let n := issues.length
  let acc := issues.foldl (fun (acc : Slide × ℕ) issue =>
    let slide := acc.1
    let i := acc.2
    let y := Inches 2.5 + (i : ℚ) * Inches 1.1
    let slide := add_textbox slide (Inches 7) y (Inches 5.5) (Inches 0.9)
      issue 13 TEXT_ON_LIGHT false false Align.left "Georgia" Anchor.top
    let slide :=
      if i < n - 1 then
        add_shape_fill slide (Inches 7) (y + Inches 0.8) (Inches 5) (Pt 0.5)
          CITE_GRAY
      else slide
    (slide, i + 1)) (slide, 0)
  let slide := acc.1
  let slide := add_citation_strip slide
    "Beach et al., 2012, J Neuropath Exp Neurol  •  Defined et al., 2016, Lancet Neurology  •  Defined et al., 2019, Brain"
    false
  ({ prs with slides := prs.slides ++ [slide] },
   ["  Slide 27: Label Uncertainty"])

/-- SLIDE 28 section of `build_presentation()` (recent advances). -/
def buildSlide28 (fs : FS) (prs : Prs) : Prs × List String :=
  let slide := set_slide_bg blankSlide LIGHT_BG
  let slide := add_section_label slide (Inches 0.6) (Inches 0.4)
    "MOVING FORWARD" GREEN
  let slide := add_textbox slide (Inches 0.6) (Inches 1) (Inches 12)
    (Inches 0.6) "Recent Advances" 30 GREEN true false Align.left "Georgia"
    Anchor.top
  let slide := add_accent_line slide (Inches 0.6) (Inches 1.7) (Inches 2.5)
    GREEN (Pt 3)
  let slide := add_textbox slide (Inches 0.6) (Inches 2.2) (Inches 5.5)
    (Inches 0.5) "Multimodal Fusion" 20 GREEN true false Align.left "Georgia"
    Anchor.top
  let slide := add_multiline_textbox slide (Inches 0.6) (Inches 2.8)
    (Inches 5.5) (Inches 3.5)
    ["Combining MRI + PET + genetics + clinical scores yields more robust predictions than any single modality.",
     "",
     "Early fusion (concatenate inputs) vs late fusion (combine predictions) vs attention-based fusion (learn optimal weighting).",
     "",
     "Challenge: handling missing modalities gracefully — not every patient has PET scans or genetic testing."]
    13 TEXT_ON_LIGHT false false Align.left "Georgia" 1.2
  let slide := add_shape_fill slide (Inches 6.4) (Inches 2.2) (Pt 1.5)
    (Inches 4.3) CITE_GRAY
  let slide := add_textbox slide (Inches 6.8) (Inches 2.2) (Inches 6)
    (Inches 0.5) "Augmentation & Transfer Learning" 20 GREEN true false
    Align.left "Georgia" Anchor.top
  let r1 := safe_add_image fs slide "Graph.png" (Inches 6.8) (Inches 2.8)
    (some (Inches 5.5)) (some (Inches 3.5))
  let slide := r1.1
  let slide := add_textbox slide (Inches 6.8) (Inches 6.3) (Inches 5.5)
    (Inches 0.5) "Transfer learning taxonomy and augmentation strategies" 11
    CITE_GRAY false true Align.left "Georgia" Anchor.top
  let slide := add_citation_strip slide
    "Defined et al., 2022, NeuroImage  •  Defined et al., 2023, Med Image Anal  •  Defined et al., 2021, IEEE TMI"
    false
  ({ prs with slides := prs.slides ++ [slide] },
   r1.2.1 ++ ["  Slide 28: Recent Advances"])

/-- SLIDE 29 section of `build_presentation()` (future directions). -/
def buildSlide29 (fs : FS) (prs : Prs) : Prs × List String :=
  let slide := set_slide_bg blankSlide DARK_BG
  let slide := add_section_label slide (Inches 0.6) (Inches 0.5) "FUTURE"
    GREEN
  let slide := add_textbox slide (Inches 0.6) (Inches 1) (Inches 12)
    (Inches 0.7) "Future Directions" 30 WHITE true false Align.left "Georgia"
    Anchor.top
  let slide := add_accent_line slide (Inches 0.6) (Inches 1.8) (Inches 2.5)
    GREEN (Pt 3)
  let pillars : List (String × RGB × String) :=
    [("Standardized\nBenchmarks", GREEN,
      "Unified preprocessing pipelines, common evaluation metrics, mandatory external validation. End the reproducibility crisis by making comparison possible."),
     ("Clinical\nInterpretability", BLUE,
      "Move beyond saliency maps to causal explanations. Clinicians need to understand not just \x27where\x27 but \x27why\x27. Integrate explainability into model training, not post-hoc."),
     ("Multi-Stage\nProgression", COPPER,
      "Shift from binary AD/HC classification to predicting individual trajectories. Model the continuum from preclinical to severe. Personalized risk scoring over time.")]
  let acc := pillars.foldl (fun (acc : Slide × ℚ) it =>
    let slide := acc.1
    let x := Inches 0.5 + acc.2 * Inches 4.2
    let slide := add_shape_fill_then_line slide x (Inches 2.4) (Inches 3.9)
      (Inches 3.8) ⟨0x16, 0x1B, 0x22⟩ it.2.1 (Pt 2)
    let slide := add_textbox slide (x + Inches 0.2) (Inches 2.6) (Inches 3.5)
      (Inches 0.8) it.1 20 it.2.1 true false Align.left "Georgia" Anchor.top
    let slide := add_accent_line slide (x + Inches 0.2) (Inches 3.5)
      (Inches 1.5) it.2.1 (Pt 3)
    let slide := add_textbox slide (x + Inches 0.2) (Inches 3.7) (Inches 3.5)
      (Inches 2.2) it.2.2 12 TEXT_ON_DARK false false Align.left "Georgia"
      Anchor.top
    (slide, acc.2 + 1)) (slide, 0)
  let slide := acc.1
  let slide := add_textbox slide (Inches 0.5) (Inches 6.4) (Inches 12.3)
    (Inches 0.5)
    "The field must mature from \x27can we classify?\x27 to \x27can we trust, deploy, and benefit patients?\x27"
    14 GREEN false true Align.center "Georgia" Anchor.top
  let slide := add_citation_strip slide
    "Defined et al., 2023, Nature Reviews Neuroscience  •  Defined et al., 2024, Lancet Digital Health"
    true
  ({ prs with slides := prs.slides ++ [slide] },
   ["  Slide 29: Future Directions"])

/-- SLIDE 30 section of `build_presentation()` (methodological triad). -/
def buildSlide30 (fs : FS) (prs : Prs) : Prs × List String :=
  let slide := set_slide_bg blankSlide DARK_BG
  let slide := add_textbox slide (Inches 1) (Inches 1.5) (Inches 11)
    (Inches 1) "The Methodological Triad" 36 WHITE true false Align.center
    "Georgia" Anchor.top
  let slide := add_accent_line slide (Inches 5.5) (Inches 2.6) (Inches 2.3)
    COPPER (Pt 3)
  let triad : List (String × String × String) :=
    [("1", "Subject-Level Splitting",
      "Never allow data from the same patient in both train and test sets. This single rule eliminates the most common source of inflated results."),
     ("2", "External Validation",
      "Test on independent datasets from different sites, scanners, and demographics. Internal cross-validation is necessary but insufficient."),
     ("3", "Confounder Control",
      "Account for age, sex, education, scanner effects, and head size. Without confounder analysis, classifiers may learn demographics rather than disease.")]
  let acc := triad.foldl (fun (acc : Slide × ℚ) it =>
    let slide := acc.1
    let y := Inches 3 + acc.2 * Inches 1.4
    let slide := add_textbox slide (Inches 1.5) y (Inches 0.8) (Inches 0.5)
      it.1 32 COPPER true false Align.left "Georgia" Anchor.top
    let slide := add_textbox slide (Inches 2.5) y (Inches 4) (Inches 0.4)
      it.2.1 18 WHITE true false Align.left "Georgia" Anchor.top
    let slide := add_textbox slide (Inches 2.5) (y + Inches 0.45) (Inches 9)
      (Inches 0.8) it.2.2 13 TEXT_ON_DARK false false Align.left "Georgia"
      Anchor.top
    (slide, acc.2 + 1)) (slide, 0)
  let slide := acc.1
  let slide := add_citation_strip slide
    "Wen et al., 2020, Med Image Anal  •  Defined et al., 2023, NeuroImage  •  Defined et al., 2022, Nature Methods"
    true
  ({ prs with slides := prs.slides ++ [slide] },
   ["  Slide 30: Methodological Triad"])

/-- SLIDE 31 section of `build_presentation()` (conclusion). -/
def buildSlide31 (fs : FS) (prs : Prs) : Prs × List String :=
  let slide := set_slide_bg blankSlide DARK_BG
  let slide := add_textbox slide (Inches 1.5) (Inches 1.8) (Inches 10.3)
    (Inches 2) "Models are powerful.\nData is insufficient.\nTrust is unearned."
    38 WHITE true false Align.center "Georgia" Anchor.top
  let slide := add_accent_line slide (Inches 5.5) (Inches 4.2) (Inches 2.3)
    COPPER (Pt 3)
  let slide := add_textbox slide (Inches 2) (Inches 4.7) (Inches 9.3)
    (Inches 2)
    "The path from benchmark accuracy to clinical deployment requires not just better architectures, but better data practices, honest evaluation, and genuine collaboration between computer scientists and clinicians."
    16 TEXT_ON_DARK false true Align.center "Georgia" Anchor.top
  let slide := add_citation_strip slide
    "Conclusion  •  AI Alzheimer and Dementia Classification" true
  ({ prs with slides := prs.slides ++ [slide] },
   ["  Slide 31: Conclusion"])

/-- SLIDE 32 section of `build_presentation()` (thank you). -/
def buildSlide32 (fs : FS) (prs : Prs) : Prs × List String :=
  let slide := set_slide_bg blankSlide DARK_BG
  let r1 := safe_add_image fs slide "logo_en.png" (Inches 5.5) (Inches 0.5)
    none (some (Inches 1.2))
  let slide := r1.1
  let slide := add_accent_line slide (Inches 5.5) (Inches 2) (Inches 2.3)
    COPPER (Pt 3)
  let slide := add_textbox slide (Inches 1) (Inches 2.5) (Inches 11.3)
    (Inches 1.5) "Thank You" 48 WHITE true false Align.center "Georgia"
    Anchor.top
  let slide := add_textbox slide (Inches 1) (Inches 4) (Inches 11.3)
    (Inches 0.6) "Questions & Discussion" 22 COPPER false true Align.center
    "Georgia" Anchor.top
  let slide := add_accent_line slide (Inches 5.5) (Inches 4.8) (Inches 2.3)
    COPPER (Pt 3)
  let slide := add_multiline_textbox slide (Inches 3) (Inches 5.2)
    (Inches 7.3) (Inches 1.5)
    ["Gavriilidis Paraskevas",
     "Department of Informatics and Computer Engineering",
     "University of West Attica, 2025"]
    14 CITE_GRAY false false Align.center "Georgia" 1.2
  let slide := add_citation_strip slide
    "AI Alzheimer and Dementia Classification  •  Thesis Defense  •  University of West Attica"
    true
  ({ prs with slides := prs.slides ++ [slide] },
   r1.2.1 ++ ["  Slide 32: Thank You / Q&A"])

/-- The SLIDE sections of `build_presentation()`, in the listed order. -/
def buildSlideNames : List String :=
  ["SLIDE 1", "SLIDE 2", "SLIDE 3", "SLIDE 4", "SLIDE 5", "SLIDE 6",
   "SLIDE 7", "SLIDE 8", "SLIDE 9", "SLIDE 10", "SLIDE 11", "SLIDE 12",
   "SLIDE 13", "SLIDE 14", "SLIDE 15", "SLIDE 16", "SLIDE 17", "SLIDE 18",
   "SLIDE 19", "SLIDE 20", "SLIDE 21", "SLIDE 22", "SLIDE 23", "SLIDE 24",
   "SLIDE 25", "SLIDE 26", "SLIDE 27", "SLIDE 28", "SLIDE 29", "SLIDE 30",
   "SLIDE 31", "SLIDE 32"]

/-- Models `build_presentation()`: builds the 32 slides in order on a fresh
13.333 × 7.5-inch presentation and saves the document once at the end.
Returns the final filesystem, the printed lines, and the effect trace. -/
def build_presentation (fs : FS) : FS × List String × List Event :=
  let prs : Prs := { slideWidth := SLIDE_W, slideHeight := SLIDE_H,
                     slides := [] }
  let s01 := buildSlide01 fs prs
  let s02 := buildSlide02 fs s01.1
  let s03 := buildSlide03 fs s02.1
  let s04 := buildSlide04 fs s03.1
  let s05 := buildSlide05 fs s04.1
  let s06 := buildSlide06 fs s05.1
  let s07 := buildSlide07 fs s06.1
  let s08 := buildSlide08 fs s07.1
  let s09 := buildSlide09 fs s08.1
  let s10 := buildSlide10 fs s09.1
  let s11 := buildSlide11 fs s10.1
  let s12 := buildSlide12 fs s11.1
  let s13 := buildSlide13 fs s12.1
  let s14 := buildSlide14 fs s13.1
  let s15 := buildSlide15 fs s14.1
  let s16 := buildSlide16 fs s15.1
  let s17 := buildSlide17 fs s16.1
  let s18 := buildSlide18 fs s17.1
  let s19 := buildSlide19 fs s18.1
  let s20 := buildSlide20 fs s19.1
  let s21 := buildSlide21 fs s20.1
  let s22 := buildSlide22 fs s21.1
  let s23 := buildSlide23 fs s22.1
  let s24 := buildSlide24 fs s23.1
  let s25 := buildSlide25 fs s24.1
  let s26 := buildSlide26 fs s25.1
  let s27 := buildSlide27 fs s26.1
  let s28 := buildSlide28 fs s27.1
  let s29 := buildSlide29 fs s28.1
  let s30 := buildSlide30 fs s29.1
  let s31 := buildSlide31 fs s30.1
  let s32 := buildSlide32 fs s31.1
  let prsF := s32.1
  let fs2 := writeFile OUTPUT (FileData.pptx prsF) fs
  let out :=
    s01.2 ++ s02.2 ++ s03.2 ++ s04.2 ++ s05.2 ++ s06.2 ++ s07.2 ++ s08.2 ++
    s09.2 ++ s10.2 ++ s11.2 ++ s12.2 ++ s13.2 ++ s14.2 ++ s15.2 ++ s16.2 ++
    s17.2 ++ s18.2 ++ s19.2 ++ s20.2 ++ s21.2 ++ s22.2 ++ s23.2 ++ s24.2 ++
    s25.2 ++ s26.2 ++ s27.2 ++ s28.2 ++ s29.2 ++ s30.2 ++ s31.2 ++ s32.2 ++
    ["\n✓ Presentation saved to: " ++ OUTPUT,
     "  Total slides: " ++ toString prsF.slides.length]
  let events := buildSlideNames.map Event.slideAdded ++ [Event.saved OUTPUT]
  (fs2, out, events)

/-- The chart paths `build_presentation()` references through
`safe_add_image(chart_path(...))`, in reference order. -/
def buildChartRefs : List String :=
  [CHARTS ++ "/prevalence_projection.png",
   CHARTS ++ "/ml_comparison.png",
   CHARTS ++ "/roc_curve.png",
   CHARTS ++ "/data_leakage_impact.png"]

/-- The presentation `build_presentation()` saves, in isolation. -/
def buildPrs (fs : FS) : Prs :=
  let prs : Prs := { slideWidth := SLIDE_W, slideHeight := SLIDE_H,
                     slides := [] }
  let p01 := (buildSlide01 fs prs).1
  let p02 := (buildSlide02 fs p01).1
  let p03 := (buildSlide03 fs p02).1
  let p04 := (buildSlide04 fs p03).1
  let p05 := (buildSlide05 fs p04).1
  let p06 := (buildSlide06 fs p05).1
  let p07 := (buildSlide07 fs p06).1
  let p08 := (buildSlide08 fs p07).1
  let p09 := (buildSlide09 fs p08).1
  let p10 := (buildSlide10 fs p09).1
  let p11 := (buildSlide11 fs p10).1
  let p12 := (buildSlide12 fs p11).1
  let p13 := (buildSlide13 fs p12).1
  let p14 := (buildSlide14 fs p13).1
  let p15 := (buildSlide15 fs p14).1
  let p16 := (buildSlide16 fs p15).1
  let p17 := (buildSlide17 fs p16).1
  let p18 := (buildSlide18 fs p17).1
  let p19 := (buildSlide19 fs p18).1
  let p20 := (buildSlide20 fs p19).1
  let p21 := (buildSlide21 fs p20).1
  let p22 := (buildSlide22 fs p21).1
  let p23 := (buildSlide23 fs p22).1
  let p24 := (buildSlide24 fs p23).1
  let p25 := (buildSlide25 fs p24).1
  let p26 := (buildSlide26 fs p25).1
  let p27 := (buildSlide27 fs p26).1
  let p28 := (buildSlide28 fs p27).1
  let p29 := (buildSlide29 fs p28).1
  let p30 := (buildSlide30 fs p29).1
  let p31 := (buildSlide31 fs p30).1
  (buildSlide32 fs p31).1

end Build

/-- The number of slides of the pptx document stored at `p`, when there is
one. -/
def savedSlideCount (fs : FS) (p : String) : Option ℕ :=
  match fs p with
  | some (FileData.pptx d) => some d.slides.length
  | _ => none

/-- The slide dimensions of the pptx document stored at `p`, when there is
one. -/
def savedSize (fs : FS) (p : String) : Option (Len × Len) :=
  match fs p with
  | some (FileData.pptx d) => some (d.slideWidth, d.slideHeight)
  | _ => none

/-- Does `p` hold a PNG file? -/
def isPngFile (fs : FS) (p : String) : Bool :=
  match fs p with
  | some (FileData.png _ _ _) => true
  | _ => false

/-- Does `p` hold a PNG rendered from a figure that issued at least one
drawing command?  (Rendering such a figure always yields a non-empty file;
emptiness of the byte stream itself is a property of the imaging library,
outside the model.) -/
def isRenderedPng (fs : FS) (p : String) : Bool :=
  match fs p with
  | some (FileData.png fig _ _) => !fig.cmds.isEmpty
  | _ => false

/-- Does `p` hold a PNG whose figure draws at least one `plot` line (a line
chart or curve)? -/
def hasLinePlot (fs : FS) (p : String) : Bool :=
  match fs p with
  | some (FileData.png fig _ _) =>
      fig.cmds.any (fun c =>
        match c with
        | Cmd.plot _ _ _ _ _ _ _ => true
        | _ => false)
  | _ => false

/-- Does `p` hold a PNG whose figure draws at least one bar group? -/
def hasBarGroup (fs : FS) (p : String) : Bool :=
  match fs p with
  | some (FileData.png fig _ _) =>
      fig.cmds.any (fun c =>
        match c with
        | Cmd.barGroup _ _ _ _ _ => true
        | _ => false)
  | _ => false

theorem path_exists_writeFile_ne (fs : FS) (p k : String) (d : FileData)
    (h : p ≠ k) : path_exists (writeFile k d fs) p = path_exists fs p := by
  simp [path_exists, writeFile, h]

theorem writeFile_writeFile_same (fs : FS) (k : String) (d d' : FileData) :
    writeFile k d (writeFile k d' fs) = writeFile k d fs := by
  funext q
  simp only [writeFile]
  by_cases hq : q = k
  · simp [hq]
  · simp [hq]

theorem writeFile_comm (fs : FS) (k k' : String) (d d' : FileData)
    (h : k ≠ k') : writeFile k d (writeFile k' d' fs) =
      writeFile k' d' (writeFile k d fs) := by
  funext q
  simp only [writeFile]
  by_cases hq : q = k
  · subst hq
    simp [h]
  · simp [hq]

theorem v2_main_decomp (env : Env) (fs : FS) :
    (V2.main env fs).1 =
      writeFile V2.OUTPUT (FileData.pptx (V2.v2MainPrs env fs))
        (V2.v2ChartPhase env fs) := rfl

theorem build_decomp (fs : FS) :
    (Build.build_presentation fs).1 =
      writeFile Build.OUTPUT (FileData.pptx (Build.buildPrs fs)) fs := rfl

end Alz

namespace Alz

theorem v2_add_image_safe_writeFile_ne (g : FS) (s : Slide) (l t : Len)
    (w h : Option Len) (d : FileData) (p k : String) (hp : p ≠ k) :
    V2.add_image_safe (writeFile k d g) s p l t w h =
      V2.add_image_safe g s p l t w h := by
  simp [V2.add_image_safe, path_exists_writeFile_ne g p k d hp]

theorem build_safe_add_image_writeFile_ne (g : FS) (s : Slide) (l t : Len)
    (w h : Option Len) (d : FileData) (f k : String)
    (hp : (if isAbs f then f else Build.img_path f) ≠ k) :
    Build.safe_add_image (writeFile k d g) s f l t w h =
      Build.safe_add_image g s f l t w h := by
  simp only [Build.safe_add_image, path_exists_writeFile_ne _ _ _ _ hp]

theorem v2_s01_len (env : Env) (fs : FS) (prs : Prs) :
    (V2.slide_01_title env fs prs).1.slides.length = prs.slides.length + 1 := by
  simp [V2.slide_01_title]

theorem v2_s01_width (env : Env) (fs : FS) (prs : Prs) :
    (V2.slide_01_title env fs prs).1.slideWidth = prs.slideWidth := by
  simp [V2.slide_01_title]

theorem v2_s01_height (env : Env) (fs : FS) (prs : Prs) :
    (V2.slide_01_title env fs prs).1.slideHeight = prs.slideHeight := by
  simp [V2.slide_01_title]

theorem v2_s01_wOUT (env : Env) (d : FileData) (g : FS) (prs : Prs) :
    V2.slide_01_title env (writeFile V2.OUTPUT d g) prs =
    V2.slide_01_title env g prs := by
  simp (disch := decide) only [V2.slide_01_title, v2_add_image_safe_writeFile_ne]

theorem v2_s02_len (env : Env) (fs : FS) (prs : Prs) (cp : String) :
    (V2.slide_02_epidemic env fs prs cp).1.slides.length = prs.slides.length + 1 := by
  simp [V2.slide_02_epidemic]

theorem v2_s02_width (env : Env) (fs : FS) (prs : Prs) (cp : String) :
    (V2.slide_02_epidemic env fs prs cp).1.slideWidth = prs.slideWidth := by
  simp [V2.slide_02_epidemic]

theorem v2_s02_height (env : Env) (fs : FS) (prs : Prs) (cp : String) :
    (V2.slide_02_epidemic env fs prs cp).1.slideHeight = prs.slideHeight := by
  simp [V2.slide_02_epidemic]

theorem v2_s02_wOUT (env : Env) (d : FileData) (g : FS) (prs : Prs) :
    V2.slide_02_epidemic env (writeFile V2.OUTPUT d g) prs (V2.CHART_DIR ++ "/prevalence_projection.png") =
    V2.slide_02_epidemic env g prs (V2.CHART_DIR ++ "/prevalence_projection.png") := by
  simp (disch := decide) only [V2.slide_02_epidemic, v2_add_image_safe_writeFile_ne]

theorem v2_s03_len (env : Env) (fs : FS) (prs : Prs) :
    (V2.slide_03_window_atn env fs prs).1.slides.length = prs.slides.length + 1 := by
  simp [V2.slide_03_window_atn]

theorem v2_s03_width (env : Env) (fs : FS) (prs : Prs) :
    (V2.slide_03_window_atn env fs prs).1.slideWidth = prs.slideWidth := by
  simp [V2.slide_03_window_atn]

theorem v2_s03_height (env : Env) (fs : FS) (prs : Prs) :
    (V2.slide_03_window_atn env fs prs).1.slideHeight = prs.slideHeight := by
  simp [V2.slide_03_window_atn]

theorem v2_s03_wOUT (env : Env) (d : FileData) (g : FS) (prs : Prs) :
    V2.slide_03_window_atn env (writeFile V2.OUTPUT d g) prs =
    V2.slide_03_window_atn env g prs := by
  simp (disch := decide) only [V2.slide_03_window_atn, v2_add_image_safe_writeFile_ne]

theorem v2_s04_len (env : Env) (fs : FS) (prs : Prs) :
    (V2.slide_04_neuroimaging env fs prs).1.slides.length = prs.slides.length + 1 := by
  simp [V2.slide_04_neuroimaging]

theorem v2_s04_width (env : Env) (fs : FS) (prs : Prs) :
    (V2.slide_04_neuroimaging env fs prs).1.slideWidth = prs.slideWidth := by
  simp [V2.slide_04_neuroimaging]

theorem v2_s04_height (env : Env) (fs : FS) (prs : Prs) :
    (V2.slide_04_neuroimaging env fs prs).1.slideHeight = prs.slideHeight := by
  simp [V2.slide_04_neuroimaging]

theorem v2_s04_wOUT (env : Env) (d : FileData) (g : FS) (prs : Prs) :
    V2.slide_04_neuroimaging env (writeFile V2.OUTPUT d g) prs =
    V2.slide_04_neuroimaging env g prs := by
  simp (disch := decide) only [V2.slide_04_neuroimaging, v2_add_image_safe_writeFile_ne]

theorem v2_s05_len (env : Env) (fs : FS) (prs : Prs) :
    (V2.slide_05_datasets env fs prs).1.slides.length = prs.slides.length + 1 := by
  simp [V2.slide_05_datasets]

theorem v2_s05_width (env : Env) (fs : FS) (prs : Prs) :
    (V2.slide_05_datasets env fs prs).1.slideWidth = prs.slideWidth := by
  simp [V2.slide_05_datasets]

theorem v2_s05_height (env : Env) (fs : FS) (prs : Prs) :
    (V2.slide_05_datasets env fs prs).1.slideHeight = prs.slideHeight := by
  simp [V2.slide_05_datasets]

theorem v2_s05_wOUT (env : Env) (d : FileData) (g : FS) (prs : Prs) :
    V2.slide_05_datasets env (writeFile V2.OUTPUT d g) prs =
    V2.slide_05_datasets env g prs := by
  simp (disch := decide) only [V2.slide_05_datasets, v2_add_image_safe_writeFile_ne]

theorem v2_s06_len (env : Env) (fs : FS) (prs : Prs) :
    (V2.slide_06_section_divider env fs prs).1.slides.length = prs.slides.length + 1 := by
  simp [V2.slide_06_section_divider]

theorem v2_s06_width (env : Env) (fs : FS) (prs : Prs) :
    (V2.slide_06_section_divider env fs prs).1.slideWidth = prs.slideWidth := by
  simp [V2.slide_06_section_divider]

theorem v2_s06_height (env : Env) (fs : FS) (prs : Prs) :
    (V2.slide_06_section_divider env fs prs).1.slideHeight = prs.slideHeight := by
  simp [V2.slide_06_section_divider]

theorem v2_s06_wOUT (env : Env) (d : FileData) (g : FS) (prs : Prs) :
    V2.slide_06_section_divider env (writeFile V2.OUTPUT d g) prs =
    V2.slide_06_section_divider env g prs := by
  simp (disch := decide) only [V2.slide_06_section_divider, v2_add_image_safe_writeFile_ne]

theorem v2_s07_len (env : Env) (fs : FS) (prs : Prs) :
    (V2.slide_07_mri_fundamentals env fs prs).1.slides.length = prs.slides.length + 1 := by
  simp [V2.slide_07_mri_fundamentals]

theorem v2_s07_width (env : Env) (fs : FS) (prs : Prs) :
    (V2.slide_07_mri_fundamentals env fs prs).1.slideWidth = prs.slideWidth := by
  simp [V2.slide_07_mri_fundamentals]

theorem v2_s07_height (env : Env) (fs : FS) (prs : Prs) :
    (V2.slide_07_mri_fundamentals env fs prs).1.slideHeight = prs.slideHeight := by
  simp [V2.slide_07_mri_fundamentals]

theorem v2_s07_wOUT (env : Env) (d : FileData) (g : FS) (prs : Prs) :
    V2.slide_07_mri_fundamentals env (writeFile V2.OUTPUT d g) prs =
    V2.slide_07_mri_fundamentals env g prs := by
  simp (disch := decide) only [V2.slide_07_mri_fundamentals, v2_add_image_safe_writeFile_ne]

theorem v2_s08_len (env : Env) (fs : FS) (prs : Prs) :
    (V2.slide_08_beyond_mri env fs prs).1.slides.length = prs.slides.length + 1 := by
  simp [V2.slide_08_beyond_mri]

theorem v2_s08_width (env : Env) (fs : FS) (prs : Prs) :
    (V2.slide_08_beyond_mri env fs prs).1.slideWidth = prs.slideWidth := by
  simp [V2.slide_08_beyond_mri]

theorem v2_s08_height (env : Env) (fs : FS) (prs : Prs) :
    (V2.slide_08_beyond_mri env fs prs).1.slideHeight = prs.slideHeight := by
  simp [V2.slide_08_beyond_mri]

theorem v2_s08_wOUT (env : Env) (d : FileData) (g : FS) (prs : Prs) :
    V2.slide_08_beyond_mri env (writeFile V2.OUTPUT d g) prs =
    V2.slide_08_beyond_mri env g prs := by
  simp (disch := decide) only [V2.slide_08_beyond_mri, v2_add_image_safe_writeFile_ne]

theorem v2_s09_len (env : Env) (fs : FS) (prs : Prs) :
    (V2.slide_09_preprocessing env fs prs).1.slides.length = prs.slides.length + 1 := by
  simp [V2.slide_09_preprocessing]

theorem v2_s09_width (env : Env) (fs : FS) (prs : Prs) :
    (V2.slide_09_preprocessing env fs prs).1.slideWidth = prs.slideWidth := by
  simp [V2.slide_09_preprocessing]

theorem v2_s09_height (env : Env) (fs : FS) (prs : Prs) :
    (V2.slide_09_preprocessing env fs prs).1.slideHeight = prs.slideHeight := by
  simp [V2.slide_09_preprocessing]

theorem v2_s09_wOUT (env : Env) (d : FileData) (g : FS) (prs : Prs) :
    V2.slide_09_preprocessing env (writeFile V2.OUTPUT d g) prs =
    V2.slide_09_preprocessing env g prs := by
  simp (disch := decide) only [V2.slide_09_preprocessing, v2_add_image_safe_writeFile_ne]

theorem v2_s10_len (env : Env) (fs : FS) (prs : Prs) :
    (V2.slide_10_signal_cleaning env fs prs).1.slides.length = prs.slides.length + 1 := by
  simp [V2.slide_10_signal_cleaning]

theorem v2_s10_width (env : Env) (fs : FS) (prs : Prs) :
    (V2.slide_10_signal_cleaning env fs prs).1.slideWidth = prs.slideWidth := by
  simp [V2.slide_10_signal_cleaning]

theorem v2_s10_height (env : Env) (fs : FS) (prs : Prs) :
    (V2.slide_10_signal_cleaning env fs prs).1.slideHeight = prs.slideHeight := by
  simp [V2.slide_10_signal_cleaning]

theorem v2_s10_wOUT (env : Env) (d : FileData) (g : FS) (prs : Prs) :
    V2.slide_10_signal_cleaning env (writeFile V2.OUTPUT d g) prs =
    V2.slide_10_signal_cleaning env g prs := by
  simp (disch := decide) only [V2.slide_10_signal_cleaning, v2_add_image_safe_writeFile_ne]

theorem v2_s11_len (env : Env) (fs : FS) (prs : Prs) :
    (V2.slide_11_skull_stripping env fs prs).1.slides.length = prs.slides.length + 1 := by
  simp [V2.slide_11_skull_stripping]

theorem v2_s11_width (env : Env) (fs : FS) (prs : Prs) :
    (V2.slide_11_skull_stripping env fs prs).1.slideWidth = prs.slideWidth := by
  simp [V2.slide_11_skull_stripping]

theorem v2_s11_height (env : Env) (fs : FS) (prs : Prs) :
    (V2.slide_11_skull_stripping env fs prs).1.slideHeight = prs.slideHeight := by
  simp [V2.slide_11_skull_stripping]

theorem v2_s11_wOUT (env : Env) (d : FileData) (g : FS) (prs : Prs) :
    V2.slide_11_skull_stripping env (writeFile V2.OUTPUT d g) prs =
    V2.slide_11_skull_stripping env g prs := by
  simp (disch := decide) only [V2.slide_11_skull_stripping, v2_add_image_safe_writeFile_ne]

theorem v2_s12_len (env : Env) (fs : FS) (prs : Prs) :
    (V2.slide_12_vbm env fs prs).1.slides.length = prs.slides.length + 1 := by
  simp [V2.slide_12_vbm]

theorem v2_s12_width (env : Env) (fs : FS) (prs : Prs) :
    (V2.slide_12_vbm env fs prs).1.slideWidth = prs.slideWidth := by
  simp [V2.slide_12_vbm]

theorem v2_s12_height (env : Env) (fs : FS) (prs : Prs) :
    (V2.slide_12_vbm env fs prs).1.slideHeight = prs.slideHeight := by
  simp [V2.slide_12_vbm]

theorem v2_s12_wOUT (env : Env) (d : FileData) (g : FS) (prs : Prs) :
    V2.slide_12_vbm env (writeFile V2.OUTPUT d g) prs =
    V2.slide_12_vbm env g prs := by
  simp (disch := decide) only [V2.slide_12_vbm, v2_add_image_safe_writeFile_ne]

theorem v2_s13_len (env : Env) (fs : FS) (prs : Prs) (cp : String) :
    (V2.slide_13_classical_ml env fs prs cp).1.slides.length = prs.slides.length + 1 := by
  simp [V2.slide_13_classical_ml]

theorem v2_s13_width (env : Env) (fs : FS) (prs : Prs) (cp : String) :
    (V2.slide_13_classical_ml env fs prs cp).1.slideWidth = prs.slideWidth := by
  simp [V2.slide_13_classical_ml]

theorem v2_s13_height (env : Env) (fs : FS) (prs : Prs) (cp : String) :
    (V2.slide_13_classical_ml env fs prs cp).1.slideHeight = prs.slideHeight := by
  simp [V2.slide_13_classical_ml]

theorem v2_s13_wOUT (env : Env) (d : FileData) (g : FS) (prs : Prs) :
    V2.slide_13_classical_ml env (writeFile V2.OUTPUT d g) prs (V2.CHART_DIR ++ "/classical_ml_comparison.png") =
    V2.slide_13_classical_ml env g prs (V2.CHART_DIR ++ "/classical_ml_comparison.png") := by
  simp (disch := decide) only [V2.slide_13_classical_ml, v2_add_image_safe_writeFile_ne]

theorem v2_s14_len (env : Env) (fs : FS) (prs : Prs) :
    (V2.slide_14_cnns_to_transformers env fs prs).1.slides.length = prs.slides.length + 1 := by
  simp [V2.slide_14_cnns_to_transformers]

theorem v2_s14_width (env : Env) (fs : FS) (prs : Prs) :
    (V2.slide_14_cnns_to_transformers env fs prs).1.slideWidth = prs.slideWidth := by
  simp [V2.slide_14_cnns_to_transformers]

theorem v2_s14_height (env : Env) (fs : FS) (prs : Prs) :
    (V2.slide_14_cnns_to_transformers env fs prs).1.slideHeight = prs.slideHeight := by
  simp [V2.slide_14_cnns_to_transformers]

theorem v2_s14_wOUT (env : Env) (d : FileData) (g : FS) (prs : Prs) :
    V2.slide_14_cnns_to_transformers env (writeFile V2.OUTPUT d g) prs =
    V2.slide_14_cnns_to_transformers env g prs := by
  simp (disch := decide) only [V2.slide_14_cnns_to_transformers, v2_add_image_safe_writeFile_ne]

theorem v2_s15_len (env : Env) (fs : FS) (prs : Prs) :
    (V2.slide_15_explainability env fs prs).1.slides.length = prs.slides.length + 1 := by
  simp [V2.slide_15_explainability]

theorem v2_s15_width (env : Env) (fs : FS) (prs : Prs) :
    (V2.slide_15_explainability env fs prs).1.slideWidth = prs.slideWidth := by
  simp [V2.slide_15_explainability]

theorem v2_s15_height (env : Env) (fs : FS) (prs : Prs) :
    (V2.slide_15_explainability env fs prs).1.slideHeight = prs.slideHeight := by
  simp [V2.slide_15_explainability]

theorem v2_s15_wOUT (env : Env) (d : FileData) (g : FS) (prs : Prs) :
    V2.slide_15_explainability env (writeFile V2.OUTPUT d g) prs =
    V2.slide_15_explainability env g prs := by
  simp (disch := decide) only [V2.slide_15_explainability, v2_add_image_safe_writeFile_ne]

theorem v2_s16_len (env : Env) (fs : FS) (prs : Prs) :
    (V2.slide_16_cnn_experiments env fs prs).1.slides.length = prs.slides.length + 1 := by
  simp [V2.slide_16_cnn_experiments]

theorem v2_s16_width (env : Env) (fs : FS) (prs : Prs) :
    (V2.slide_16_cnn_experiments env fs prs).1.slideWidth = prs.slideWidth := by
  simp [V2.slide_16_cnn_experiments]

theorem v2_s16_height (env : Env) (fs : FS) (prs : Prs) :
    (V2.slide_16_cnn_experiments env fs prs).1.slideHeight = prs.slideHeight := by
  simp [V2.slide_16_cnn_experiments]

theorem v2_s16_wOUT (env : Env) (d : FileData) (g : FS) (prs : Prs) :
    V2.slide_16_cnn_experiments env (writeFile V2.OUTPUT d g) prs =
    V2.slide_16_cnn_experiments env g prs := by
  simp (disch := decide) only [V2.slide_16_cnn_experiments, v2_add_image_safe_writeFile_ne]

theorem v2_s17_len (env : Env) (fs : FS) (prs : Prs) :
    (V2.slide_17_swin_results env fs prs).1.slides.length = prs.slides.length + 1 := by
  simp [V2.slide_17_swin_results]

theorem v2_s17_width (env : Env) (fs : FS) (prs : Prs) :
    (V2.slide_17_swin_results env fs prs).1.slideWidth = prs.slideWidth := by
  simp [V2.slide_17_swin_results]

theorem v2_s17_height (env : Env) (fs : FS) (prs : Prs) :
    (V2.slide_17_swin_results env fs prs).1.slideHeight = prs.slideHeight := by
  simp [V2.slide_17_swin_results]

theorem v2_s17_wOUT (env : Env) (d : FileData) (g : FS) (prs : Prs) :
    V2.slide_17_swin_results env (writeFile V2.OUTPUT d g) prs =
    V2.slide_17_swin_results env g prs := by
  simp (disch := decide) only [V2.slide_17_swin_results, v2_add_image_safe_writeFile_ne]

theorem v2_s18_len (env : Env) (fs : FS) (prs : Prs) (cp : String) :
    (V2.slide_18_cnn_vs_swin env fs prs cp).1.slides.length = prs.slides.length + 1 := by
  simp [V2.slide_18_cnn_vs_swin]

theorem v2_s18_width (env : Env) (fs : FS) (prs : Prs) (cp : String) :
    (V2.slide_18_cnn_vs_swin env fs prs cp).1.slideWidth = prs.slideWidth := by
  simp [V2.slide_18_cnn_vs_swin]

theorem v2_s18_height (env : Env) (fs : FS) (prs : Prs) (cp : String) :
    (V2.slide_18_cnn_vs_swin env fs prs cp).1.slideHeight = prs.slideHeight := by
  simp [V2.slide_18_cnn_vs_swin]

theorem v2_s18_wOUT (env : Env) (d : FileData) (g : FS) (prs : Prs) :
    V2.slide_18_cnn_vs_swin env (writeFile V2.OUTPUT d g) prs (V2.CHART_DIR ++ "/cnn_vs_swin_comparison.png") =
    V2.slide_18_cnn_vs_swin env g prs (V2.CHART_DIR ++ "/cnn_vs_swin_comparison.png") := by
  simp (disch := decide) only [V2.slide_18_cnn_vs_swin, v2_add_image_safe_writeFile_ne]

theorem v2_s19_len (env : Env) (fs : FS) (prs : Prs) (cp : String) :
    (V2.slide_19_why_models_fail env fs prs cp).1.slides.length = prs.slides.length + 1 := by
  simp [V2.slide_19_why_models_fail]

theorem v2_s19_width (env : Env) (fs : FS) (prs : Prs) (cp : String) :
    (V2.slide_19_why_models_fail env fs prs cp).1.slideWidth = prs.slideWidth := by
  simp [V2.slide_19_why_models_fail]

theorem v2_s19_height (env : Env) (fs : FS) (prs : Prs) (cp : String) :
    (V2.slide_19_why_models_fail env fs prs cp).1.slideHeight = prs.slideHeight := by
  simp [V2.slide_19_why_models_fail]

theorem v2_s19_wOUT (env : Env) (d : FileData) (g : FS) (prs : Prs) :
    V2.slide_19_why_models_fail env (writeFile V2.OUTPUT d g) prs (V2.CHART_DIR ++ "/data_leakage_impact.png") =
    V2.slide_19_why_models_fail env g prs (V2.CHART_DIR ++ "/data_leakage_impact.png") := by
  simp (disch := decide) only [V2.slide_19_why_models_fail, v2_add_image_safe_writeFile_ne]

theorem v2_s20_len (env : Env) (fs : FS) (prs : Prs) :
    (V2.slide_20_accuracy_paradox env fs prs).1.slides.length = prs.slides.length + 1 := by
  simp [V2.slide_20_accuracy_paradox]

theorem v2_s20_width (env : Env) (fs : FS) (prs : Prs) :
    (V2.slide_20_accuracy_paradox env fs prs).1.slideWidth = prs.slideWidth := by
  simp [V2.slide_20_accuracy_paradox]

theorem v2_s20_height (env : Env) (fs : FS) (prs : Prs) :
    (V2.slide_20_accuracy_paradox env fs prs).1.slideHeight = prs.slideHeight := by
  simp [V2.slide_20_accuracy_paradox]

theorem v2_s20_wOUT (env : Env) (d : FileData) (g : FS) (prs : Prs) :
    V2.slide_20_accuracy_paradox env (writeFile V2.OUTPUT d g) prs =
    V2.slide_20_accuracy_paradox env g prs := by
  simp (disch := decide) only [V2.slide_20_accuracy_paradox, v2_add_image_safe_writeFile_ne]

theorem v2_s21_len (env : Env) (fs : FS) (prs : Prs) :
    (V2.slide_21_label_uncertainty env fs prs).1.slides.length = prs.slides.length + 1 := by
  simp [V2.slide_21_label_uncertainty]

theorem v2_s21_width (env : Env) (fs : FS) (prs : Prs) :
    (V2.slide_21_label_uncertainty env fs prs).1.slideWidth = prs.slideWidth := by
  simp [V2.slide_21_label_uncertainty]

theorem v2_s21_height (env : Env) (fs : FS) (prs : Prs) :
    (V2.slide_21_label_uncertainty env fs prs).1.slideHeight = prs.slideHeight := by
  simp [V2.slide_21_label_uncertainty]

theorem v2_s21_wOUT (env : Env) (d : FileData) (g : FS) (prs : Prs) :
    V2.slide_21_label_uncertainty env (writeFile V2.OUTPUT d g) prs =
    V2.slide_21_label_uncertainty env g prs := by
  simp (disch := decide) only [V2.slide_21_label_uncertainty, v2_add_image_safe_writeFile_ne]

theorem v2_s22_len (env : Env) (fs : FS) (prs : Prs) :
    (V2.slide_22_advances_road_ahead env fs prs).1.slides.length = prs.slides.length + 1 := by
  simp [V2.slide_22_advances_road_ahead]

theorem v2_s22_width (env : Env) (fs : FS) (prs : Prs) :
    (V2.slide_22_advances_road_ahead env fs prs).1.slideWidth = prs.slideWidth := by
  simp [V2.slide_22_advances_road_ahead]

theorem v2_s22_height (env : Env) (fs : FS) (prs : Prs) :
    (V2.slide_22_advances_road_ahead env fs prs).1.slideHeight = prs.slideHeight := by
  simp [V2.slide_22_advances_road_ahead]

theorem v2_s22_wOUT (env : Env) (d : FileData) (g : FS) (prs : Prs) :
    V2.slide_22_advances_road_ahead env (writeFile V2.OUTPUT d g) prs =
    V2.slide_22_advances_road_ahead env g prs := by
  simp (disch := decide) only [V2.slide_22_advances_road_ahead, v2_add_image_safe_writeFile_ne]

theorem v2_s23_len (env : Env) (fs : FS) (prs : Prs) :
    (V2.slide_23_conclusion env fs prs).1.slides.length = prs.slides.length + 1 := by
  simp [V2.slide_23_conclusion]

theorem v2_s23_width (env : Env) (fs : FS) (prs : Prs) :
    (V2.slide_23_conclusion env fs prs).1.slideWidth = prs.slideWidth := by
  simp [V2.slide_23_conclusion]

theorem v2_s23_height (env : Env) (fs : FS) (prs : Prs) :
    (V2.slide_23_conclusion env fs prs).1.slideHeight = prs.slideHeight := by
  simp [V2.slide_23_conclusion]

theorem v2_s23_wOUT (env : Env) (d : FileData) (g : FS) (prs : Prs) :
    V2.slide_23_conclusion env (writeFile V2.OUTPUT d g) prs =
    V2.slide_23_conclusion env g prs := by
  simp (disch := decide) only [V2.slide_23_conclusion, v2_add_image_safe_writeFile_ne]

theorem v2_s24_len (env : Env) (fs : FS) (prs : Prs) :
    (V2.slide_24_thank_you env fs prs).1.slides.length = prs.slides.length + 1 := by
  simp [V2.slide_24_thank_you]

theorem v2_s24_width (env : Env) (fs : FS) (prs : Prs) :
    (V2.slide_24_thank_you env fs prs).1.slideWidth = prs.slideWidth := by
  simp [V2.slide_24_thank_you]

theorem v2_s24_height (env : Env) (fs : FS) (prs : Prs) :
    (V2.slide_24_thank_you env fs prs).1.slideHeight = prs.slideHeight := by
  simp [V2.slide_24_thank_you]

theorem v2_s24_wOUT (env : Env) (d : FileData) (g : FS) (prs : Prs) :
    V2.slide_24_thank_you env (writeFile V2.OUTPUT d g) prs =
    V2.slide_24_thank_you env g prs := by
  simp (disch := decide) only [V2.slide_24_thank_you, v2_add_image_safe_writeFile_ne]

theorem bp_s01_len (fs : FS) (prs : Prs) :
    (Build.buildSlide01 fs prs).1.slides.length = prs.slides.length + 1 := by
  simp [Build.buildSlide01]

theorem bp_s01_wOUT (d : FileData) (g : FS) (prs : Prs) :
    Build.buildSlide01 (writeFile Build.OUTPUT d g) prs =
    Build.buildSlide01 g prs := by
  simp (disch := decide) only [Build.buildSlide01,
    build_safe_add_image_writeFile_ne]

theorem bp_s02_len (fs : FS) (prs : Prs) :
    (Build.buildSlide02 fs prs).1.slides.length = prs.slides.length + 1 := by
  simp [Build.buildSlide02]

theorem bp_s02_wOUT (d : FileData) (g : FS) (prs : Prs) :
    Build.buildSlide02 (writeFile Build.OUTPUT d g) prs =
    Build.buildSlide02 g prs := by
  simp (disch := decide) only [Build.buildSlide02,
    build_safe_add_image_writeFile_ne]

theorem bp_s03_len (fs : FS) (prs : Prs) :
    (Build.buildSlide03 fs prs).1.slides.length = prs.slides.length + 1 := by
  simp [Build.buildSlide03]

theorem bp_s03_wOUT (d : FileData) (g : FS) (prs : Prs) :
    Build.buildSlide03 (writeFile Build.OUTPUT d g) prs =
    Build.buildSlide03 g prs := by
  simp (disch := decide) only [Build.buildSlide03,
    build_safe_add_image_writeFile_ne]

theorem bp_s04_len (fs : FS) (prs : Prs) :
    (Build.buildSlide04 fs prs).1.slides.length = prs.slides.length + 1 := by
  simp [Build.buildSlide04]

theorem bp_s04_wOUT (d : FileData) (g : FS) (prs : Prs) :
    Build.buildSlide04 (writeFile Build.OUTPUT d g) prs =
    Build.buildSlide04 g prs := by
  simp (disch := decide) only [Build.buildSlide04,
    build_safe_add_image_writeFile_ne]

theorem bp_s05_len (fs : FS) (prs : Prs) :
    (Build.buildSlide05 fs prs).1.slides.length = prs.slides.length + 1 := by
  simp [Build.buildSlide05]

theorem bp_s05_wOUT (d : FileData) (g : FS) (prs : Prs) :
    Build.buildSlide05 (writeFile Build.OUTPUT d g) prs =
    Build.buildSlide05 g prs := by
  simp (disch := decide) only [Build.buildSlide05,
    build_safe_add_image_writeFile_ne]

theorem bp_s06_len (fs : FS) (prs : Prs) :
    (Build.buildSlide06 fs prs).1.slides.length = prs.slides.length + 1 := by
  simp [Build.buildSlide06]

theorem bp_s06_wOUT (d : FileData) (g : FS) (prs : Prs) :
    Build.buildSlide06 (writeFile Build.OUTPUT d g) prs =
    Build.buildSlide06 g prs := by
  simp (disch := decide) only [Build.buildSlide06,
    build_safe_add_image_writeFile_ne]

theorem bp_s07_len (fs : FS) (prs : Prs) :
    (Build.buildSlide07 fs prs).1.slides.length = prs.slides.length + 1 := by
  simp [Build.buildSlide07]

theorem bp_s07_wOUT (d : FileData) (g : FS) (prs : Prs) :
    Build.buildSlide07 (writeFile Build.OUTPUT d g) prs =
    Build.buildSlide07 g prs := by
  simp (disch := decide) only [Build.buildSlide07,
    build_safe_add_image_writeFile_ne]

theorem bp_s08_len (fs : FS) (prs : Prs) :
    (Build.buildSlide08 fs prs).1.slides.length = prs.slides.length + 1 := by
  simp [Build.buildSlide08]

theorem bp_s08_wOUT (d : FileData) (g : FS) (prs : Prs) :
    Build.buildSlide08 (writeFile Build.OUTPUT d g) prs =
    Build.buildSlide08 g prs := by
  simp (disch := decide) only [Build.buildSlide08,
    build_safe_add_image_writeFile_ne]

theorem bp_s09_len (fs : FS) (prs : Prs) :
    (Build.buildSlide09 fs prs).1.slides.length = prs.slides.length + 1 := by
  simp [Build.buildSlide09]

theorem bp_s09_wOUT (d : FileData) (g : FS) (prs : Prs) :
    Build.buildSlide09 (writeFile Build.OUTPUT d g) prs =
    Build.buildSlide09 g prs := by
  simp (disch := decide) only [Build.buildSlide09,
    build_safe_add_image_writeFile_ne]

theorem bp_s10_len (fs : FS) (prs : Prs) :
    (Build.buildSlide10 fs prs).1.slides.length = prs.slides.length + 1 := by
  simp [Build.buildSlide10]

theorem bp_s10_wOUT (d : FileData) (g : FS) (prs : Prs) :
    Build.buildSlide10 (writeFile Build.OUTPUT d g) prs =
    Build.buildSlide10 g prs := by
  simp (disch := decide) only [Build.buildSlide10,
    build_safe_add_image_writeFile_ne]

theorem bp_s11_len (fs : FS) (prs : Prs) :
    (Build.buildSlide11 fs prs).1.slides.length = prs.slides.length + 1 := by
  simp [Build.buildSlide11]

theorem bp_s11_wOUT (d : FileData) (g : FS) (prs : Prs) :
    Build.buildSlide11 (writeFile Build.OUTPUT d g) prs =
    Build.buildSlide11 g prs := by
  simp (disch := decide) only [Build.buildSlide11,
    build_safe_add_image_writeFile_ne]

theorem bp_s12_len (fs : FS) (prs : Prs) :
    (Build.buildSlide12 fs prs).1.slides.length = prs.slides.length + 1 := by
  simp [Build.buildSlide12]

theorem bp_s12_wOUT (d : FileData) (g : FS) (prs : Prs) :
    Build.buildSlide12 (writeFile Build.OUTPUT d g) prs =
    Build.buildSlide12 g prs := by
  simp (disch := decide) only [Build.buildSlide12,
    build_safe_add_image_writeFile_ne]

theorem bp_s13_len (fs : FS) (prs : Prs) :
    (Build.buildSlide13 fs prs).1.slides.length = prs.slides.length + 1 := by
  simp [Build.buildSlide13]

theorem bp_s13_wOUT (d : FileData) (g : FS) (prs : Prs) :
    Build.buildSlide13 (writeFile Build.OUTPUT d g) prs =
    Build.buildSlide13 g prs := by
  simp (disch := decide) only [Build.buildSlide13,
    build_safe_add_image_writeFile_ne]

theorem bp_s14_len (fs : FS) (prs : Prs) :
    (Build.buildSlide14 fs prs).1.slides.length = prs.slides.length + 1 := by
  simp [Build.buildSlide14]

theorem bp_s14_wOUT (d : FileData) (g : FS) (prs : Prs) :
    Build.buildSlide14 (writeFile Build.OUTPUT d g) prs =
    Build.buildSlide14 g prs := by
  simp (disch := decide) only [Build.buildSlide14,
    build_safe_add_image_writeFile_ne]

theorem bp_s15_len (fs : FS) (prs : Prs) :
    (Build.buildSlide15 fs prs).1.slides.length = prs.slides.length + 1 := by
  simp [Build.buildSlide15]

theorem bp_s15_wOUT (d : FileData) (g : FS) (prs : Prs) :
    Build.buildSlide15 (writeFile Build.OUTPUT d g) prs =
    Build.buildSlide15 g prs := by
  simp (disch := decide) only [Build.buildSlide15,
    build_safe_add_image_writeFile_ne]

theorem bp_s16_len (fs : FS) (prs : Prs) :
    (Build.buildSlide16 fs prs).1.slides.length = prs.slides.length + 1 := by
  simp [Build.buildSlide16]

theorem bp_s16_wOUT (d : FileData) (g : FS) (prs : Prs) :
    Build.buildSlide16 (writeFile Build.OUTPUT d g) prs =
    Build.buildSlide16 g prs := by
  simp (disch := decide) only [Build.buildSlide16,
    build_safe_add_image_writeFile_ne]

theorem bp_s17_len (fs : FS) (prs : Prs) :
    (Build.buildSlide17 fs prs).1.slides.length = prs.slides.length + 1 := by
  simp [Build.buildSlide17]

theorem bp_s17_wOUT (d : FileData) (g : FS) (prs : Prs) :
    Build.buildSlide17 (writeFile Build.OUTPUT d g) prs =
    Build.buildSlide17 g prs := by
  simp (disch := decide) only [Build.buildSlide17,
    build_safe_add_image_writeFile_ne]

theorem bp_s18_len (fs : FS) (prs : Prs) :
    (Build.buildSlide18 fs prs).1.slides.length = prs.slides.length + 1 := by
  simp [Build.buildSlide18]

theorem bp_s18_wOUT (d : FileData) (g : FS) (prs : Prs) :
    Build.buildSlide18 (writeFile Build.OUTPUT d g) prs =
    Build.buildSlide18 g prs := by
  simp (disch := decide) only [Build.buildSlide18,
    build_safe_add_image_writeFile_ne]

theorem bp_s19_len (fs : FS) (prs : Prs) :
    (Build.buildSlide19 fs prs).1.slides.length = prs.slides.length + 1 := by
  simp [Build.buildSlide19]

theorem bp_s19_wOUT (d : FileData) (g : FS) (prs : Prs) :
    Build.buildSlide19 (writeFile Build.OUTPUT d g) prs =
    Build.buildSlide19 g prs := by
  simp (disch := decide) only [Build.buildSlide19,
    build_safe_add_image_writeFile_ne]

theorem bp_s20_len (fs : FS) (prs : Prs) :
    (Build.buildSlide20 fs prs).1.slides.length = prs.slides.length + 1 := by
  simp [Build.buildSlide20]

theorem bp_s20_wOUT (d : FileData) (g : FS) (prs : Prs) :
    Build.buildSlide20 (writeFile Build.OUTPUT d g) prs =
    Build.buildSlide20 g prs := by
  simp (disch := decide) only [Build.buildSlide20,
    build_safe_add_image_writeFile_ne]

theorem bp_s21_len (fs : FS) (prs : Prs) :
    (Build.buildSlide21 fs prs).1.slides.length = prs.slides.length + 1 := by
  simp [Build.buildSlide21]

theorem bp_s21_wOUT (d : FileData) (g : FS) (prs : Prs) :
    Build.buildSlide21 (writeFile Build.OUTPUT d g) prs =
    Build.buildSlide21 g prs := by
  simp (disch := decide) only [Build.buildSlide21,
    build_safe_add_image_writeFile_ne]

theorem bp_s22_len (fs : FS) (prs : Prs) :
    (Build.buildSlide22 fs prs).1.slides.length = prs.slides.length + 1 := by
  simp [Build.buildSlide22]

theorem bp_s22_wOUT (d : FileData) (g : FS) (prs : Prs) :
    Build.buildSlide22 (writeFile Build.OUTPUT d g) prs =
    Build.buildSlide22 g prs := by
  simp (disch := decide) only [Build.buildSlide22,
    build_safe_add_image_writeFile_ne]

theorem bp_s23_len (fs : FS) (prs : Prs) :
    (Build.buildSlide23 fs prs).1.slides.length = prs.slides.length + 1 := by
  simp [Build.buildSlide23]

theorem bp_s23_wOUT (d : FileData) (g : FS) (prs : Prs) :
    Build.buildSlide23 (writeFile Build.OUTPUT d g) prs =
    Build.buildSlide23 g prs := by
  simp (disch := decide) only [Build.buildSlide23,
    build_safe_add_image_writeFile_ne]

theorem bp_s24_len (fs : FS) (prs : Prs) :
    (Build.buildSlide24 fs prs).1.slides.length = prs.slides.length + 1 := by
  simp [Build.buildSlide24]

theorem bp_s24_wOUT (d : FileData) (g : FS) (prs : Prs) :
    Build.buildSlide24 (writeFile Build.OUTPUT d g) prs =
    Build.buildSlide24 g prs := by
  simp (disch := decide) only [Build.buildSlide24,
    build_safe_add_image_writeFile_ne]

theorem bp_s25_len (fs : FS) (prs : Prs) :
    (Build.buildSlide25 fs prs).1.slides.length = prs.slides.length + 1 := by
  simp [Build.buildSlide25]

theorem bp_s25_wOUT (d : FileData) (g : FS) (prs : Prs) :
    Build.buildSlide25 (writeFile Build.OUTPUT d g) prs =
    Build.buildSlide25 g prs := by
  simp (disch := decide) only [Build.buildSlide25,
    build_safe_add_image_writeFile_ne]

theorem bp_s26_len (fs : FS) (prs : Prs) :
    (Build.buildSlide26 fs prs).1.slides.length = prs.slides.length + 1 := by
  simp [Build.buildSlide26]

theorem bp_s26_wOUT (d : FileData) (g : FS) (prs : Prs) :
    Build.buildSlide26 (writeFile Build.OUTPUT d g) prs =
    Build.buildSlide26 g prs := by
  simp (disch := decide) only [Build.buildSlide26,
    build_safe_add_image_writeFile_ne]

theorem bp_s27_len (fs : FS) (prs : Prs) :
    (Build.buildSlide27 fs prs).1.slides.length = prs.slides.length + 1 := by
  simp [Build.buildSlide27]

theorem bp_s27_wOUT (d : FileData) (g : FS) (prs : Prs) :
    Build.buildSlide27 (writeFile Build.OUTPUT d g) prs =
    Build.buildSlide27 g prs := by
  simp (disch := decide) only [Build.buildSlide27,
    build_safe_add_image_writeFile_ne]

theorem bp_s28_len (fs : FS) (prs : Prs) :
    (Build.buildSlide28 fs prs).1.slides.length = prs.slides.length + 1 := by
  simp [Build.buildSlide28]

theorem bp_s28_wOUT (d : FileData) (g : FS) (prs : Prs) :
    Build.buildSlide28 (writeFile Build.OUTPUT d g) prs =
    Build.buildSlide28 g prs := by
  simp (disch := decide) only [Build.buildSlide28,
    build_safe_add_image_writeFile_ne]

theorem bp_s29_len (fs : FS) (prs : Prs) :
    (Build.buildSlide29 fs prs).1.slides.length = prs.slides.length + 1 := by
  simp [Build.buildSlide29]

theorem bp_s29_wOUT (d : FileData) (g : FS) (prs : Prs) :
    Build.buildSlide29 (writeFile Build.OUTPUT d g) prs =
    Build.buildSlide29 g prs := by
  simp (disch := decide) only [Build.buildSlide29,
    build_safe_add_image_writeFile_ne]

theorem bp_s30_len (fs : FS) (prs : Prs) :
    (Build.buildSlide30 fs prs).1.slides.length = prs.slides.length + 1 := by
  simp [Build.buildSlide30]

theorem bp_s30_wOUT (d : FileData) (g : FS) (prs : Prs) :
    Build.buildSlide30 (writeFile Build.OUTPUT d g) prs =
    Build.buildSlide30 g prs := by
  simp (disch := decide) only [Build.buildSlide30,
    build_safe_add_image_writeFile_ne]

theorem bp_s31_len (fs : FS) (prs : Prs) :
    (Build.buildSlide31 fs prs).1.slides.length = prs.slides.length + 1 := by
  simp [Build.buildSlide31]

theorem bp_s31_wOUT (d : FileData) (g : FS) (prs : Prs) :
    Build.buildSlide31 (writeFile Build.OUTPUT d g) prs =
    Build.buildSlide31 g prs := by
  simp (disch := decide) only [Build.buildSlide31,
    build_safe_add_image_writeFile_ne]

theorem bp_s32_len (fs : FS) (prs : Prs) :
    (Build.buildSlide32 fs prs).1.slides.length = prs.slides.length + 1 := by
  simp [Build.buildSlide32]

theorem bp_s32_wOUT (d : FileData) (g : FS) (prs : Prs) :
    Build.buildSlide32 (writeFile Build.OUTPUT d g) prs =
    Build.buildSlide32 g prs := by
  simp (disch := decide) only [Build.buildSlide32,
    build_safe_add_image_writeFile_ne]

theorem path_exists_writeFile (fs : FS) (k : String) (d : FileData)
    (p : String) :
    path_exists (writeFile k d fs) p =
      if p = k then true else path_exists fs p := by
  by_cases h : p = k <;> simp [path_exists, writeFile, h]

theorem v2_genPrev_wOUT (env : Env) (d : FileData) (g : FS) :
    (V2.generate_prevalence_chart env (writeFile V2.OUTPUT d g)).1 =
      writeFile V2.OUTPUT d (V2.generate_prevalence_chart env g).1 := by
  funext q
  have hne : ¬(V2.CHART_DIR ++ "/prevalence_projection.png" = V2.OUTPUT) := by
    decide
  by_cases hq : q = V2.CHART_DIR ++ "/prevalence_projection.png"
  · subst hq
    simp [V2.generate_prevalence_chart, writeFile, hne]
  · simp [V2.generate_prevalence_chart, writeFile, hq]

theorem v2_genML_wOUT (env : Env) (d : FileData) (g : FS) :
    (V2.generate_classical_ml_chart env (writeFile V2.OUTPUT d g)).1 =
      writeFile V2.OUTPUT d (V2.generate_classical_ml_chart env g).1 := by
  funext q
  have hne : ¬(V2.CHART_DIR ++ "/classical_ml_comparison.png" = V2.OUTPUT) := by
    decide
  by_cases hq : q = V2.CHART_DIR ++ "/classical_ml_comparison.png"
  · subst hq
    simp [V2.generate_classical_ml_chart, writeFile, hne]
  · simp [V2.generate_classical_ml_chart, writeFile, hq]

theorem v2_genCnn_wOUT (env : Env) (d : FileData) (g : FS) :
    (V2.generate_cnn_vs_swin_chart env (writeFile V2.OUTPUT d g)).1 =
      writeFile V2.OUTPUT d (V2.generate_cnn_vs_swin_chart env g).1 := by
  funext q
  have hne : ¬(V2.CHART_DIR ++ "/cnn_vs_swin_comparison.png" = V2.OUTPUT) := by
    decide
  by_cases hq : q = V2.CHART_DIR ++ "/cnn_vs_swin_comparison.png"
  · subst hq
    simp [V2.generate_cnn_vs_swin_chart, writeFile, hne]
  · simp [V2.generate_cnn_vs_swin_chart, writeFile, hq]

theorem v2_genLeak_wOUT (env : Env) (d : FileData) (g : FS) :
    (V2.generate_leakage_chart env (writeFile V2.OUTPUT d g)).1 =
      writeFile V2.OUTPUT d (V2.generate_leakage_chart env g).1 := by
  funext q
  have hne : ¬(V2.CHART_DIR ++ "/data_leakage_impact.png" = V2.OUTPUT) := by
    decide
  by_cases hq : q = V2.CHART_DIR ++ "/data_leakage_impact.png"
  · subst hq
    simp [V2.generate_leakage_chart, writeFile, hne]
  · simp [V2.generate_leakage_chart, writeFile, hq]

theorem v2ChartPhase_wOUT (env : Env) (d : FileData) (g : FS) :
    V2.v2ChartPhase env (writeFile V2.OUTPUT d g) =
      writeFile V2.OUTPUT d (V2.v2ChartPhase env g) := by
  simp only [V2.v2ChartPhase, v2_genPrev_wOUT, v2_genML_wOUT, v2_genCnn_wOUT,
    v2_genLeak_wOUT]

theorem v2ChartPhase_idem (env : Env) (g : FS) :
    V2.v2ChartPhase env (V2.v2ChartPhase env g) = V2.v2ChartPhase env g := by
  funext q
  simp only [V2.v2ChartPhase, V2.generate_prevalence_chart,
    V2.generate_classical_ml_chart, V2.generate_cnn_vs_swin_chart,
    V2.generate_leakage_chart, writeFile]
  split_ifs <;> rfl
theorem v2SlidePrs_len (env : Env) (fs1 : FS) :
    (V2.v2SlidePrs env fs1).slides.length = 24 := by
  simp [V2.v2SlidePrs, v2_s01_len, v2_s02_len, v2_s03_len, v2_s04_len,
    v2_s05_len, v2_s06_len, v2_s07_len, v2_s08_len, v2_s09_len, v2_s10_len,
    v2_s11_len, v2_s12_len, v2_s13_len, v2_s14_len, v2_s15_len, v2_s16_len,
    v2_s17_len, v2_s18_len, v2_s19_len, v2_s20_len, v2_s21_len, v2_s22_len,
    v2_s23_len, v2_s24_len]

theorem v2SlidePrs_width (env : Env) (fs1 : FS) :
    (V2.v2SlidePrs env fs1).slideWidth = V2.SLIDE_W := by
  simp [V2.v2SlidePrs, v2_s01_width, v2_s02_width, v2_s03_width,
    v2_s04_width, v2_s05_width, v2_s06_width, v2_s07_width, v2_s08_width,
    v2_s09_width, v2_s10_width, v2_s11_width, v2_s12_width, v2_s13_width,
    v2_s14_width, v2_s15_width, v2_s16_width, v2_s17_width, v2_s18_width,
    v2_s19_width, v2_s20_width, v2_s21_width, v2_s22_width, v2_s23_width,
    v2_s24_width]

theorem v2SlidePrs_height (env : Env) (fs1 : FS) :
    (V2.v2SlidePrs env fs1).slideHeight = V2.SLIDE_H := by
  simp [V2.v2SlidePrs, v2_s01_height, v2_s02_height, v2_s03_height,
    v2_s04_height, v2_s05_height, v2_s06_height, v2_s07_height,
    v2_s08_height, v2_s09_height, v2_s10_height, v2_s11_height,
    v2_s12_height, v2_s13_height, v2_s14_height, v2_s15_height,
    v2_s16_height, v2_s17_height, v2_s18_height, v2_s19_height,
    v2_s20_height, v2_s21_height, v2_s22_height, v2_s23_height,
    v2_s24_height]

theorem v2SlidePrs_wOUT (env : Env) (d : FileData) (g : FS) :
    V2.v2SlidePrs env (writeFile V2.OUTPUT d g) = V2.v2SlidePrs env g := by
  simp only [V2.v2SlidePrs, v2_s01_wOUT, v2_s02_wOUT, v2_s03_wOUT,
    v2_s04_wOUT, v2_s05_wOUT, v2_s06_wOUT, v2_s07_wOUT, v2_s08_wOUT,
    v2_s09_wOUT, v2_s10_wOUT, v2_s11_wOUT, v2_s12_wOUT, v2_s13_wOUT,
    v2_s14_wOUT, v2_s15_wOUT, v2_s16_wOUT, v2_s17_wOUT, v2_s18_wOUT,
    v2_s19_wOUT, v2_s20_wOUT, v2_s21_wOUT, v2_s22_wOUT, v2_s23_wOUT,
    v2_s24_wOUT]

theorem buildPrs_len (fs : FS) : (Build.buildPrs fs).slides.length = 32 := by
  simp [Build.buildPrs, bp_s01_len, bp_s02_len, bp_s03_len, bp_s04_len,
    bp_s05_len, bp_s06_len, bp_s07_len, bp_s08_len, bp_s09_len, bp_s10_len,
    bp_s11_len, bp_s12_len, bp_s13_len, bp_s14_len, bp_s15_len, bp_s16_len,
    bp_s17_len, bp_s18_len, bp_s19_len, bp_s20_len, bp_s21_len, bp_s22_len,
    bp_s23_len, bp_s24_len, bp_s25_len, bp_s26_len, bp_s27_len, bp_s28_len,
    bp_s29_len, bp_s30_len, bp_s31_len, bp_s32_len]

theorem buildPrs_wOUT (d : FileData) (g : FS) :
    Build.buildPrs (writeFile Build.OUTPUT d g) = Build.buildPrs g := by
  simp only [Build.buildPrs, bp_s01_wOUT, bp_s02_wOUT, bp_s03_wOUT,
    bp_s04_wOUT, bp_s05_wOUT, bp_s06_wOUT, bp_s07_wOUT, bp_s08_wOUT,
    bp_s09_wOUT, bp_s10_wOUT, bp_s11_wOUT, bp_s12_wOUT, bp_s13_wOUT,
    bp_s14_wOUT, bp_s15_wOUT, bp_s16_wOUT, bp_s17_wOUT, bp_s18_wOUT,
    bp_s19_wOUT, bp_s20_wOUT, bp_s21_wOUT, bp_s22_wOUT, bp_s23_wOUT,
    bp_s24_wOUT, bp_s25_wOUT, bp_s26_wOUT, bp_s27_wOUT, bp_s28_wOUT,
    bp_s29_wOUT, bp_s30_wOUT, bp_s31_wOUT, bp_s32_wOUT]

theorem v2_main_idem (env : Env) (fs : FS) :
    (V2.main env ((V2.main env fs).1)).1 = (V2.main env fs).1 := by
  rw [v2_main_decomp, v2_main_decomp]
  have h1 : ∀ d : FileData, V2.v2ChartPhase env
      (writeFile V2.OUTPUT d (V2.v2ChartPhase env fs)) =
      writeFile V2.OUTPUT d (V2.v2ChartPhase env fs) := fun d => by
    rw [v2ChartPhase_wOUT, v2ChartPhase_idem]
  have h2 : V2.v2MainPrs env
      (writeFile V2.OUTPUT (FileData.pptx (V2.v2MainPrs env fs))
        (V2.v2ChartPhase env fs)) = V2.v2MainPrs env fs := by
    simp only [V2.v2MainPrs]
    rw [h1, v2SlidePrs_wOUT]
  rw [h2, h1, writeFile_writeFile_same]

theorem build_idem (fs : FS) :
    (Build.build_presentation ((Build.build_presentation fs).1)).1 =
      (Build.build_presentation fs).1 := by
  rw [build_decomp, build_decomp]
  rw [buildPrs_wOUT, writeFile_writeFile_same]

theorem genCharts_idem (fs : FS) :
    (GenCharts.main ((GenCharts.main fs).1)).1 = (GenCharts.main fs).1 := by
  funext q
  simp only [GenCharts.main, GenCharts.chart1_prevalence,
    GenCharts.chart2_ml_comparison, GenCharts.chart3_roc_curve,
    GenCharts.chart4_data_leakage, writeFile]
  split_ifs <;> rfl
/-- C8: `add_citation` in `create_presentation_v2.py` ignores its `bg_dark`
parameter: for every slide and every text, the call with `bg_dark = True`
and the call with `bg_dark = False` produce identical results — the same
9-point italic gray text box at 0.5 in from the left and 7.0 in from the
top. -/
theorem c8_add_citation_ignores_bg_dark (env : Env) (slide : Slide)
    (text : String) (b1 b2 : Bool) :
    V2.add_citation env slide text b1 = V2.add_citation env slide text b2 ∧
    V2.add_citation env slide text b1 =
      V2.add_text_box env slide (Inches (0.5 : ℚ)) (Inches 7)
        (Inches (12.3 : ℚ)) (Inches (0.4 : ℚ)) text 9 V2.CITATION_C false
        true Align.left V2.FONT Anchor.top :=
  ⟨rfl, rfl⟩

/-- C9: in both image-placement helpers the width and height arguments are
tested for truthiness, so passing zero for a dimension behaves exactly as if
the argument were omitted — the picture keeps its native size in that
dimension. -/
theorem c9_zero_size_behaves_as_omitted (fs : FS) (slide : Slide)
    (p : String) (l t : Len) (w h : Option Len) :
    V2.add_image_safe fs slide p l t (some 0) h =
      V2.add_image_safe fs slide p l t none h ∧
    V2.add_image_safe fs slide p l t w (some 0) =
      V2.add_image_safe fs slide p l t w none ∧
    Build.safe_add_image fs slide p l t (some 0) h =
      Build.safe_add_image fs slide p l t none h ∧
    Build.safe_add_image fs slide p l t w (some 0) =
      Build.safe_add_image fs slide p l t w none := by
  refine ⟨?_, ?_, ?_, ?_⟩ <;>
    simp [V2.add_image_safe, Build.safe_add_image, truthyQ]

/-- C1: for either image-placement helper called on a missing path, the
helper prints the warning, leaves the slide unchanged, and returns normally
(the underlying `add_picture` library call — which would raise on that path
— is never reached); on an existing path, exactly one picture shape is
appended. -/
theorem c1_image_helpers (fs : FS) (slide : Slide) (p f : String)
    (l t : Len) (w h : Option Len) :
    (path_exists fs p = false →
      V2.add_image_safe fs slide p l t w h =
        (slide, ["  WARNING: Image not found: " ++ p], false) ∧
      V2.add_picture fs slide p l t w h =
        Except.error ("FileNotFoundError: " ++ p)) ∧
    (path_exists fs p = true →
      V2.add_image_safe fs slide p l t w h =
        ({ slide with shapes := slide.shapes ++
            [Shape.picture p l t (truthyQ w) (truthyQ h)] }, [], true)) ∧
    (path_exists fs (if isAbs f then f else Build.img_path f) = false →
      Build.safe_add_image fs slide f l t w h =
        (slide, ["  WARNING: Image not found: " ++
          (if isAbs f then f else Build.img_path f)], none)) ∧
    (path_exists fs (if isAbs f then f else Build.img_path f) = true →
      Build.safe_add_image fs slide f l t w h =
        ({ slide with shapes := slide.shapes ++
            [Shape.picture (if isAbs f then f else Build.img_path f) l t
              (truthyQ w) (truthyQ h)] }, [],
         some (Shape.picture (if isAbs f then f else Build.img_path f) l t
           (truthyQ w) (truthyQ h)))) := by
  refine ⟨fun hp => ⟨?_, ?_⟩, fun hp => ?_, fun hp => ?_, fun hp => ?_⟩ <;>
    simp [V2.add_image_safe, V2.add_picture, Build.safe_add_image, hp]

/-- Witness for the image-helper theorem at concrete inputs: a missing path
is skipped with the warning, an existing path gets exactly one picture. -/
theorem c1_image_helpers_witness :
    V2.add_image_safe fsEmpty blankSlide "/repo/images/missing.png" 0 0 none
        none =
      (blankSlide, ["  WARNING: Image not found: /repo/images/missing.png"],
       false) ∧
    V2.add_image_safe
        (writeFile "/repo/images/logo_en.png" (FileData.blob "img") fsEmpty)
        blankSlide "/repo/images/logo_en.png" 0 0 none none =
      ({ blankSlide with shapes :=
          [Shape.picture "/repo/images/logo_en.png" 0 0 none none] }, [],
       true) := by
  constructor
  · exact ((c1_image_helpers fsEmpty blankSlide "/repo/images/missing.png"
      "x" 0 0 none none).1 (by rfl)).1
  · have h := (c1_image_helpers
      (writeFile "/repo/images/logo_en.png" (FileData.blob "img") fsEmpty)
      blankSlide "/repo/images/logo_en.png" "x" 0 0 none none).2.1 (by rfl)
    simpa [truthyQ, blankSlide] using h

/-- C3 counterexample: with an environment in which the library assignment
`tf.vertical_anchor = anchor` raises, that failure — which is not a missing
referenced image — is caught by the `try/except: pass` block inside
`add_text_box`: the raw assignment errors, yet the helper still adds the
text box and no exception propagates.  So the missing-image skip is not the
only error handling in the codebase. -/
theorem c3_counterexample :
    V2.set_vertical_anchor_raw ⟨true, true⟩
        { wordWrap := true, verticalAnchor := none,
          paragraphs := [emptyParagraph] } Anchor.top =
      Except.error "vertical_anchor assignment raised" ∧
    (V2.add_text_box ⟨true, true⟩ blankSlide 0 0 0 0 "x" 16 V2.TEXT_LIGHT
        false false Align.left V2.FONT Anchor.top).shapes.length = 1 :=
  ⟨rfl, rfl⟩

/-- C3 (amended): besides the missing-image skip, the codebase's only other
error handling is the defensive `try/except: pass` guards around text-frame
attribute assignments (`vertical_anchor` in the v2 text helpers; paragraph
alignment and spacing in `build_presentation`'s `add_textbox`): a failing
vertical-anchor assignment is swallowed — the text box is still added, the
anchor simply stays unset — and a missing image produces a warning; all
other failures propagate uncaught. -/
theorem c3_amended_guarded_assignments (env : Env) (slide : Slide)
    (l t w h : Len) (text : String) (sz : ℚ) (color : RGB)
    (bold italic : Bool) (alignment : Align) (font : String)
    (anchor : Anchor) (fs : FS) (p : String) :
    V2.add_text_box env slide l t w h text sz color bold italic alignment
        font anchor =
      { slide with shapes := slide.shapes ++
          [Shape.textbox l t w h
            { wordWrap := true,
              verticalAnchor := if env.vaRaises then none else some anchor,
              paragraphs :=
                [{ runs := [⟨text, font, Pt sz, color, bold, italic⟩],
                   alignment := alignment, lineSpacing := none,
                   spaceBefore := none, spaceAfter := none }] }] } ∧
    (path_exists fs p = false →
      V2.add_image_safe fs slide p l t none none =
        (slide, ["  WARNING: Image not found: " ++ p], false)) := by
  constructor
  · cases hv : env.vaRaises <;>
      simp [V2.add_text_box, V2.try_set_vertical_anchor,
        V2.set_vertical_anchor_raw, hv]
  · intro hp
    simp [V2.add_image_safe, hp]

/-- Witness for the amended error-handling theorem at concrete inputs. -/
theorem c3_amended_witness :
    V2.add_text_box ⟨true, true⟩ blankSlide 0 0 0 0 "x" 16 V2.TEXT_LIGHT
        false false Align.left V2.FONT Anchor.top =
      { blankSlide with shapes := blankSlide.shapes ++
          [Shape.textbox 0 0 0 0
            { wordWrap := true,
              verticalAnchor :=
                if (⟨true, true⟩ : Env).vaRaises then none
                else some Anchor.top,
              paragraphs :=
                [{ runs :=
                     [⟨"x", V2.FONT, Pt 16, V2.TEXT_LIGHT, false, false⟩],
                   alignment := Align.left, lineSpacing := none,
                   spaceBefore := none, spaceAfter := none }] }] } ∧
    V2.add_image_safe fsEmpty blankSlide "q" 0 0 none none =
      (blankSlide, ["  WARNING: Image not found: q"], false) :=
  ⟨(c3_amended_guarded_assignments ⟨true, true⟩ blankSlide 0 0 0 0 "x" 16
      V2.TEXT_LIGHT false false Align.left V2.FONT Anchor.top fsEmpty "q").1,
   (c3_amended_guarded_assignments ⟨true, true⟩ blankSlide 0 0 0 0 "x" 16
      V2.TEXT_LIGHT false false Align.left V2.FONT Anchor.top fsEmpty
      "q").2 (by rfl)⟩
/-- C2: each of the 24 slide-building functions of
`create_presentation_v2.py` appends exactly one slide to the presentation,
for every environment and every filesystem — in particular for filesystems
on which every referenced image file is missing, where the call still
returns normally (the embedding is total; the only fallible library call,
`add_picture`, sits behind the existence guard of `add_image_safe`). -/
theorem c2_each_slide_fn_adds_one_slide (env : Env) (fs : FS) (prs : Prs)
    (cp : String) :
    (V2.slide_01_title env fs prs).1.slides.length =
      prs.slides.length + 1 ∧
    (V2.slide_02_epidemic env fs prs cp).1.slides.length =
      prs.slides.length + 1 ∧
    (V2.slide_03_window_atn env fs prs).1.slides.length =
      prs.slides.length + 1 ∧
    (V2.slide_04_neuroimaging env fs prs).1.slides.length =
      prs.slides.length + 1 ∧
    (V2.slide_05_datasets env fs prs).1.slides.length =
      prs.slides.length + 1 ∧
    (V2.slide_06_section_divider env fs prs).1.slides.length =
      prs.slides.length + 1 ∧
    (V2.slide_07_mri_fundamentals env fs prs).1.slides.length =
      prs.slides.length + 1 ∧
    (V2.slide_08_beyond_mri env fs prs).1.slides.length =
      prs.slides.length + 1 ∧
    (V2.slide_09_preprocessing env fs prs).1.slides.length =
      prs.slides.length + 1 ∧
    (V2.slide_10_signal_cleaning env fs prs).1.slides.length =
      prs.slides.length + 1 ∧
    (V2.slide_11_skull_stripping env fs prs).1.slides.length =
      prs.slides.length + 1 ∧
    (V2.slide_12_vbm env fs prs).1.slides.length =
      prs.slides.length + 1 ∧
    (V2.slide_13_classical_ml env fs prs cp).1.slides.length =
      prs.slides.length + 1 ∧
    (V2.slide_14_cnns_to_transformers env fs prs).1.slides.length =
      prs.slides.length + 1 ∧
    (V2.slide_15_explainability env fs prs).1.slides.length =
      prs.slides.length + 1 ∧
    (V2.slide_16_cnn_experiments env fs prs).1.slides.length =
      prs.slides.length + 1 ∧
    (V2.slide_17_swin_results env fs prs).1.slides.length =
      prs.slides.length + 1 ∧
    (V2.slide_18_cnn_vs_swin env fs prs cp).1.slides.length =
      prs.slides.length + 1 ∧
    (V2.slide_19_why_models_fail env fs prs cp).1.slides.length =
      prs.slides.length + 1 ∧
    (V2.slide_20_accuracy_paradox env fs prs).1.slides.length =
      prs.slides.length + 1 ∧
    (V2.slide_21_label_uncertainty env fs prs).1.slides.length =
      prs.slides.length + 1 ∧
    (V2.slide_22_advances_road_ahead env fs prs).1.slides.length =
      prs.slides.length + 1 ∧
    (V2.slide_23_conclusion env fs prs).1.slides.length =
      prs.slides.length + 1 ∧
    (V2.slide_24_thank_you env fs prs).1.slides.length =
      prs.slides.length + 1 :=
  ⟨v2_s01_len env fs prs, v2_s02_len env fs prs cp, v2_s03_len env fs prs,
   v2_s04_len env fs prs, v2_s05_len env fs prs, v2_s06_len env fs prs,
   v2_s07_len env fs prs, v2_s08_len env fs prs, v2_s09_len env fs prs,
   v2_s10_len env fs prs, v2_s11_len env fs prs, v2_s12_len env fs prs,
   v2_s13_len env fs prs cp, v2_s14_len env fs prs, v2_s15_len env fs prs,
   v2_s16_len env fs prs, v2_s17_len env fs prs,
   v2_s18_len env fs prs cp, v2_s19_len env fs prs cp,
   v2_s20_len env fs prs, v2_s21_len env fs prs, v2_s22_len env fs prs,
   v2_s23_len env fs prs, v2_s24_len env fs prs⟩

/-- C10: a complete run of `create_presentation_v2.main()` saves a document
with exactly 24 slides on 13.3 × 7.5-inch pages, and a complete run of
`build_presentation()` saves a document with exactly 32 slides — for every
starting filesystem, so neither count depends on which image files exist. -/
theorem c10_saved_slide_counts_and_dimensions (env : Env) (fs : FS) :
    savedSlideCount ((V2.main env fs).1) V2.OUTPUT = some 24 ∧
    savedSize ((V2.main env fs).1) V2.OUTPUT =
      some (Inches (13.3 : ℚ), Inches (7.5 : ℚ)) ∧
    savedSlideCount ((Build.build_presentation fs).1) Build.OUTPUT =
      some 32 := by
  refine ⟨?_, ?_, ?_⟩
  · rw [v2_main_decomp]
    simp [savedSlideCount, writeFile, V2.v2MainPrs, v2SlidePrs_len]
  · rw [v2_main_decomp]
    simp [savedSize, writeFile, V2.v2MainPrs, v2SlidePrs_width,
      v2SlidePrs_height, V2.SLIDE_W, V2.SLIDE_H]
  · rw [build_decomp]
    simp [savedSlideCount, writeFile, buildPrs_len]

/-- C4: re-running any of the three generators on the filesystem left by a
previous run writes every output file again with identical content, so the
filesystem is unchanged — two consecutive runs on unchanged image assets
produce identical outputs (PNG charts and pptx documents; in the model file
contents are the figures and documents handed to the libraries, which is
"identical up to timestamp metadata" for the rendered bytes). -/
theorem c4_reruns_are_idempotent (env : Env) (fs : FS) :
    (GenCharts.main ((GenCharts.main fs).1)).1 = (GenCharts.main fs).1 ∧
    (V2.main env ((V2.main env fs).1)).1 = (V2.main env fs).1 ∧
    (Build.build_presentation ((Build.build_presentation fs).1)).1 =
      (Build.build_presentation fs).1 :=
  ⟨genCharts_idem fs, v2_main_idem env fs, build_idem fs⟩
/-- C6: every chart-generating function — the four of `generate_charts.py`
and the four `generate_*` functions of `create_presentation_v2.py` — writes
a PNG rendered from a figure with drawing commands at its expected path
under the `generated_charts` directory (a rendering of such a figure is a
non-empty file; the byte stream itself belongs to the imaging library), and
the v2 generators return exactly that path. -/
theorem c6_chart_functions_write_png_at_expected_path (env : Env)
    (fs : FS) :
    isRenderedPng ((GenCharts.chart1_prevalence fs).1)
      (GenCharts.OUTPUT_DIR ++ "/prevalence_projection.png") = true ∧
    isRenderedPng ((GenCharts.chart2_ml_comparison fs).1)
      (GenCharts.OUTPUT_DIR ++ "/ml_comparison.png") = true ∧
    isRenderedPng ((GenCharts.chart3_roc_curve fs).1)
      (GenCharts.OUTPUT_DIR ++ "/roc_curve.png") = true ∧
    isRenderedPng ((GenCharts.chart4_data_leakage fs).1)
      (GenCharts.OUTPUT_DIR ++ "/data_leakage_impact.png") = true ∧
    isRenderedPng ((V2.generate_prevalence_chart env fs).1)
      (V2.CHART_DIR ++ "/prevalence_projection.png") = true ∧
    isRenderedPng ((V2.generate_classical_ml_chart env fs).1)
      (V2.CHART_DIR ++ "/classical_ml_comparison.png") = true ∧
    isRenderedPng ((V2.generate_cnn_vs_swin_chart env fs).1)
      (V2.CHART_DIR ++ "/cnn_vs_swin_comparison.png") = true ∧
    isRenderedPng ((V2.generate_leakage_chart env fs).1)
      (V2.CHART_DIR ++ "/data_leakage_impact.png") = true ∧
    (V2.generate_prevalence_chart env fs).2 =
      V2.CHART_DIR ++ "/prevalence_projection.png" ∧
    (V2.generate_classical_ml_chart env fs).2 =
      V2.CHART_DIR ++ "/classical_ml_comparison.png" ∧
    (V2.generate_cnn_vs_swin_chart env fs).2 =
      V2.CHART_DIR ++ "/cnn_vs_swin_comparison.png" ∧
    (V2.generate_leakage_chart env fs).2 =
      V2.CHART_DIR ++ "/data_leakage_impact.png" := by
  refine ⟨?_, ?_, ?_, ?_, ?_, ?_, ?_, ?_, rfl, rfl, rfl, rfl⟩ <;>
    simp [GenCharts.chart1_prevalence, GenCharts.chart2_ml_comparison,
      GenCharts.chart3_roc_curve, GenCharts.chart4_data_leakage,
      V2.generate_prevalence_chart, V2.generate_classical_ml_chart,
      V2.generate_cnn_vs_swin_chart, V2.generate_leakage_chart,
      isRenderedPng, writeFile]

/-- C5: running `generate_charts.py` as a script touches exactly the four
chart paths (every other path keeps its previous contents), writes a PNG at
each of the four distinct paths in `generated_charts` — a line chart for
`prevalence_projection.png`, a grouped bar chart for `ml_comparison.png`, a
curve plot for `roc_curve.png`, a bar chart for `data_leakage_impact.png`,
each built from fixed literal arrays — and each chart function is stateless:
its output file content does not depend on the filesystem, and it changes no
other path. -/
theorem c5_generate_charts_script (fs : FS) :
    (∀ q, q ∉ GenCharts.chartPaths → (GenCharts.main fs).1 q = fs q) ∧
    (∀ p, p ∈ GenCharts.chartPaths →
      isPngFile ((GenCharts.main fs).1) p = true) ∧
    GenCharts.chartPaths.Nodup ∧
    GenCharts.chartPaths.length = 4 ∧
    hasLinePlot ((GenCharts.main fs).1)
      (GenCharts.OUTPUT_DIR ++ "/prevalence_projection.png") = true ∧
    hasBarGroup ((GenCharts.main fs).1)
      (GenCharts.OUTPUT_DIR ++ "/ml_comparison.png") = true ∧
    hasLinePlot ((GenCharts.main fs).1)
      (GenCharts.OUTPUT_DIR ++ "/roc_curve.png") = true ∧
    hasBarGroup ((GenCharts.main fs).1)
      (GenCharts.OUTPUT_DIR ++ "/data_leakage_impact.png") = true ∧
    (∀ g h : FS,
      (GenCharts.chart1_prevalence g).1
          (GenCharts.OUTPUT_DIR ++ "/prevalence_projection.png") =
        (GenCharts.chart1_prevalence h).1
          (GenCharts.OUTPUT_DIR ++ "/prevalence_projection.png") ∧
      (GenCharts.chart2_ml_comparison g).1
          (GenCharts.OUTPUT_DIR ++ "/ml_comparison.png") =
        (GenCharts.chart2_ml_comparison h).1
          (GenCharts.OUTPUT_DIR ++ "/ml_comparison.png") ∧
      (GenCharts.chart3_roc_curve g).1
          (GenCharts.OUTPUT_DIR ++ "/roc_curve.png") =
        (GenCharts.chart3_roc_curve h).1
          (GenCharts.OUTPUT_DIR ++ "/roc_curve.png") ∧
      (GenCharts.chart4_data_leakage g).1
          (GenCharts.OUTPUT_DIR ++ "/data_leakage_impact.png") =
        (GenCharts.chart4_data_leakage h).1
          (GenCharts.OUTPUT_DIR ++ "/data_leakage_impact.png")) ∧
    (∀ g : FS, ∀ q,
      (q ≠ GenCharts.OUTPUT_DIR ++ "/prevalence_projection.png" →
        (GenCharts.chart1_prevalence g).1 q = g q) ∧
      (q ≠ GenCharts.OUTPUT_DIR ++ "/ml_comparison.png" →
        (GenCharts.chart2_ml_comparison g).1 q = g q) ∧
      (q ≠ GenCharts.OUTPUT_DIR ++ "/roc_curve.png" →
        (GenCharts.chart3_roc_curve g).1 q = g q) ∧
      (q ≠ GenCharts.OUTPUT_DIR ++ "/data_leakage_impact.png" →
        (GenCharts.chart4_data_leakage g).1 q = g q)) := by
  refine ⟨?_, ?_, by decide, rfl, ?_, ?_, ?_, ?_, ?_, ?_⟩
  · intro q hq
    simp [GenCharts.chartPaths] at hq
    obtain ⟨h1, h2, h3, h4⟩ := hq
    simp [GenCharts.main, GenCharts.chart1_prevalence,
      GenCharts.chart2_ml_comparison, GenCharts.chart3_roc_curve,
      GenCharts.chart4_data_leakage, writeFile, h1, h2, h3, h4]
  · intro p hp
    simp [GenCharts.chartPaths] at hp
    rcases hp with rfl | rfl | rfl | rfl <;>
      simp (disch := decide) only [GenCharts.main,
        GenCharts.chart1_prevalence, GenCharts.chart2_ml_comparison,
        GenCharts.chart3_roc_curve, GenCharts.chart4_data_leakage,
        writeFile, isPngFile, if_pos, if_neg]
  · simp (disch := decide) only [GenCharts.main,
      GenCharts.chart1_prevalence, GenCharts.chart2_ml_comparison,
      GenCharts.chart3_roc_curve, GenCharts.chart4_data_leakage,
      writeFile, hasLinePlot, if_pos, if_neg]
    decide
  · simp (disch := decide) only [GenCharts.main,
      GenCharts.chart1_prevalence, GenCharts.chart2_ml_comparison,
      GenCharts.chart3_roc_curve, GenCharts.chart4_data_leakage,
      writeFile, hasBarGroup, if_pos, if_neg]
    decide
  · simp (disch := decide) only [GenCharts.main,
      GenCharts.chart1_prevalence, GenCharts.chart2_ml_comparison,
      GenCharts.chart3_roc_curve, GenCharts.chart4_data_leakage,
      writeFile, hasLinePlot, if_pos, if_neg]
    decide
  · simp (disch := decide) only [GenCharts.main,
      GenCharts.chart1_prevalence, GenCharts.chart2_ml_comparison,
      GenCharts.chart3_roc_curve, GenCharts.chart4_data_leakage,
      writeFile, hasBarGroup, if_pos, if_neg]
    decide
  · intro g h
    refine ⟨?_, ?_, ?_, ?_⟩ <;>
      simp [GenCharts.chart1_prevalence, GenCharts.chart2_ml_comparison,
        GenCharts.chart3_roc_curve, GenCharts.chart4_data_leakage, writeFile]
  · intro g q
    refine ⟨fun hq => ?_, fun hq => ?_, fun hq => ?_, fun hq => ?_⟩ <;>
      simp [GenCharts.chart1_prevalence, GenCharts.chart2_ml_comparison,
        GenCharts.chart3_roc_curve, GenCharts.chart4_data_leakage, writeFile,
        hq]

/-- Witness for the chart-script theorem at concrete inputs: an unrelated
path is untouched and a chart path receives a PNG, starting from the empty
filesystem. -/
theorem c5_generate_charts_script_witness :
    (GenCharts.main fsEmpty).1 "/elsewhere/file.txt" =
      fsEmpty "/elsewhere/file.txt" ∧
    isPngFile ((GenCharts.main fsEmpty).1)
      (GenCharts.OUTPUT_DIR ++ "/roc_curve.png") = true ∧
    ((GenCharts.chart1_prevalence fsEmpty).1 "/elsewhere/file.txt" =
      fsEmpty "/elsewhere/file.txt") :=
  ⟨(c5_generate_charts_script fsEmpty).1 "/elsewhere/file.txt" (by decide),
   (c5_generate_charts_script fsEmpty).2.1 _ (by decide),
   ((c5_generate_charts_script fsEmpty).2.2.2.2.2.2.2.2.2 fsEmpty
     "/elsewhere/file.txt").1 (by decide)⟩
/-- C7 counterexample: `build_presentation()` is a run of the slide
assembler in which a referenced chart file is NOT generated before the
slide-building sections run.  Starting from the empty filesystem, the
prevalence chart is among the chart paths the run references, it does not
exist, the run's trace contains no file write before (or among) its 32 slide
additions, and the run emits the missing-image warning for that chart —
slide building proceeds regardless.  So the claim, quantified over every
run of the slide assembler, is false. -/
theorem c7_counterexample :
    (Build.CHARTS ++ "/prevalence_projection.png") ∈ Build.buildChartRefs ∧
    path_exists fsEmpty (Build.CHARTS ++ "/prevalence_projection.png") =
      false ∧
    (Build.build_presentation fsEmpty).2.2 =
      Build.buildSlideNames.map Event.slideAdded ++
        [Event.saved Build.OUTPUT] ∧
    ((Build.build_presentation fsEmpty).2.2.filter Event.isWrite) = [] ∧
    ("  WARNING: Image not found: " ++
        (Build.CHARTS ++ "/prevalence_projection.png")) ∈
      (Build.build_presentation fsEmpty).2.1 := by
  refine ⟨by decide, rfl, rfl, by decide, by decide⟩

/-- C7 (amended): in `create_presentation_v2.main()` the four referenced
chart files are written before any slide-building function runs — they all
exist in the filesystem the slide phase reads — the slide functions run in
the listed order (the trace names them in sequence), and the document is
saved exactly once, as the final effect.  `build_presentation()` generates
no charts (missing referenced charts are skipped with a warning), but
likewise adds its 32 slides in the listed order and saves its document
exactly once, as the final effect. -/
theorem c7_amended_order_and_single_save (env : Env) (fs : FS) :
    (V2.main env fs).2.2 =
      V2.v2ChartPaths.map Event.write ++
        V2.v2SlideNames.map Event.slideAdded ++ [Event.saved V2.OUTPUT] ∧
    (∀ p, p ∈ V2.v2ChartPaths →
      path_exists (V2.v2ChartPhase env fs) p = true) ∧
    (V2.main env fs).1 =
      writeFile V2.OUTPUT (FileData.pptx (V2.v2MainPrs env fs))
        (V2.v2ChartPhase env fs) ∧
    ((V2.main env fs).2.2.filter Event.isSave) = [Event.saved V2.OUTPUT] ∧
    (V2.main env fs).2.2.getLast? = some (Event.saved V2.OUTPUT) ∧
    (Build.build_presentation fs).2.2 =
      Build.buildSlideNames.map Event.slideAdded ++
        [Event.saved Build.OUTPUT] ∧
    (Build.build_presentation fs).1 =
      writeFile Build.OUTPUT (FileData.pptx (Build.buildPrs fs)) fs ∧
    ((Build.build_presentation fs).2.2.filter Event.isSave) =
      [Event.saved Build.OUTPUT] ∧
    (Build.build_presentation fs).2.2.getLast? =
      some (Event.saved Build.OUTPUT) := by
  refine ⟨rfl, ?_, v2_main_decomp env fs, rfl, rfl, rfl,
    build_decomp fs, rfl, rfl⟩
  intro p hp
  simp [V2.v2ChartPaths] at hp
  rcases hp with rfl | rfl | rfl | rfl <;>
    simp (disch := decide) only [V2.v2ChartPhase,
      V2.generate_prevalence_chart, V2.generate_classical_ml_chart,
      V2.generate_cnn_vs_swin_chart, V2.generate_leakage_chart,
      path_exists_writeFile, if_pos, if_neg]

/-- Witness for the amended ordering theorem at concrete inputs: from the
empty filesystem, the first referenced chart exists after step 1. -/
theorem c7_amended_order_and_single_save_witness :
    path_exists (V2.v2ChartPhase ⟨false, false⟩ fsEmpty)
      (V2.CHART_DIR ++ "/prevalence_projection.png") = true :=
  (c7_amended_order_and_single_save ⟨false, false⟩ fsEmpty).2.1 _ (by decide)
end Alz
